import Mathlib

/-!
Shallow embedding of the teleparser Telegram-blob decoder (src/tblob.py).

The decoder is written in Python on top of the `construct` library.  We embed
byte buffers as `List Nat` (each element `< 256`), parsed Python values as the
inductive `PVal`, and each `construct` subconstruct as a function
`Ctx → List Nat → Nat → Except PyErr (PVal × Nat)`: given the enclosing
struct's partially-built container (the `this` context), the whole buffer and
the current offset, a subconstruct either raises a Python-level exception
(`PyErr`) or returns the parsed value together with the new offset.

The semantics of the `construct` combinators used by the source are modelled
as follows, mirroring construct 2.9/2.10:
  * `IntXul`/`Byte` read exactly 1/4/8 little-endian bytes, raising
    `StreamError` when the buffer is short;
  * `Peek(sub)` parses ahead, restores the position, and yields Python `None`
    when the inner parse raises a construct error (e.g. at end of input);
  * `Const(v, Int32ul)` reads a word and raises on mismatch (`Hex` is a
    display-only wrapper and is dropped);
  * `Computed(e)` stores a derived value, consuming nothing;
  * `If(cond, sub) = IfThenElse(cond, sub, Pass)` stores Python `None` when
    the condition is falsy;
  * `FlagsEnum(Int32ul, n₁=b₁, …)` reads a word and stores a container of
    named booleans;
  * `Switch(key, cases)` with no matching case stores Python `None` and
    consumes nothing;
  * `Struct` runs its fields in declaration order, each field seeing the
    container built so far; unnamed fields are parsed but not stored;
  * `Padding(n)` skips `n` bytes (raising `StreamError` when short);
  * `Array(n, sub)` parses `n` elements;
  * `GreedyBytes` reads all remaining bytes.

Python-level exceptions that the decoding code can raise (and that propagate
out of `tblob.parse_blob`, which has no handler) are modelled by `PyErr`:
comparing Python `None` with an integer using `>=` raises `TypeError`;
dereferencing a missing container key raises `KeyError`; unpacking a 2-tuple
into three variables raises `ValueError`.  Calls to the `logger` module are
modelled by `LogMsg` values collected by `parse_blob`.
-/

set_option maxRecDepth 100000

namespace Teleparser

/-- A Python value as produced by `construct` parsing: `None`, unsigned
integers, `str` (as its list of code points), `bytes`, booleans, containers
(ordered field lists), Python lists, and the derived value
`datetime.utcfromtimestamp(epoch).isoformat()` (kept symbolic as `isodate`;
no claim inspects the rendered text, only its dependence on `epoch`). -/
inductive PVal where
  | pynone : PVal
  | int (n : Nat) : PVal
  | str (codepoints : List Nat) : PVal
  | bytes (bs : List Nat) : PVal
  | pybool (b : Bool) : PVal
  | isodate (epoch : Nat) : PVal
  | cont (fields : List (String × PVal)) : PVal
  | list (xs : List PVal) : PVal
deriving Repr

/-- Python-level exceptions raised during decoding.  `unmodeled` marks
decoders of record shapes that this development does not embed; no theorem
depends on the behaviour of an unmodeled decoder. -/
inductive PyErr where
  | streamError : PyErr
  | constError (expected got : Nat) : PyErr
  | typeError : PyErr
  | keyError (k : String) : PyErr
  | attributeError : PyErr
  | valueErrorUnpack : PyErr
  | unmodeled (decoderName : String) : PyErr
deriving Repr, DecidableEq

/-- Diagnostics emitted through the `logger` module. -/
inductive LogMsg where
  | errUnknownSignature (sig : Nat) : LogMsg
  | warnNotSupported (name : String) (sig : Nat) : LogMsg
  | warnUnparsed (name : String) (sig : Nat) (len : Nat) : LogMsg
  | errLengthMismatch (name : String) (sig : Nat) (dataLen objLen : Nat) : LogMsg
  | errUndecodableString (bs : List Nat) : LogMsg
deriving Repr, DecidableEq

/-- A `construct` container under construction: the ordered list of named
fields parsed so far (accessed through `this.<name>`). -/
abbrev Ctx := List (String × PVal)

/-- Container attribute access (`this.<k>` / `container[k]`). -/
def ctxGet (c : Ctx) (k : String) : Option PVal :=
  (c.find? (fun p => p.1 = k)).map (fun p => p.2)

/-- A subconstruct: context, buffer, offset ↦ exception or (value, new offset). -/
abbrev Sub := Ctx → List Nat → Nat → Except PyErr (PVal × Nat)

/-- Little-endian value of a byte list (`int.from_bytes(bs, 'little')`). -/
def leVal (bs : List Nat) : Nat :=
  bs.foldr (fun b acc => b + 256 * acc) 0

/-- Read `n` raw little-endian bytes as an unsigned integer
(`Byte`/`Int32ul`/`Int64ul`). -/
def intXul (n : Nat) : Sub := fun _ data off =>
  if off + n ≤ data.length then
    .ok (.int (leVal ((data.drop off).take n)), off + n)
  else
    .error .streamError

def byteP : Sub := intXul 1
def int32ul : Sub := intXul 4
def int64ul : Sub := intXul 8

/-- `Bytes(len(ctx))`: read a context-determined number of raw bytes. -/
def bytesE (len : Ctx → Except PyErr Nat) : Sub := fun ctx data off => do
  let n ← len ctx
  if off + n ≤ data.length then
    .ok (.bytes ((data.drop off).take n), off + n)
  else
    .error .streamError

/-- `Padding(n(ctx))`: skip a context-determined number of bytes. -/
def paddingE (n : Ctx → Except PyErr Nat) : Sub := fun ctx data off => do
  let k ← n ctx
  if off + k ≤ data.length then
    .ok (.pynone, off + k)
  else
    .error .streamError

/-- `GreedyBytes`: read all remaining bytes. -/
def greedyBytes : Sub := fun _ data off =>
  .ok (.bytes (data.drop off), data.length)

/-- `Peek(sub)`: parse ahead without consuming; a construct error inside the
peeked subconstruct yields Python `None`. -/
def peek (s : Sub) : Sub := fun ctx data off =>
  match s ctx data off with
  | .ok (v, _) => .ok (v, off)
  | .error _ => .ok (.pynone, off)

/-- `Pass`: store `None`, consume nothing. -/
def passP : Sub := fun _ _ off => .ok (.pynone, off)

/-- `Const(expected, Int32ul)` (the `Hex` display wrapper is dropped). -/
def constP (expected : Nat) : Sub := fun ctx data off => do
  let (v, off') ← int32ul ctx data off
  match v with
  | .int n => if n = expected then .ok (.int n, off') else .error (.constError expected n)
  | _ => .error .typeError

/-- `Computed` of a context-independent Python string. -/
def strCps (s : String) : List Nat := s.data.map Char.toNat

def computedStr (s : String) : Sub := fun _ _ off => .ok (.str (strCps s), off)

/-- `Computed` of a context-dependent integer expression. -/
def computedE (f : Ctx → Except PyErr Nat) : Sub := fun ctx _ off => do
  let n ← f ctx
  .ok (.int n, off)

/-- `IfThenElse(cond, t, e)`; the condition may raise (e.g. `TypeError` for
`None >= 254`, `KeyError` for a missing attribute). -/
def ifThenElseP (cond : Ctx → Except PyErr Bool) (t e : Sub) : Sub := fun ctx data off => do
  let b ← cond ctx
  if b then t ctx data off else e ctx data off

/-- `If(cond, sub) = IfThenElse(cond, sub, Pass)`. -/
def ifP (cond : Ctx → Except PyErr Bool) (t : Sub) : Sub := ifThenElseP cond t passP

/-- `FlagsEnum(Int32ul, name₁=bit₁, …)`: read a word, store named booleans. -/
def flagsEnum (flags : List (String × Nat)) : Sub := fun ctx data off => do
  let (v, off') ← int32ul ctx data off
  match v with
  | .int n =>
      .ok (.cont (flags.map (fun p => (p.1, PVal.pybool (n &&& p.2 = p.2)))), off')
  | _ => .error .typeError

/-- Evaluate `this.<flagsField>.<flagName>` as a boolean condition. -/
def flagIs (flagsField flagName : String) : Ctx → Except PyErr Bool := fun ctx =>
  match ctxGet ctx flagsField with
  | some (.cont fl) =>
      match ctxGet fl flagName with
      | some (.pybool b) => .ok b
      | _ => .error (.keyError flagName)
  | _ => .error (.keyError flagsField)

/-- Evaluate `this.<k>` as an integer (raising `KeyError`/`TypeError`). -/
def ctxInt (k : String) : Ctx → Except PyErr Nat := fun ctx =>
  match ctxGet ctx k with
  | some (.int n) => .ok n
  | some _ => .error .typeError
  | none => .error (.keyError k)

/-- `Switch(this.<key>, cases)`: dispatch on a previously peeked integer key;
a missing case stores Python `None` and consumes nothing. -/
def switchP (key : String) (cases : List (Nat × Sub)) : Sub := fun ctx data off =>
  match ctxGet ctx key with
  | some (.int k) =>
      match cases.find? (fun p => p.1 = k) with
      | some p => p.2 ctx data off
      | none => .ok (.pynone, off)
  | _ => .ok (.pynone, off)

/-- A record decoder this development does not embed. -/
def unmodeledSub (nm : String) : Sub := fun _ _ _ => .error (.unmodeled nm)

/-- Run a `Struct`'s fields in order, each seeing the container built so far;
fields named `none` model unnamed subconstructs (parsed, not stored). -/
def runFields : List (Option String × Sub) → Ctx → List Nat → Nat →
    Except PyErr (Ctx × Nat)
  | [], ctx, _, off => .ok (ctx, off)
  | (name?, s) :: rest, ctx, data, off => do
      let (v, off') ← s ctx data off
      match name? with
      | some n => runFields rest (ctx ++ [(n, v)]) data off'
      | none => runFields rest ctx data off'

/-- `Struct(fields)`: a fresh container is built from the fields in order. -/
def structP (fields : List (Option String × Sub)) : Sub := fun _ data off => do
  let (ctx, off') ← runFields fields [] data off
  .ok (.cont ctx, off')

/-- `Array(n(ctx), sub)`. -/
def arrayLoop (s : Sub) : Nat → Ctx → List Nat → Nat → Except PyErr (List PVal × Nat)
  | 0, _, _, off => .ok ([], off)
  | n + 1, ctx, data, off => do
      let (v, off') ← s ctx data off
      let (vs, off'') ← arrayLoop s n ctx data off'
      .ok (v :: vs, off'')

def arrayP (count : Ctx → Except PyErr Nat) (s : Sub) : Sub := fun ctx data off => do
  let n ← count ctx
  let (vs, off') ← arrayLoop s n ctx data off
  .ok (.list vs, off')

/-! ### Primitive codecs (tblob.py lines 38–93) -/

/-- Strict UTF-8 decoding as performed by Python's `bytes.decode('utf-8')`:
the decoded code points, or `none` for invalid input (continuation bytes in
`80..BF`, no overlong forms, no surrogates, maximum U+10FFFF). -/
def utf8Decode : List Nat → Option (List Nat)
  | [] => some []
  | b :: rest =>
    if b < 0x80 then (utf8Decode rest).map (fun cs => b :: cs)
    else if 0xc2 ≤ b ∧ b ≤ 0xdf then
      match rest with
      | c1 :: rest' =>
        if 0x80 ≤ c1 ∧ c1 ≤ 0xbf then
          (utf8Decode rest').map (fun cs => ((b - 0xc0) * 64 + (c1 - 0x80)) :: cs)
        else none
      | [] => none
    else if 0xe0 ≤ b ∧ b ≤ 0xef then
      match rest with
      | c1 :: c2 :: rest' =>
        if (if b = 0xe0 then 0xa0 else 0x80) ≤ c1 ∧
            c1 ≤ (if b = 0xed then 0x9f else 0xbf) ∧
            0x80 ≤ c2 ∧ c2 ≤ 0xbf then
          (utf8Decode rest').map
            (fun cs => ((b - 0xe0) * 4096 + (c1 - 0x80) * 64 + (c2 - 0x80)) :: cs)
        else none
      | _ => none
    else if 0xf0 ≤ b ∧ b ≤ 0xf4 then
      match rest with
      | c1 :: c2 :: c3 :: rest' =>
        if (if b = 0xf0 then 0x90 else 0x80) ≤ c1 ∧
            c1 ≤ (if b = 0xf4 then 0x8f else 0xbf) ∧
            0x80 ≤ c2 ∧ c2 ≤ 0xbf ∧ 0x80 ≤ c3 ∧ c3 ≤ 0xbf then
          (utf8Decode rest').map
            (fun cs => ((b - 0xf0) * 262144 + (c1 - 0x80) * 4096 +
                        (c2 - 0x80) * 64 + (c3 - 0x80)) :: cs)
        else none
      | _ => none
    else none

/-- `decode_tstring` (tblob.py lines 38–44): UTF-8-decode a byte string; on
`UnicodeDecodeError` log an error and return the raw byte sequence instead.
The second component is the list of log messages emitted. -/
def decode_tstring (binarray : List Nat) : PVal × List LogMsg :=
  match utf8Decode binarray with
  | some cps => (.str cps, [])
  | none => (.bytes binarray, [.errUndecodableString binarray])

/-- The condition `this._check >= 254`.  `_check` is Python `None` when
`Peek(Byte)` hit the end of the buffer, and `None >= 254` raises `TypeError`
in Python 3. -/
def checkGe254 : Ctx → Except PyErr Bool := fun ctx =>
  match ctxGet ctx "_check" with
  | some (.int n) => .ok (decide (254 ≤ n))
  | some .pynone => .error .typeError
  | _ => .error .typeError

/-- `'string' / Computed(lambda x: decode_tstring(x._value))`; the log
message is emitted to the global logger and is not part of the container. -/
def stringOfValue : Sub := fun ctx _ off =>
  match ctxGet ctx "_value" with
  | some (.bytes bs) => .ok ((decode_tstring bs).1, off)
  | _ => .error (.keyError "_value")

/-- The trailing alignment subconstruct shared by `tstring_struct` and
`tbytes_struct`:
`IfThenElse(check≥254, If(len%4, Padding(4-len%4)), If((len+1)%4, Padding(4-(len+1)%4)))`.
`lenKey` is `"_len"` for tstring and `"len"` for tbytes. -/
def tpadding (lenKey : String) : Option String × Sub :=
  (none, ifThenElseP checkGe254
    (ifP (fun ctx => (ctxInt lenKey ctx).map (fun n => decide (n % 4 ≠ 0)))
      (paddingE (fun ctx => (ctxInt lenKey ctx).map (fun n => 4 - n % 4))))
    (ifP (fun ctx => (ctxInt lenKey ctx).map (fun n => decide ((n + 1) % 4 ≠ 0)))
      (paddingE (fun ctx => (ctxInt lenKey ctx).map (fun n => 4 - (n + 1) % 4)))))

/-- `tstring_struct` (tblob.py lines 52–64). -/
def tstring_struct : Sub := structP [
  (some "_sname", computedStr "tstring"),
  (some "_check", peek byteP),
  (some "_pl", ifThenElseP checkGe254 int32ul byteP),
  (some "_len", ifThenElseP checkGe254
    (computedE (fun ctx => (ctxInt "_pl" ctx).map (fun n => n >>> 8)))
    (computedE (ctxInt "_pl"))),
  (some "_value", bytesE (ctxInt "_len")),
  (some "string", stringOfValue),
  tpadding "_len"]

/-- `'bytes' / Hex(Bytes(this.len))` of `tbytes_struct`. -/
def tbytes_struct : Sub := structP [
  (some "_sname", computedStr "tbytes"),
  (some "_check", peek byteP),
  (some "_pl", ifThenElseP checkGe254 int32ul byteP),
  (some "len", ifThenElseP checkGe254
    (computedE (fun ctx => (ctxInt "_pl" ctx).map (fun n => n >>> 8)))
    (computedE (ctxInt "_pl"))),
  (some "bytes", bytesE (ctxInt "len")),
  tpadding "len"]

/-- The condition `this.<k> == v` for an integer field. -/
def intEq (k : String) (v : Nat) : Ctx → Except PyErr Bool := fun ctx =>
  (ctxInt k ctx).map (fun n => decide (n = v))

/-- `tbool_struct` (tblob.py lines 79–86). -/
def tbool_struct : Sub := structP [
  (some "sname", computedStr "boolean"),
  (some "_signature", int32ul),
  (some "value", ifThenElseP (intEq "_signature" 0xbc799737) (computedStr "false")
    (ifThenElseP (intEq "_signature" 0x997275b5) (computedStr "true")
      (computedStr "ERROR")))]

/-- `'date' / Computed(lambda this: datetime.datetime.utcfromtimestamp(this.epoch).isoformat())`. -/
def isodateOfEpoch : Sub := fun ctx _ off =>
  (ctxInt "epoch" ctx).map (fun e => (.isodate e, off))

/-- `ttimestamp_struct` (tblob.py lines 90–93). -/
def ttimestamp_struct : Sub := structP [
  (some "epoch", int32ul),
  (some "date", isodateOfEpoch)]

/-! ### Record decoders needed by the claims.

Each `<name>_struct` below is translated field by field from the method of
the same name in tblob.py.  Tag-dispatched union fields
(`<family>_structures(name)`) are translated as the source's
`Struct('_signature' / Peek(Int32ul), name / Switch(this._signature, tag_map))`
pattern with the exact key set of the source's `tag_map`; keys whose target
shape no claim touches are mapped to `unmodeledSub`, which raises. -/

/-- `peer_channel_struct`. -/
def peer_channel_struct : Sub := structP [
  (some "sname", computedStr "peer_channel"),
  (some "signature", constP 0xbddde532),
  (some "channel_id", int32ul)]

/-- `peer_chat_struct`. -/
def peer_chat_struct : Sub := structP [
  (some "sname", computedStr "peer_chat"),
  (some "signature", constP 0xbad0e5bb),
  (some "chat_id", int32ul)]

/-- `peer_user_struct` (tblob.py lines 3669–3672). -/
def peer_user_struct : Sub := structP [
  (some "sname", computedStr "peer_user"),
  (some "signature", constP 0x9db1bc6d),
  (some "user_id", int32ul)]

/-- `peer_structures(name)` (tblob.py lines 3674–3683). -/
def peer_structures (name : String) : Sub := structP [
  (some "_signature", peek int32ul),
  (some name, switchP "_signature" [
    (0xbddde532, peer_channel_struct),
    (0xbad0e5bb, peer_chat_struct),
    (0x9db1bc6d, peer_user_struct)])]

/-- `user_status_recently_struct`. -/
def user_status_recently_struct : Sub := structP [
  (some "sname", computedStr "user_status_recently"),
  (some "signature", constP 0xe26f42f1)]

/-- `user_status_online_struct`. -/
def user_status_online_struct : Sub := structP [
  (some "sname", computedStr "user_status_online"),
  (some "signature", constP 0xedb93949),
  (some "expires", int32ul)]

/-- `user_status_offline_struct`. -/
def user_status_offline_struct : Sub := structP [
  (some "sname", computedStr "user_status_offline"),
  (some "signature", constP 0x008c703f),
  (some "expires", int32ul)]

/-- `user_status_last_week_struct`. -/
def user_status_last_week_struct : Sub := structP [
  (some "sname", computedStr "user_status_last_week"),
  (some "signature", constP 0x07bf09fc)]

/-- `user_status_last_month_struct`. -/
def user_status_last_month_struct : Sub := structP [
  (some "sname", computedStr "user_status_last_month"),
  (some "signature", constP 0x77ebc742)]

/-- `user_status_empty_struct`. -/
def user_status_empty_struct : Sub := structP [
  (some "sname", computedStr "user_status_empty"),
  (some "signature", constP 0x09d05049)]

/-- `user_status_structures(name)` (tblob.py lines 5101–5114). -/
def user_status_structures (name : String) : Sub := structP [
  (some "_signature", peek int32ul),
  (some name, switchP "_signature" [
    (0xe26f42f1, user_status_recently_struct),
    (0xedb93949, user_status_online_struct),
    (0x008c703f, user_status_offline_struct),
    (0x07bf09fc, user_status_last_week_struct),
    (0x09d05049, user_status_empty_struct),
    (0x77ebc742, user_status_last_month_struct)])]

/-- `user_profile_photo_empty_struct`. -/
def user_profile_photo_empty_struct : Sub := structP [
  (some "sname", computedStr "user_profile_photo_empty"),
  (some "signature", constP 0x4f11bae1)]

/-- `user_profile_photo_structures(name)` (tblob.py lines 5054–5066). -/
def user_profile_photo_structures (name : String) : Sub := structP [
  (some "_signature", peek int32ul),
  (some name, switchP "_signature" [
    (0x69d3ab26, unmodeledSub "user_profile_photo_struct"),
    (0xecd75d8c, unmodeledSub "user_profile_photo_layer115_struct"),
    (0xd559d8c8, unmodeledSub "user_profile_photo_layer97_struct"),
    (0x4f11bae1, user_profile_photo_empty_struct),
    (0x990d1493, unmodeledSub "user_profile_photo_old_struct")])]

/-- `restriction_reason_struct` (tblob.py lines 4252–4258). -/
def restriction_reason_struct : Sub := structP [
  (some "sname", computedStr "restriction_reason"),
  (some "signature", constP 0xd072acb4),
  (some "platform", tstring_struct),
  (some "reason", tstring_struct),
  (some "text", tstring_struct)]

/-- `message_action_empty_struct`. -/
def message_action_empty_struct : Sub := structP [
  (some "sname", computedStr "message_action_empty"),
  (some "signature", constP 0xb6aef7b0)]

/-- `message_action_structures(name)` (tblob.py lines 1865–1899). -/
def message_action_structures (name : String) : Sub := structP [
  (some "_signature", peek int32ul),
  (some name, switchP "_signature" [
    (0x80e11a7f, unmodeledSub "message_action_phone_call_struct"),
    (0x92a72876, unmodeledSub "message_action_game_score_struct"),
    (0x94bd38ed, unmodeledSub "message_action_pin_message_struct"),
    (0x95d2ac92, unmodeledSub "message_action_channel_create_struct"),
    (0x95e3fbef, unmodeledSub "message_action_chat_delete_photo_struct"),
    (0x9fbab604, unmodeledSub "message_action_history_clear_struct"),
    (0xa6638b9a, unmodeledSub "message_action_chat_create_struct"),
    (0xabe9affe, unmodeledSub "message_action_bot_allowed_struct"),
    (0xb055eaee, unmodeledSub "message_action_channel_migrate_from_struct"),
    (0xb2ae9b0c, unmodeledSub "message_action_chat_delete_user_struct"),
    (0xb5a1ce5a, unmodeledSub "message_action_chat_edit_title_struct"),
    (0xb6aef7b0, message_action_empty_struct),
    (0xd95c6154, unmodeledSub "message_action_secure_values_sent_struct"),
    (0xf3f25f76, unmodeledSub "message_action_contact_sign_up_struct"),
    (0xf89cf5e8, unmodeledSub "message_action_chat_joined_by_link_struct"),
    (0xfae69f56, unmodeledSub "message_action_custom_action_struct"),
    (0x40699cd0, unmodeledSub "message_action_payment_sent_struct"),
    (0x4792929b, unmodeledSub "message_action_screenshot_taken_struct"),
    (0x488a7337, unmodeledSub "message_action_chat_add_user_struct"),
    (0x51bdb021, unmodeledSub "message_action_chat_migrate_to_struct"),
    (0x55555550, unmodeledSub "message_action_user_joined_struct"),
    (0x55555551, unmodeledSub "message_action_user_updated_photo_struct"),
    (0x55555552, unmodeledSub "message_action_ttl_change_struct"),
    (0x55555557, unmodeledSub "message_action_created_broadcast_list_struct"),
    (0x555555f5, unmodeledSub "message_action_login_unknown_location_struct"),
    (0x555555f7, unmodeledSub "message_encrypted_action_struct"),
    (0x5e3cfc4b, unmodeledSub "message_action_chat_add_user_old_struct"),
    (0x7a0d7f42, unmodeledSub "message_action_group_call_struct"),
    (0x7fcb13a8, unmodeledSub "message_action_chat_edit_photo_struct")])]

/-- `message_fwd_header_structures(name)` (tblob.py lines 2147–2159). -/
def message_fwd_header_structures (name : String) : Sub := structP [
  (some "_signature", peek int32ul),
  (some name, switchP "_signature" [
    (0x353a686b, unmodeledSub "message_fwd_header_struct"),
    (0xc786ddcb, unmodeledSub "message_fwd_header_layer68_struct"),
    (0xec338270, unmodeledSub "message_fwd_header_layer112_struct"),
    (0xfadff4ac, unmodeledSub "message_fwd_header_layer72_struct"),
    (0x559ebe6d, unmodeledSub "message_fwd_header_layer96_struct")])]

/-- `message_media_structures(name)` (tblob.py lines 2384–2416). -/
def message_media_structures (name : String) : Sub := structP [
  (some "_signature", peek int32ul),
  (some name, switchP "_signature" [
    (0x3f7ee58b, unmodeledSub "message_media_dice_struct"),
    (0x638fe46b, unmodeledSub "message_media_dice_layer111_struct"),
    (0x3ded6320, unmodeledSub "message_media_empty_struct"),
    (0xa32dd600, unmodeledSub "message_media_web_page_struct"),
    (0x84551347, unmodeledSub "message_media_invoice_struct"),
    (0x9cb070d7, unmodeledSub "message_media_document_struct"),
    (0x9f84f49e, unmodeledSub "message_media_unsupported_struct"),
    (0xa2d24290, unmodeledSub "message_media_video_old_struct"),
    (0xb5223b0f, unmodeledSub "message_media_photo_layer74_struct"),
    (0xc6b68300, unmodeledSub "message_media_audio_layer45_struct"),
    (0xc8c45a2a, unmodeledSub "message_media_photo_old_struct"),
    (0xcbf24940, unmodeledSub "message_media_contact_struct"),
    (0xf3e02ea8, unmodeledSub "message_media_document_layer68_struct"),
    (0xfdb19008, unmodeledSub "message_media_game_struct"),
    (0x29632a36, unmodeledSub "message_media_unsupported_old_struct"),
    (0x2ec0533f, unmodeledSub "message_media_venue_struct"),
    (0x2fda2204, unmodeledSub "message_media_document_old_struct"),
    (0x3d8ce53d, unmodeledSub "message_media_photo_layer68_struct"),
    (0x4bd6e798, unmodeledSub "message_media_poll_struct"),
    (0x56e0d474, unmodeledSub "message_media_geo_struct"),
    (0x5bcf1675, unmodeledSub "message_media_video_layer45_struct"),
    (0x5e7d2f39, unmodeledSub "message_media_contact_layer81_struct"),
    (0x695150d7, unmodeledSub "message_media_photo_struct"),
    (0x7912b71f, unmodeledSub "message_media_venue_layer71_struct"),
    (0x7c3c2609, unmodeledSub "message_media_geo_live_struct"),
    (0x7c4414d3, unmodeledSub "message_media_document_layer74_struct")])]

/-- `reply_markup_structures(name)` (tblob.py lines 4238–4248). -/
def reply_markup_structures (name : String) : Sub := structP [
  (some "_signature", peek int32ul),
  (some name, switchP "_signature" [
    (0xa03e5b85, unmodeledSub "reply_keyboard_hide_struct"),
    (0xf4108aa0, unmodeledSub "reply_keyboard_force_reply_struct"),
    (0x3502758c, unmodeledSub "reply_keyboard_markup_struct"),
    (0x48a30254, unmodeledSub "reply_inline_markup_struct")])]

/-- `message_entity_structures(name)` (tblob.py lines 2015–2040). -/
def message_entity_structures (name : String) : Sub := structP [
  (some "_signature", peek int32ul),
  (some name, switchP "_signature" [
    (0x9c4e7e8b, unmodeledSub "message_entity_underline_struct"),
    (0xbf0693d4, unmodeledSub "message_entity_strike_struct"),
    (0x761e6af4, unmodeledSub "message_entity_bank_card_struct"),
    (0x020df5d0, unmodeledSub "message_entity_blockquote_struct"),
    (0x826f8b60, unmodeledSub "message_entity_italic_struct"),
    (0x9b69e34b, unmodeledSub "message_entity_phone_struct"),
    (0xbb92ba95, unmodeledSub "message_entity_unknown_struct"),
    (0xbd610bc9, unmodeledSub "message_entity_bold_struct"),
    (0xfa04579d, unmodeledSub "message_entity_mention_struct"),
    (0x208e68c9, unmodeledSub "input_message_entity_mention_name_struct"),
    (0x28a20571, unmodeledSub "message_entity_code_struct"),
    (0x352dca58, unmodeledSub "message_entity_mention_name_struct"),
    (0x4c4e743f, unmodeledSub "message_entity_cashtag_struct"),
    (0x64e475c2, unmodeledSub "message_entity_email_struct"),
    (0x6cef8ac7, unmodeledSub "message_entity_bot_command_struct"),
    (0x6ed02538, unmodeledSub "message_entity_url_struct"),
    (0x6f635b0d, unmodeledSub "message_entity_hashtag_struct"),
    (0x73924be0, unmodeledSub "message_entity_pre_struct"),
    (0x76a6d327, unmodeledSub "message_entity_text_url_struct")])]

/-- `user_empty_struct` (tblob.py lines 4859–4863). -/
def user_empty_struct : Sub := structP [
  (some "sname", computedStr "user_empty"),
  (some "signature", constP 0x200250ba),
  (some "id", int32ul)]

/-- `user_struct` (tblob.py lines 4946–4986). -/
def user_struct : Sub := structP [
  (some "sname", computedStr "user_struct"),
  (some "signature", constP 0x938458c1),
  (some "flags", flagsEnum [
    ("has_access_hash", 1),
    ("has_first_name", 2),
    ("has_last_name", 4),
    ("has_username", 8),
    ("has_phone", 16),
    ("has_profile_photo", 32),
    ("has_status", 64),
    ("is_self", 1024),
    ("is_contact", 2048),
    ("is_mutual_contact", 4096),
    ("is_deleted", 8192),
    ("is_bot", 16384),
    ("is_bot_chat_history", 32768),
    ("is_bot_no_chats", 65536),
    ("is_min", 1048576),
    ("is_verified", 131072),
    ("is_bot_inline_geo", 2097152),
    ("is_restricted", 262144),
    ("is_support", 8388608)]),
  (some "id", int32ul),
  (some "access_hash", ifP (flagIs "flags" "has_access_hash") int64ul),
  (some "first_name", ifP (flagIs "flags" "has_first_name") tstring_struct),
  (some "last_name", ifP (flagIs "flags" "has_last_name") tstring_struct),
  (some "username", ifP (flagIs "flags" "has_username") tstring_struct),
  (some "phone", ifP (flagIs "flags" "has_phone") tstring_struct),
  (some "photo", ifP (flagIs "flags" "has_profile_photo")
    (user_profile_photo_structures "photo")),
  (some "status", ifP (flagIs "flags" "has_status")
    (user_status_structures "status")),
  (some "bot_info_version", ifP (flagIs "flags" "is_bot") int32ul),
  (some "restrictions", ifP (flagIs "flags" "is_restricted") (structP [
    (some "_vector_sig", constP 0x1cb5c415),
    (some "restrictions_num", int32ul),
    (some "restrictions_array",
      arrayP (ctxInt "restrictions_num") restriction_reason_struct)]))]

/-- The condition `this.from_id == 0` of the `from_id_adjusted` field:
when `has_from_id` was clear, `from_id` holds Python `None`, and
`None == 0` evaluates to `False` (no exception). -/
def fromIdIsZero : Ctx → Except PyErr Bool := fun ctx =>
  match ctxGet ctx "from_id" with
  | some (.int n) => .ok (decide (n = 0))
  | some .pynone => .ok false
  | _ => .error (.keyError "from_id")

/-- The then-branch
`IfThenElse(this.to_id.user_id != 0, 'from_id_adjusted' / this.to_id.user_id,
'from_id_adjusted' / this.to_id.channel_id * -1)` of the `from_id_adjusted`
field.  Evaluating its condition reads `this.to_id.user_id`, but the value
stored at `to_id` is the `peer_structures` wrapper container
`{_signature, to_id}`, which has no `user_id` key, so the lookup raises
`KeyError`.  (Were the key present, the two branches are `this`-expressions
— `str.__truediv__` with a `construct` expression builds a lazy division —
not subconstructs, and parsing them raises `AttributeError`.) -/
def fromIdAdjustedInner : Sub := fun ctx _ _ =>
  match ctxGet ctx "to_id" with
  | some (.cont wrapper) =>
    match ctxGet wrapper "user_id" with
    | some _ => .error .attributeError
    | none => .error (.keyError "user_id")
  | _ => .error (.keyError "to_id")

/-- `message_service_layer48_struct` (tblob.py lines 2588–2611). -/
def message_service_layer48_struct : Sub := structP [
  (some "sname", computedStr "message_service_layer48"),
  (some "signature", constP 0xc06b9607),
  (some "flags", flagsEnum [
    ("unread", 1),
    ("out", 2),
    ("mentioned", 16),
    ("media_unread", 32),
    ("has_from_id", 256),
    ("is_via_bot", 2048),
    ("post", 16384),
    ("silent", 8192),
    ("is_grouped_id", 131072)]),
  (some "id", int32ul),
  (some "from_id", ifP (flagIs "flags" "has_from_id") int32ul),
  (some "to_id", peer_structures "to_id"),
  (some "from_id_adjusted", ifP fromIdIsZero fromIdAdjustedInner),
  (some "date", ttimestamp_struct),
  (some "action", message_action_structures "action")]

/-- `message_layer68_struct` (tblob.py lines 2613–2662). -/
def message_layer68_struct : Sub := structP [
  (some "sname", computedStr "message_layer68"),
  (some "signature", constP 0xc09be45f),
  (some "flags", flagsEnum [
    ("unread", 1),
    ("out", 2),
    ("forwarded", 4),
    ("is_reply_to_msg_id", 8),
    ("mentioned", 16),
    ("media_unread", 32),
    ("has_reply_markup", 64),
    ("has_entities", 128),
    ("has_from_id", 256),
    ("has_media", 512),
    ("has_views", 1024),
    ("is_via_bot", 2048),
    ("post", 16384),
    ("is_edited", 32768),
    ("silent", 8192),
    ("with_my_score", 1073741824)]),
  (some "id", int32ul),
  (some "from_id", ifP (flagIs "flags" "has_from_id") int32ul),
  (some "to_id", peer_structures "to_id"),
  (some "from_id_adjusted", ifP fromIdIsZero fromIdAdjustedInner),
  (some "fwd_from", ifP (flagIs "flags" "forwarded")
    (message_fwd_header_structures "fwd_from")),
  (some "via_bot_id", ifP (flagIs "flags" "is_via_bot") int32ul),
  (some "reply_to_msg_id", ifP (flagIs "flags" "is_reply_to_msg_id") int32ul),
  (some "date", ttimestamp_struct),
  (some "message", tstring_struct),
  (some "media", ifP (flagIs "flags" "has_media")
    (message_media_structures "media")),
  (some "_media_ttl", computedStr "ignored"),
  (some "_media_caption_legacy", computedStr "ignored"),
  (some "reply_markup", ifP (flagIs "flags" "has_reply_markup")
    (reply_markup_structures "reply_markup")),
  (some "entities", ifP (flagIs "flags" "has_entities") (structP [
    (some "_vector_sig", constP 0x1cb5c415),
    (some "message_entity_num", int32ul),
    (some "message_entity_array",
      arrayP (ctxInt "message_entity_num")
        (message_entity_structures "message_entity"))])),
  (some "views", ifP (flagIs "flags" "has_views") int32ul),
  (some "edit_timestamp", ifP (flagIs "flags" "is_edited") int32ul)]

/-! ### Signature registry and dispatcher (tblob.py lines 97–153, 5664–7305)

`tdss_callbacks` is a class-level Python dict literal mapping each 32-bit
signature to a tuple.  Most entries are 3-tuples
`(decoder_or_None, name, beautify)` — `beautify` is `None` in every entry of
the source — but 194 entries are 2-tuples `(decoder_or_None, name)` missing
the third component.  We keep the tuple arity in the embedding (`CbT.pair`
vs `CbT.triple`) because `parse_blob` unpacks each entry into exactly three
variables.  Decoder function references are kept by name; `runDecoder` maps
the names whose shapes are embedded above to their parsers. -/

/-- A value of the `tdss_callbacks` table: a Python 2- or 3-tuple whose first
component is a decoder function (by name) or `None`.  The third component of
every 3-tuple in the source is `None` and is not stored. -/
inductive CbT where
  | pair (decoder : Option String) (name : String) : CbT
  | triple (decoder : Option String) (name : String) : CbT
deriving Repr, DecidableEq

/-- Python `dict` lookup on an association list whose later bindings shadow
earlier ones (dict-literal and assignment semantics). -/
def dictLookup (d : List (Nat × CbT)) (k : Nat) : Option CbT :=
  (d.reverse.find? (fun p => p.1 = k)).map (fun p => p.2)

/-- One `self._callbacks[signature] = blob_tuple` assignment. -/
def dictInsert (d : List (Nat × CbT)) (k : Nat) (v : CbT) : List (Nat × CbT) :=
  if d.any (fun p => p.1 = k) then
    d.map (fun p => if p.1 = k then (k, v) else p)
  else
    d ++ [(k, v)]

/-- `tblob.__init__` (tblob.py lines 97–106): build `self._callbacks` by
inserting every entry of the class-level table in order into a fresh dict. -/
def build_callbacks (t : List (Nat × CbT)) : List (Nat × CbT) :=
  t.foldl (fun acc p => dictInsert acc p.1 p.2) []

def tdss_callbacks_0 : List (Nat × CbT) := [
  (0xb8d0afdf, CbT.triple Option.none "account_days_ttl"),
  (0xe7027c94, CbT.triple Option.none "account_accept_authorization"),
  (0xad2e1cd8, CbT.triple Option.none "account_authorization_form"),
  (0x1250abde, CbT.triple Option.none "account_authorizations"),
  (0x63cacf26, CbT.triple Option.none "account_auto_download_settings"),
  (0xc1cbd5b6, CbT.triple Option.none "account_cancel_password_email"),
  (0x70c32edb, CbT.triple Option.none "account_change_phone"),
  (0x2714d86c, CbT.triple Option.none "account_check_username"),
  (0x8fdf1920, CbT.triple Option.none "account_confirm_password_email"),
  (0x5f2178c3, CbT.triple Option.none "account_confirm_phone"),
  (0x8432c21f, CbT.triple Option.none "account_create_theme"),
  (0x418d4e0b, CbT.triple Option.none "account_delete_account"),
  (0xb880bc4b, CbT.triple Option.none "account_delete_secure_value"),
  (0x08fc711d, CbT.triple Option.none "account_get_account_ttl"),
  (0xb288bc7d, CbT.triple Option.none "account_get_all_secure_values"),
  (0xb86ba8e1, CbT.triple Option.none "account_get_authorization_form"),
  (0xe320c158, CbT.triple Option.none "account_get_authorizations"),
  (0x56da0b3f, CbT.triple Option.none "account_get_auto_download_settings"),
  (0x9f07c728, CbT.triple Option.none "account_get_contact_sign_up_notification"),
  (0xeb2b4cf6, CbT.triple Option.none "account_get_global_privacy_settings"),
  (0x65ad71dc, CbT.triple Option.none "account_get_multi_wall_papers"),
  (0x53577479, CbT.triple Option.none "account_get_notify_exceptions"),
  (0x12b3ad31, CbT.triple Option.none "account_get_notify_settings"),
  (0x548a30f5, CbT.triple Option.none "account_get_password"),
  (0x9cd4eaf9, CbT.triple Option.none "account_get_password_settings"),
  (0xdadbc950, CbT.triple Option.none "account_get_privacy"),
  (0x73665bc2, CbT.triple Option.none "account_get_secure_value"),
  (0x8d9d742b, CbT.triple Option.none "account_get_theme"),
  (0x285946f8, CbT.triple Option.none "account_get_themes"),
  (0x449e0b51, CbT.triple Option.none "account_get_tmp_password"),
  (0xfc8ddbea, CbT.triple Option.none "account_get_wall_paper"),
  (0xaabb1763, CbT.triple Option.none "account_get_wall_papers"),
  (0xc04cfac2, CbT.pair Option.none "account_get_wall_papers_v_0_1_317"),
  (0x182e6d6f, CbT.triple Option.none "account_get_web_authorizations"),
  (0x7ae43737, CbT.triple Option.none "account_install_theme"),
  (0xfeed5769, CbT.triple Option.none "account_install_wall_paper"),
  (0xad2641f8, CbT.triple Option.none "account_password"),
  (0xc23727c9, CbT.triple Option.none "account_password_input_settings"),
  (0x9a5c33e5, CbT.triple Option.none "account_password_settings"),
  (0x50a04e45, CbT.triple Option.none "account_privacy_rules"),
  (0x68976c6f, CbT.triple Option.none "account_register_device"),
  (0x554abb6f, CbT.triple Option.none "account_privacy_rules_v_5_6_2"),
  (0x446c712c, CbT.triple Option.none "account_register_device_v_0_1_317"),
  (0x5cbea590, CbT.triple Option.none "account_register_device_v_5_6_2"),
  (0xae189d5f, CbT.triple Option.none "account_report_peer"),
  (0x7a7f2a15, CbT.triple Option.none "account_resend_password_email"),
  (0xdf77f3bc, CbT.triple Option.none "account_reset_authorization"),
  (0xdb7e1747, CbT.triple Option.none "account_reset_notify_settings"),
  (0xbb3b9804, CbT.triple Option.none "account_reset_wall_papers"),
  (0x2d01b9ef, CbT.triple Option.none "account_reset_web_authorization"),
  (0x682d2594, CbT.triple Option.none "account_reset_web_authorizations"),
  (0x76f36233, CbT.triple Option.none "account_save_auto_download_settings"),
  (0x899fe31d, CbT.triple Option.none "account_save_secure_value"),
  (0xf257106c, CbT.triple Option.none "account_save_theme"),
  (0x6c5a5b37, CbT.triple Option.none "account_save_wall_paper"),
  (0x82574ae5, CbT.triple Option.none "account_send_change_phone_code"),
  (0x1b3faa88, CbT.triple Option.none "account_send_confirm_phone_code"),
  (0x7011509f, CbT.triple Option.none "account_send_verify_email_code"),
  (0xa5a356f9, CbT.triple Option.none "account_send_verify_phone_code"),
  (0x811f854f, CbT.triple Option.none "account_sent_email_code"),
  (0x2442485e, CbT.triple Option.none "account_set_account_ttl"),
  (0xcff43f61, CbT.triple Option.none "account_set_contact_sign_up_notification"),
  (0x1edaaac2, CbT.triple Option.none "account_set_global_privacy_settings"),
  (0xc9f81ce8, CbT.triple Option.none "account_set_privacy"),
  (0x7f676421, CbT.triple Option.none "account_themes"),
  (0xf41eb622, CbT.triple Option.none "account_themes_not_modified"),
  (0xdb64fd34, CbT.triple Option.none "account_tmp_password"),
  (0x3076c4bf, CbT.triple Option.none "account_unregister_device"),
  (0x65c55b40, CbT.pair Option.none "account_unregister_device_v_0_1_317"),
  (0x38df3532, CbT.triple Option.none "account_update_device_locked"),
  (0x84be5b93, CbT.triple Option.none "account_update_notify_settings"),
  (0xa59b102f, CbT.triple Option.none "account_update_password_settings"),
  (0x78515775, CbT.triple Option.none "account_update_profile"),
  (0xf0888d68, CbT.pair Option.none "account_update_profile_v_0_1_317"),
  (0x6628562c, CbT.triple Option.none "account_update_status"),
  (0x5cb367d5, CbT.triple Option.none "account_update_theme"),
  (0x3e0bdd7c, CbT.triple Option.none "account_update_username"),
  (0x1c3db333, CbT.triple Option.none "account_upload_theme"),
  (0xdd853661, CbT.triple Option.none "account_upload_wall_paper"),
  (0xecba39db, CbT.triple Option.none "account_verify_email"),
  (0x4dd3a7f6, CbT.triple Option.none "account_verify_phone"),
  (0x702b65a9, CbT.triple Option.none "account_wall_papers"),
  (0x1c199183, CbT.triple Option.none "account_wall_papers_not_modified"),
  (0xed56c9fc, CbT.triple Option.none "account_web_authorizations"),
  (0x586988d8, CbT.triple (some "audio_empty_layer45_struct") "audio_empty_layer45"),
  (0x555555f6, CbT.triple (some "audio_encrypted_struct") "audio_encrypted"),
  (0xf9e35055, CbT.triple (some "audio_layer45_struct") "audio_layer45"),
  (0x427425e7, CbT.triple (some "audio_old_struct") "audio_old"),
  (0xc7ac6496, CbT.triple (some "audio_old2_struct") "audio_old2"),
  (0xe894ad4d, CbT.triple Option.none "auth_accept_login_token"),
  (0xcd050916, CbT.triple Option.none "auth_authorization"),
  (0x44747e9a, CbT.triple Option.none "auth_authorization_sign_up_required"),
  (0xf6b673a4, CbT.pair Option.none "auth_authorization_v_0_1_317"),
  (0x1f040578, CbT.triple Option.none "auth_cancel_code"),
  (0xd18b4d16, CbT.triple Option.none "auth_check_password"),
  (0x6fe51dfb, CbT.triple Option.none "auth_check_phone_v_5_6_2"),
  (0x811ea28e, CbT.triple Option.none "auth_checked_phone_v_5_6_2"),
  (0xe300cc3b, CbT.pair Option.none "auth_checked_phone_v_0_1_317"),
  (0x741cd3e3, CbT.triple Option.none "auth_code_type_call"),
  (0x226ccefb, CbT.triple Option.none "auth_code_type_flash_call")]

def tdss_callbacks_1 : List (Nat × CbT) := [
  (0x72a3158c, CbT.triple Option.none "auth_code_type_sms"),
  (0xe5bfffcd, CbT.triple Option.none "auth_export_authorization"),
  (0xdf969c2d, CbT.triple Option.none "auth_exported_authorization"),
  (0xb1b41517, CbT.triple Option.none "auth_export_login_token"),
  (0xe3ef9613, CbT.triple Option.none "auth_import_authorization"),
  (0x95ac5ce4, CbT.triple Option.none "auth_import_login_token"),
  (0x5717da40, CbT.triple Option.none "auth_log_out"),
  (0x629f1980, CbT.triple Option.none "auth_login_token"),
  (0x068e9916, CbT.triple Option.none "auth_login_token_migrate_to"),
  (0x390d5c5e, CbT.triple Option.none "auth_login_token_success"),
  (0x137948a5, CbT.triple Option.none "auth_password_recovery"),
  (0x4ea56e92, CbT.triple Option.none "auth_recover_password"),
  (0xd897bc66, CbT.triple Option.none "auth_request_password_recovery"),
  (0x3ef1a9bf, CbT.triple Option.none "auth_resend_code"),
  (0x9fab0d1a, CbT.triple Option.none "auth_reset_authorizations"),
  (0x03c51564, CbT.pair Option.none "auth_send_call_v_0_1_317"),
  (0xa677244f, CbT.triple Option.none "auth_send_code"),
  (0x768d5f4d, CbT.pair Option.none "auth_send_code_v_0_1_317"),
  (0x771c1d97, CbT.pair Option.none "auth_send_invites_v_0_1_317"),
  (0x5e002502, CbT.triple Option.none "auth_sent_code"),
  (0x38faab5f, CbT.triple Option.none "auth_sent_code_v_5_6_2"),
  (0x2215bcbd, CbT.pair Option.none "auth_sent_code_v_0_1_317"),
  (0x3dbb5986, CbT.triple Option.none "auth_sent_code_type_app"),
  (0x5353e5a7, CbT.triple Option.none "auth_sent_code_type_call"),
  (0xab03c6d9, CbT.triple Option.none "auth_sent_code_type_flash_call"),
  (0xc000bba2, CbT.triple Option.none "auth_sent_code_type_sms"),
  (0xbcd51581, CbT.triple Option.none "auth_sign_in"),
  (0x80eee427, CbT.triple Option.none "auth_sign_up"),
  (0x1b067634, CbT.triple Option.none "auth_sign_up_v_5_6_2"),
  (0xad01d61d, CbT.triple Option.none "authorization"),
  (0xe04232f3, CbT.triple Option.none "auto_download_settings"),
  (0xd246fd47, CbT.triple Option.none "auto_download_settings_v_5_6_2"),
  (0xa7eff811, CbT.pair Option.none "bad_msg_notification_v_0_1_317"),
  (0xedab447b, CbT.pair Option.none "bad_server_salt_v_0_1_317"),
  (0xf568028a, CbT.triple Option.none "bank_card_open_url"),
  (0x5b11125a, CbT.triple (some "base_theme_arctic_struct") "base_theme_arctic"),
  (0xc3a12462, CbT.triple (some "base_theme_classic_struct") "base_theme_classic"),
  (0xfbd81688, CbT.triple (some "base_theme_day_struct") "base_theme_day"),
  (0xb7b31ea8, CbT.triple (some "base_theme_night_struct") "base_theme_night"),
  (0x6d5f77ee, CbT.triple (some "base_theme_tinted_struct") "base_theme_tinted"),
  (0xbc799737, CbT.triple Option.none "bool_false"),
  (0x997275b5, CbT.triple Option.none "bool_true"),
  (0xc27ac8c7, CbT.triple (some "bot_command_struct") "bot_command"),
  (0x98e81d3a, CbT.triple (some "bot_info_struct") "bot_info"),
  (0xbb2e37ce, CbT.triple (some "bot_info_empty_layer48_struct") "bot_info_empty_layer48"),
  (0x09cf585d, CbT.triple (some "bot_info_layer48_struct") "bot_info_layer48"),
  (0x17db940b, CbT.triple Option.none "bot_inline_media_result"),
  (0x764cf810, CbT.triple Option.none "bot_inline_message_media_auto"),
  (0x0a74b15b, CbT.triple Option.none "bot_inline_message_media_auto_layer74"),
  (0x18d1cdc2, CbT.triple Option.none "bot_inline_message_media_contact"),
  (0x35edb4d4, CbT.triple Option.none "bot_inline_message_media_contact_layer81"),
  (0xb722de65, CbT.triple Option.none "bot_inline_message_media_geo"),
  (0x3a8fd8b8, CbT.triple Option.none "bot_inline_message_media_geo_layer71"),
  (0x8a86659c, CbT.triple Option.none "bot_inline_message_media_venue"),
  (0x4366232e, CbT.triple Option.none "bot_inline_message_media_venue_layer77"),
  (0x8c7f65e2, CbT.triple Option.none "bot_inline_message_text"),
  (0x11965f3a, CbT.triple Option.none "bot_inline_result"),
  (0xd31a961e, CbT.triple (some "channel_struct") "channel"),
  (0x3b5a3e40, CbT.triple Option.none "channel_admin_log_event"),
  (0x55188a2e, CbT.triple Option.none "channel_admin_log_event_action_change_about"),
  (0xa26f881b, CbT.triple Option.none "channel_admin_log_event_action_change_linked_chat"),
  (0x0e6b76ae, CbT.triple Option.none "channel_admin_log_event_action_change_location"),
  (0x434bd2af, CbT.pair Option.none "channel_admin_log_event_action_change_photo"),
  (0xb82f55c3, CbT.triple Option.none "channel_admin_log_event_action_change_photo_v_5_5_0"),
  (0xb1c3caa7, CbT.triple Option.none "channel_admin_log_event_action_change_sticker_set"),
  (0xe6dfb825, CbT.triple Option.none "channel_admin_log_event_action_change_title"),
  (0x6a4afc38, CbT.triple Option.none "channel_admin_log_event_action_change_username"),
  (0x2df5fc0a, CbT.triple Option.none "channel_admin_log_event_action_default_banned_rights"),
  (0x42e047bb, CbT.triple Option.none "channel_admin_log_event_action_delete_message"),
  (0x709b2405, CbT.triple Option.none "channel_admin_log_event_action_edit_message"),
  (0xe31c34d8, CbT.triple Option.none "channel_admin_log_event_action_participant_invite"),
  (0x183040d3, CbT.triple Option.none "channel_admin_log_event_action_participant_join"),
  (0xf89777f2, CbT.triple Option.none "channel_admin_log_event_action_participant_leave"),
  (0xd5676710, CbT.triple Option.none "channel_admin_log_event_action_participant_toggle_admin"),
  (0xe6d83d7e, CbT.triple Option.none "channel_admin_log_event_action_participant_toggle_ban"),
  (0x8f079643, CbT.triple Option.none "channel_admin_log_event_action_stop_poll"),
  (0x1b7907ae, CbT.triple Option.none "channel_admin_log_event_action_toggle_invites"),
  (0x5f5c95f1, CbT.triple Option.none "channel_admin_log_event_action_toggle_pre_history_hidden"),
  (0x26ae0971, CbT.triple Option.none "channel_admin_log_event_action_toggle_signatures"),
  (0x53909779, CbT.triple Option.none "channel_admin_log_event_action_toggle_slow_mode"),
  (0xe9e82c18, CbT.triple Option.none "channel_admin_log_event_action_update_pinned"),
  (0xea107ae4, CbT.triple Option.none "channel_admin_log_events_filter"),
  (0x5d7ceba5, CbT.triple (some "channel_admin_rights_layer92_struct") "channel_admin_rights_layer92"),
  (0x58cf4249, CbT.triple (some "channel_banned_rights_layer92_struct") "channel_banned_rights_layer92"),
  (0x289da732, CbT.triple (some "channel_forbidden_struct") "channel_forbidden"),
  (0x2d85832c, CbT.triple (some "channel_forbidden_layer52_struct") "channel_forbidden_layer52"),
  (0x8537784f, CbT.triple (some "channel_forbidden_layer67_struct") "channel_forbidden_layer67"),
  (0xf0e6672a, CbT.triple Option.none "channel_full"),
  (0x9e341ddf, CbT.triple Option.none "channel_full_layer48"),
  (0x97bee562, CbT.triple Option.none "channel_full_layer52"),
  (0xc3d5512f, CbT.triple Option.none "channel_full_layer67"),
  (0x95cb5f57, CbT.triple Option.none "channel_full_layer70"),
  (0x17f45fcf, CbT.triple Option.none "channel_full_layer71"),
  (0x76af5481, CbT.triple Option.none "channel_full_layer72"),
  (0xcbb62890, CbT.triple Option.none "channel_full_layer89"),
  (0x1c87a71a, CbT.triple Option.none "channel_full_layer98"),
  (0x03648977, CbT.triple Option.none "channel_full_layer99"),
  (0x9882e516, CbT.triple Option.none "channel_full_layer101"),
  (0x10916653, CbT.triple Option.none "channel_full_layer103"),
  (0x2d895c74, CbT.triple Option.none "channel_full_layer110")]

def tdss_callbacks_2 : List (Nat × CbT) := [
  (0xfab31aa3, CbT.triple Option.none "channel_full_old"),
  (0x209b82db, CbT.triple Option.none "channel_location"),
  (0xbfb5ad8b, CbT.triple Option.none "channel_location_empty"),
  (0x630e61be, CbT.pair Option.none "chat_full_v_0_1_317"),
  (0xcd77d957, CbT.triple Option.none "channel_messages_filter"),
  (0x94d42ee7, CbT.triple Option.none "channel_messages_filter_empty"),
  (0x15ebac1d, CbT.triple Option.none "channel_participant"),
  (0xccbebbaf, CbT.triple Option.none "channel_participant_admin"),
  (0x5daa6e23, CbT.triple Option.none "channel_participant_admin_layer103"),
  (0xa82fa898, CbT.triple Option.none "channel_participant_admin_layer92"),
  (0x1c0facaf, CbT.triple Option.none "channel_participant_banned"),
  (0x222c1886, CbT.triple Option.none "channel_participant_banned_layer92"),
  (0x808d15a4, CbT.triple Option.none "channel_participant_creator"),
  (0xe3e2e1f9, CbT.triple Option.none "channel_participant_creator_layer103"),
  (0x98192d61, CbT.triple Option.none "channel_participant_editor_layer67"),
  (0x8cc5e69a, CbT.triple Option.none "channel_participant_kicked_layer67"),
  (0x91057fef, CbT.triple Option.none "channel_participant_moderator_layer67"),
  (0xa3289a6d, CbT.triple Option.none "channel_participant_self"),
  (0xb4608969, CbT.triple Option.none "channel_participants_admins"),
  (0x1427a5e1, CbT.triple Option.none "channel_participants_banned"),
  (0xb0d1865b, CbT.triple Option.none "channel_participants_bots"),
  (0xbb6ae88d, CbT.triple Option.none "channel_participants_contacts"),
  (0xa3b54985, CbT.triple Option.none "channel_participants_kicked"),
  (0xde3f3c79, CbT.triple Option.none "channel_participants_recent"),
  (0x0656ac4b, CbT.triple Option.none "channel_participants_search"),
  (0x4df30834, CbT.triple (some "channel_layer104_struct") "channel_layer104"),
  (0x4b1b7506, CbT.triple (some "channel_layer48_struct") "channel_layer48"),
  (0xa14dca52, CbT.triple (some "channel_layer67_struct") "channel_layer67"),
  (0x0cb44b1c, CbT.triple (some "channel_layer72_struct") "channel_layer72"),
  (0x450b7115, CbT.triple (some "channel_layer77_struct") "channel_layer77"),
  (0xc88974ac, CbT.triple (some "channel_layer92_struct") "channel_layer92"),
  (0x678e9587, CbT.triple (some "channel_old_struct") "channel_old"),
  (0xed8af74d, CbT.triple Option.none "channels_admin_log_results"),
  (0xd0d9b163, CbT.triple Option.none "channels_channel_participant"),
  (0xf56ee2a8, CbT.triple Option.none "channels_channel_participants"),
  (0xf0173fe9, CbT.triple Option.none "channels_channel_participants_not_modified"),
  (0x10e6bd2c, CbT.triple Option.none "channels_check_username"),
  (0x3d5fb10f, CbT.triple Option.none "channels_create_channel"),
  (0xf4893d7f, CbT.triple Option.none "channels_create_channel_v_5_6_2"),
  (0xc0111fe3, CbT.triple Option.none "channels_delete_channel"),
  (0xaf369d42, CbT.triple Option.none "channels_delete_history"),
  (0x84c1fd4e, CbT.triple Option.none "channels_delete_messages"),
  (0xd10dd71b, CbT.triple Option.none "channels_delete_user_history"),
  (0xd33c8902, CbT.triple Option.none "channels_edit_admin"),
  (0x70f893ba, CbT.triple Option.none "channels_edit_admin_v_5_6_2"),
  (0x72796912, CbT.triple Option.none "channels_edit_banned"),
  (0x8f38cd1f, CbT.triple Option.none "channels_edit_creator"),
  (0x58e63f6d, CbT.triple Option.none "channels_edit_location"),
  (0xf12e57c9, CbT.triple Option.none "channels_edit_photo"),
  (0x566decd0, CbT.triple Option.none "channels_edit_title"),
  (0xc846d22d, CbT.triple Option.none "channels_export_message_link"),
  (0x33ddf480, CbT.triple Option.none "channels_get_admin_log"),
  (0xf8b036af, CbT.triple Option.none "channels_get_admined_public_channels"),
  (0x8d8d82d7, CbT.triple Option.none "channels_get_admined_public_channels_v_5_6_2"),
  (0x0a7f6bbb, CbT.triple Option.none "channels_get_channels"),
  (0x08736a09, CbT.triple Option.none "channels_get_full_channel"),
  (0xf5dad378, CbT.triple Option.none "channels_get_groups_for_discussion"),
  (0x11e831ee, CbT.triple Option.none "channels_get_inactive_channels"),
  (0x93d7b347, CbT.triple Option.none "channels_get_messages"),
  (0x546dd7a6, CbT.triple Option.none "channels_get_participant"),
  (0x123e05e9, CbT.triple Option.none "channels_get_participants"),
  (0x199f3a6c, CbT.triple Option.none "channels_invite_to_channel"),
  (0x24b524c5, CbT.triple Option.none "channels_join_channel"),
  (0xf836aa95, CbT.triple Option.none "channels_leave_channel"),
  (0xcc104937, CbT.triple Option.none "channels_read_history"),
  (0xeab5dc38, CbT.triple Option.none "channels_read_message_contents"),
  (0xfe087810, CbT.triple Option.none "channels_report_spam"),
  (0x43a0a7e2, CbT.triple Option.none "channels_search_posts"),
  (0x40582bb2, CbT.triple Option.none "channels_set_discussion_group"),
  (0xea8ca4f9, CbT.triple Option.none "channels_set_stickers"),
  (0xeabbb94c, CbT.triple Option.none "channels_toggle_pre_history_hidden"),
  (0x1f69b606, CbT.triple Option.none "channels_toggle_signatures"),
  (0xedd49ef0, CbT.triple Option.none "channels_toggle_slow_mode"),
  (0x3514b3de, CbT.triple Option.none "channels_update_username"),
  (0x3bda1bde, CbT.triple (some "chat_struct") "chat"),
  (0x5fb224d5, CbT.triple (some "chat_admin_rights_struct") "chat_admin_rights"),
  (0x9f120418, CbT.triple (some "chat_banned_rights_struct") "chat_banned_rights"),
  (0x9ba2d800, CbT.triple (some "chat_empty_struct") "chat_empty"),
  (0x07328bdb, CbT.triple (some "chat_forbidden_struct") "chat_forbidden"),
  (0xfb0ccc41, CbT.triple (some "chat_forbidden_old_struct") "chat_forbidden_old"),
  (0x1b7c9db3, CbT.triple Option.none "chat_full"),
  (0x2e02a614, CbT.triple Option.none "chat_full_layer87"),
  (0xedd2a791, CbT.triple Option.none "chat_full_layer92"),
  (0x22a235da, CbT.triple Option.none "chat_full_layer98"),
  (0xdfc2f58e, CbT.triple Option.none "chat_invite"),
  (0x5a686d7c, CbT.triple Option.none "chat_invite_already"),
  (0x69df3769, CbT.triple Option.none "chat_invite_empty"),
  (0xfc2e05bc, CbT.triple Option.none "chat_invite_exported"),
  (0x61695cb0, CbT.triple Option.none "chat_invite_peek"),
  (0xdb74f558, CbT.triple Option.none "chat_invite_v_5_5_0"),
  (0xd91cdd54, CbT.triple (some "chat_layer92_struct") "chat_layer92"),
  (0x3631cf4c, CbT.triple Option.none "chat_located"),
  (0xf041e250, CbT.triple Option.none "chat_onlines"),
  (0xc8d7493e, CbT.triple Option.none "chat_participant"),
  (0xe2d6e436, CbT.triple Option.none "chat_participant_admin"),
  (0xda13538a, CbT.triple Option.none "chat_participant_creator"),
  (0x3f460fed, CbT.triple Option.none "chat_participants"),
  (0xfc900c2b, CbT.triple Option.none "chat_participants_forbidden"),
  (0x0fd2bb8a, CbT.triple Option.none "chat_participants_forbidden_old"),
  (0x7841b415, CbT.triple Option.none "chat_participants_old")]

def tdss_callbacks_3 : List (Nat × CbT) := [
  (0xd20b9f3c, CbT.triple (some "chat_photo_struct") "chat_photo"),
  (0x475cdbd5, CbT.pair (some "chat_photo_layer115_struct") "chat_photo_layer115"),
  (0x6153276a, CbT.triple (some "chat_photo_layer97_struct") "chat_photo_layer97"),
  (0x37c1011c, CbT.triple (some "chat_photo_empty_struct") "chat_photo_empty"),
  (0x6e9c9bc7, CbT.triple (some "chat_old_struct") "chat_old"),
  (0x7312bc48, CbT.triple (some "chat_old2_struct") "chat_old2"),
  (0x6643b654, CbT.pair Option.none "client_dh_inner_data_v_0_1_317"),
  (0xdebebe83, CbT.triple Option.none "code_settings"),
  (0x302f59f3, CbT.triple Option.none "code_settings_v_5_6_2"),
  (0x330b4067, CbT.triple Option.none "config"),
  (0x232d5905, CbT.pair Option.none "config_v_0_1_317"),
  (0xe6ca25f6, CbT.triple Option.none "config_v_5_5_0"),
  (0xf911c994, CbT.triple Option.none "contact"),
  (0x561bc879, CbT.triple Option.none "contact_blocked"),
  (0xea879f95, CbT.triple Option.none "contact_found"),
  (0xd502c2d0, CbT.triple (some "contact_link_contact_struct") "contact_link_contact"),
  (0x268f3f59, CbT.triple (some "contact_link_has_phone_struct") "contact_link_has_phone"),
  (0xfeedd3ad, CbT.triple (some "contact_link_none_struct") "contact_link_none"),
  (0x5f4f9247, CbT.triple (some "contact_link_unknown_struct") "contact_link_unknown"),
  (0xd3680c61, CbT.triple Option.none "contact_status"),
  (0xaa77b873, CbT.pair Option.none "contact_status_v_0_1_317"),
  (0x3de191a1, CbT.pair Option.none "contact_suggested_v_0_1_317"),
  (0xf831a20f, CbT.triple Option.none "contacts_accept_contact"),
  (0xe8f463d0, CbT.triple Option.none "contacts_add_contact"),
  (0x332b49fc, CbT.triple Option.none "contacts_block"),
  (0x1c138d15, CbT.triple Option.none "contacts_blocked"),
  (0x900802a1, CbT.triple Option.none "contacts_blocked_slice"),
  (0xeae87e42, CbT.triple Option.none "contacts_contacts"),
  (0x6f8b8cb2, CbT.pair Option.none "contacts_contacts_v_0_1_317"),
  (0xb74ba9d2, CbT.triple Option.none "contacts_contacts_not_modified"),
  (0x1013fd9e, CbT.triple Option.none "contacts_delete_by_phones"),
  (0x8e953744, CbT.triple Option.none "contacts_delete_contact"),
  (0x096a0e00, CbT.triple Option.none "contacts_delete_contacts"),
  (0x59ab389e, CbT.triple Option.none "contacts_delete_contacts_v_5_6_2"),
  (0x84e53737, CbT.triple Option.none "contacts_export_card"),
  (0x1bea8ce1, CbT.pair Option.none "contacts_foreign_link_mutual_v_0_1_317"),
  (0xa7801f47, CbT.pair Option.none "contacts_foreign_link_requested_v_0_1_317"),
  (0x133421f8, CbT.pair Option.none "contacts_foreign_link_unknown_v_0_1_317"),
  (0xb3134d9d, CbT.triple Option.none "contacts_found"),
  (0x0566000e, CbT.pair Option.none "contacts_found_v_0_1_317"),
  (0xf57c350f, CbT.triple Option.none "contacts_get_blocked"),
  (0xc023849f, CbT.triple Option.none "contacts_get_contacts"),
  (0x22c6aa08, CbT.pair Option.none "contacts_get_contacts_v_0_1_317"),
  (0xd348bc44, CbT.triple Option.none "contacts_get_located"),
  (0xc4a353ee, CbT.triple Option.none "contacts_get_statuses"),
  (0xcd773428, CbT.pair Option.none "contacts_get_suggested_v_0_1_317"),
  (0xd4982db5, CbT.triple Option.none "contacts_get_top_peers"),
  (0x4fe196fe, CbT.triple Option.none "contacts_import_card"),
  (0x2c800be5, CbT.triple Option.none "contacts_import_contacts"),
  (0xda30b32d, CbT.pair Option.none "contacts_import_contacts_v_0_1_317"),
  (0x77d01c3b, CbT.triple Option.none "contacts_imported_contacts"),
  (0xd1cd0a4c, CbT.pair Option.none "contacts_imported_contacts_v_0_1_317"),
  (0x3ace484c, CbT.triple (some "contacts_link_layer101_struct") "contacts_link_layer101"),
  (0xeccea3f5, CbT.pair Option.none "contacts_link_v_0_317"),
  (0xc240ebd9, CbT.pair Option.none "contacts_my_link_contact_v_0_1_317"),
  (0xd22a1c60, CbT.pair Option.none "contacts_my_link_empty_v_0_1_317"),
  (0x6c69efee, CbT.pair Option.none "contacts_my_link_requested_v_0_1_317"),
  (0x879537f1, CbT.triple Option.none "contacts_reset_saved"),
  (0x1ae373ac, CbT.triple Option.none "contacts_reset_top_peer_rating"),
  (0xf93ccba3, CbT.triple Option.none "contacts_resolve_username"),
  (0x7f077ad9, CbT.triple Option.none "contacts_resolved_peer"),
  (0x11f812d8, CbT.triple Option.none "contacts_search"),
  (0x5649dcc5, CbT.pair Option.none "contacts_suggested_v_0_1_317"),
  (0x8514bdda, CbT.triple Option.none "contacts_toggle_top_peers"),
  (0x70b772a8, CbT.triple Option.none "contacts_top_peers"),
  (0xb52c939d, CbT.triple Option.none "contacts_top_peers_disabled"),
  (0xde266ef5, CbT.triple Option.none "contacts_top_peers_not_modified"),
  (0xe54100bd, CbT.triple Option.none "contacts_unblock"),
  (0x7d748d04, CbT.triple Option.none "data_json"),
  (0x18b7a10d, CbT.triple Option.none "dc_option"),
  (0x2ec2a43c, CbT.pair Option.none "dc_option_v_0_1_317"),
  (0x91cc4674, CbT.triple Option.none "decrypted_message"),
  (0xdd05ec6b, CbT.triple (some "decrypted_message_action_abort_key_struct") "decrypted_message_action_abort_key"),
  (0x6fe1735b, CbT.triple (some "decrypted_message_action_accept_key_struct") "decrypted_message_action_accept_key"),
  (0xec2e0b9b, CbT.triple (some "decrypted_message_action_commit_key_struct") "decrypted_message_action_commit_key"),
  (0x65614304, CbT.triple (some "decrypted_message_action_delete_messages_struct") "decrypted_message_action_delete_messages"),
  (0x6719e45c, CbT.triple (some "decrypted_message_action_flush_history_struct") "decrypted_message_action_flush_history"),
  (0xa82fdd63, CbT.triple (some "decrypted_message_action_noop_struct") "decrypted_message_action_noop"),
  (0xf3048883, CbT.triple (some "decrypted_message_action_notify_layer_struct") "decrypted_message_action_notify_layer"),
  (0x0c4f40be, CbT.triple (some "decrypted_message_action_read_messages_struct") "decrypted_message_action_read_messages"),
  (0xf3c9611b, CbT.triple (some "decrypted_message_action_request_key_struct") "decrypted_message_action_request_key"),
  (0x511110b0, CbT.triple (some "decrypted_message_action_resend_struct") "decrypted_message_action_resend"),
  (0x8ac1f475, CbT.triple (some "decrypted_message_action_screenshot_messages_struct") "decrypted_message_action_screenshot_messages"),
  (0xa1733aec, CbT.triple (some "decrypted_message_action_set_message_ttl_struct") "decrypted_message_action_set_message_ttl"),
  (0xccb27641, CbT.triple (some "decrypted_message_action_typing_struct") "decrypted_message_action_typing"),
  (0x1be31789, CbT.triple Option.none "decrypted_message_layer"),
  (0x99a438cf, CbT.pair Option.none "decrypted_message_layer_v_0_1_317"),
  (0x57e0a9cb, CbT.triple Option.none "decrypted_message_media_audio"),
  (0x6080758f, CbT.triple Option.none "decrypted_message_media_audio_layer8"),
  (0x588a0a97, CbT.triple Option.none "decrypted_message_media_contact"),
  (0x7afe8ae2, CbT.triple Option.none "decrypted_message_media_document"),
  (0xb095434b, CbT.triple Option.none "decrypted_message_media_document_layer8"),
  (0x089f5c4a, CbT.triple Option.none "decrypted_message_media_empty"),
  (0xfa95b0dd, CbT.triple Option.none "decrypted_message_media_external_document"),
  (0x35480a59, CbT.triple Option.none "decrypted_message_media_geo_point"),
  (0xf1fa8d78, CbT.triple Option.none "decrypted_message_media_photo"),
  (0x32798a8c, CbT.triple Option.none "decrypted_message_media_photo_layer8"),
  (0x8a0df56f, CbT.triple Option.none "decrypted_message_media_venue"),
  (0x970c8c0e, CbT.triple Option.none "decrypted_message_media_video"),
  (0x524a415d, CbT.triple Option.none "decrypted_message_media_video_layer17")]

def tdss_callbacks_4 : List (Nat × CbT) := [
  (0x4cee6ef3, CbT.triple Option.none "decrypted_message_media_video_layer8"),
  (0xe50511d8, CbT.triple Option.none "decrypted_message_media_web_page"),
  (0x73164160, CbT.triple Option.none "decrypted_message_service"),
  (0xaa48327d, CbT.triple Option.none "decrypted_message_service_layer8"),
  (0x204d3878, CbT.triple Option.none "decrypted_message_layer17"),
  (0x36b091de, CbT.triple Option.none "decrypted_message_layer45"),
  (0x1f814f1f, CbT.triple Option.none "decrypted_message_layer8"),
  (0xe7512126, CbT.pair Option.none "destroy_session_v_0_1_317"),
  (0xa13dc52f, CbT.pair Option.none "destroy_sessions_v_0_1_317"),
  (0x62d350c9, CbT.pair Option.none "destroy_session_none_v_0_1_317"),
  (0xe22045fc, CbT.pair Option.none "destroy_session_ok_v_0_1_317"),
  (0xfb95abcd, CbT.pair Option.none "destroy_sessions_res_v_0_1_317"),
  (0xa69dae02, CbT.pair Option.none "dh_gen_fail_v_0_1_317"),
  (0x3bcbf734, CbT.pair Option.none "dh_gen_ok_v_0_1_317"),
  (0x46dc1fb9, CbT.pair Option.none "dh_gen_retry_v_0_1_317"),
  (0x2c171f72, CbT.triple Option.none "dialog"),
  (0x7438f7e8, CbT.triple Option.none "dialog_filter"),
  (0x77744d4a, CbT.triple Option.none "dialog_filter_suggested"),
  (0x14f9162c, CbT.triple Option.none "dialog_filter_v_5_15_0"),
  (0x71bd134c, CbT.triple Option.none "dialog_folder"),
  (0x214a8cdf, CbT.pair Option.none "dialog_v_0_1_317"),
  (0xe4def5db, CbT.triple Option.none "dialog_v_5_5_0"),
  (0xe56dbf05, CbT.triple Option.none "dialog_peer"),
  (0xda429411, CbT.triple Option.none "dialog_peer_feed_v_5_5_0"),
  (0x514519e2, CbT.triple Option.none "dialog_peer_folder"),
  (0x1e87342b, CbT.triple (some "document_struct") "document"),
  (0x11b58939, CbT.triple (some "document_attribute_animated_struct") "document_attribute_animated"),
  (0x9852f9c6, CbT.triple (some "document_attribute_audio_struct") "document_attribute_audio"),
  (0xded218e0, CbT.triple (some "document_attribute_audio_layer45_struct") "document_attribute_audio_layer45"),
  (0x051448e5, CbT.triple (some "document_attribute_audio_old_struct") "document_attribute_audio_old"),
  (0x15590068, CbT.triple (some "document_attribute_filename_struct") "document_attribute_filename"),
  (0x9801d2f7, CbT.triple (some "document_attribute_has_stickers_struct") "document_attribute_has_stickers"),
  (0x6c37c15c, CbT.triple (some "document_attribute_image_size_struct") "document_attribute_image_size"),
  (0x6319d612, CbT.triple (some "document_attribute_sticker_struct") "document_attribute_sticker"),
  (0x3a556302, CbT.triple (some "document_attribute_sticker_layer55_struct") "document_attribute_sticker_layer55"),
  (0xfb0a5727, CbT.triple (some "document_attribute_sticker_old_struct") "document_attribute_sticker_old"),
  (0x994c9882, CbT.triple (some "document_attribute_sticker_old2_struct") "document_attribute_sticker_old2"),
  (0x0ef02ce6, CbT.triple (some "document_attribute_video_struct") "document_attribute_video"),
  (0x5910cccb, CbT.triple (some "document_attribute_video_layer65_struct") "document_attribute_video_layer65"),
  (0x36f8c871, CbT.triple (some "document_empty_struct") "document_empty"),
  (0x55555558, CbT.triple (some "document_encrypted_struct") "document_encrypted"),
  (0x55555556, CbT.triple (some "document_encrypted_old_struct") "document_encrypted_old"),
  (0x9ba29cc1, CbT.triple (some "document_layer113_struct") "document_layer113"),
  (0xf9a39f4f, CbT.triple (some "document_layer53_struct") "document_layer53"),
  (0x87232bc7, CbT.triple (some "document_layer82_struct") "document_layer82"),
  (0x59534e4c, CbT.triple (some "document_layer92_struct") "document_layer92"),
  (0x9efc6326, CbT.triple (some "document_old_struct") "document_old"),
  (0xfd8e711f, CbT.triple Option.none "draft_message"),
  (0x1b0c841a, CbT.triple Option.none "draft_message_empty"),
  (0xba4baec5, CbT.triple Option.none "draft_message_empty_layer81"),
  (0xd5b3b9f9, CbT.triple Option.none "emoji_keyword"),
  (0x236df622, CbT.triple Option.none "emoji_keyword_deleted"),
  (0x5cc761bd, CbT.triple Option.none "emoji_keywords_difference"),
  (0xb3fb5361, CbT.triple Option.none "emoji_language"),
  (0xa575739d, CbT.triple Option.none "emoji_url"),
  (0xfa56ce36, CbT.triple (some "encrypted_chat_struct") "encrypted_chat"),
  (0x13d6dd27, CbT.triple (some "encrypted_chat_discarded_struct") "encrypted_chat_discarded"),
  (0xab7ec0a0, CbT.triple (some "encrypted_chat_empty_struct") "encrypted_chat_empty"),
  (0x62718a82, CbT.triple (some "encrypted_chat_requested_struct") "encrypted_chat_requested"),
  (0xc878527e, CbT.triple (some "encrypted_chat_requested_layer115_struct") "encrypted_chat_requested_layer115"),
  (0xfda9a7b7, CbT.triple (some "encrypted_chat_requested_old_struct") "encrypted_chat_requested_old"),
  (0x3bf703dc, CbT.triple (some "encrypted_chat_waiting_struct") "encrypted_chat_waiting"),
  (0x6601d14f, CbT.triple (some "encrypted_chat_old_struct") "encrypted_chat_old"),
  (0x4a70994c, CbT.triple Option.none "encrypted_file"),
  (0xc21f497e, CbT.triple Option.none "encrypted_file_empty"),
  (0xed18c118, CbT.triple Option.none "encrypted_message"),
  (0x23734b06, CbT.triple Option.none "encrypted_message_service"),
  (0xc4b9f9bb, CbT.triple Option.none "error"),
  (0x5dab1af4, CbT.triple Option.none "exported_message_link"),
  (0x55555554, CbT.triple (some "file_encrypted_location_struct") "file_encrypted_location"),
  (0x6242c773, CbT.triple Option.none "file_hash"),
  (0xbc7fc6cd, CbT.triple (some "file_location_to_be_deprecated_struct") "file_location_to_be_deprecated"),
  (0x53d69076, CbT.triple (some "file_location_layer82_struct") "file_location_layer82"),
  (0x091d11eb, CbT.triple (some "file_location_layer97_struct") "file_location_layer97"),
  (0x7c596b46, CbT.triple (some "file_location_unavailable_struct") "file_location_unavailable"),
  (0xff544e65, CbT.triple Option.none "folder"),
  (0xe9baa668, CbT.triple Option.none "folder_peer"),
  (0x1c295881, CbT.triple Option.none "folders_delete_folder"),
  (0x6847d0ab, CbT.triple Option.none "folders_edit_peer_folders"),
  (0x162ecc1f, CbT.triple Option.none "found_gif"),
  (0x9c750409, CbT.triple Option.none "found_gif_cached"),
  (0x0949d9dc, CbT.pair Option.none "future_salt_v_0_1_317"),
  (0xae500895, CbT.pair Option.none "futuresalts_v_0_1_317"),
  (0xbdf9653b, CbT.triple (some "game_struct") "game"),
  (0x75eaea5a, CbT.pair Option.none "geo_chat_v_0_1_317"),
  (0x4505f8e1, CbT.pair Option.none "geo_chat_message_v_0_1_317"),
  (0x60311a9b, CbT.pair Option.none "geo_chat_message_empty_v_0_1_317"),
  (0xd34fa24e, CbT.pair Option.none "geo_chat_message_service_v_0_1_317"),
  (0x0296f104, CbT.triple (some "geo_point_struct") "geo_point"),
  (0x1117dd5f, CbT.triple (some "geo_point_empty_struct") "geo_point_empty"),
  (0x2049d70c, CbT.triple (some "geo_point_layer81_struct") "geo_point_layer81"),
  (0x55b3e8fb, CbT.pair Option.none "geochats_checkin_v_0_1_317"),
  (0x0e092e16, CbT.pair Option.none "geochats_create_geo_chat_v_0_1_317"),
  (0x35d81a95, CbT.pair Option.none "geochats_edit_chat_photo_v_0_1_317"),
  (0x4c8e2273, CbT.pair Option.none "geochats_edit_chat_title_v_0_1_317"),
  (0x6722dd6f, CbT.pair Option.none "geochats_get_full_chat_v_0_1_317"),
  (0xb53f7a68, CbT.pair Option.none "geochats_get_history_v_0_1_317"),
  (0x7f192d8f, CbT.pair Option.none "geochats_get_located_v_0_1_317"),
  (0xe1427e6f, CbT.pair Option.none "geochats_get_recents_v_0_1_317"),
  (0x48feb267, CbT.pair Option.none "geochats_located_v_0_1_317")]

def tdss_callbacks_5 : List (Nat × CbT) := [
  (0xd1526db1, CbT.pair Option.none "geochats_messages_v_0_1_317"),
  (0xbc5863e8, CbT.pair Option.none "geochats_messages_slice_v_0_1_317"),
  (0xcfcdc44d, CbT.pair Option.none "geochats_search_v_0_1_317"),
  (0xb8f0deff, CbT.pair Option.none "geochats_send_media_v_0_1_317"),
  (0x061b0044, CbT.pair Option.none "geochats_send_message_v_0_1_317"),
  (0x08b8a729, CbT.pair Option.none "geochats_set_typing_v_0_1_317"),
  (0x17b1578b, CbT.pair Option.none "geochats_stated_message_v_0_1_317"),
  (0xb921bd04, CbT.pair Option.none "get_future_salts_v_0_1_317"),
  (0xbea2f424, CbT.triple Option.none "global_privacy_settings"),
  (0x0a8f1624, CbT.triple Option.none "group_call"),
  (0x40732163, CbT.triple Option.none "group_call_connection"),
  (0x7780bcb4, CbT.triple Option.none "group_call_discarded"),
  (0x589db397, CbT.triple Option.none "group_call_participant"),
  (0x4f0b39b8, CbT.triple Option.none "group_call_participant_admin"),
  (0x377496f0, CbT.triple Option.none "group_call_participant_invited"),
  (0x419b0df2, CbT.triple Option.none "group_call_participant_left"),
  (0x6d0b1604, CbT.triple Option.none "group_call_private"),
  (0x3072cfa1, CbT.pair Option.none "gzip_packed_v_0_1_317"),
  (0xee72f79a, CbT.triple Option.none "help_accept_terms_of_service"),
  (0x1da7158f, CbT.triple Option.none "help_app_update"),
  (0x8987f311, CbT.pair Option.none "help_app_update_v_0_1_317"),
  (0xc812ac7e, CbT.pair Option.none "help_get_app_update_v_0_1_317"),
  (0x6a4ee832, CbT.triple Option.none "help_deep_link_info"),
  (0x66afa166, CbT.triple Option.none "help_deep_link_info_empty"),
  (0x077fa99f, CbT.triple Option.none "help_dismiss_suggestion"),
  (0x66b91b70, CbT.triple Option.none "help_edit_user_info"),
  (0x9010ef6f, CbT.triple Option.none "help_get_app_changelog"),
  (0x98914110, CbT.triple Option.none "help_get_app_config"),
  (0x522d5a7d, CbT.triple Option.none "help_get_app_update"),
  (0xc4f9186b, CbT.triple Option.none "help_get_config"),
  (0x3fedc75f, CbT.triple Option.none "help_get_deep_link_info"),
  (0x4d392343, CbT.triple Option.none "help_get_invite_text"),
  (0xa4a95186, CbT.pair Option.none "help_get_invite_text_v_0_1_317"),
  (0x1fb33026, CbT.triple Option.none "help_get_nearest_dc"),
  (0xc661ad08, CbT.triple Option.none "help_get_passport_config"),
  (0xc0977421, CbT.triple Option.none "help_get_promo_data"),
  (0x3d7758e1, CbT.triple Option.none "help_get_proxy_data"),
  (0x3dc0f114, CbT.triple Option.none "help_get_recent_me_urls"),
  (0x9cdf08cd, CbT.triple Option.none "help_get_support"),
  (0xd360e72c, CbT.triple Option.none "help_get_support_name"),
  (0x2ca51fd1, CbT.triple Option.none "help_get_terms_of_service_update"),
  (0x038a08d3, CbT.triple Option.none "help_get_user_info"),
  (0x1e251c95, CbT.triple Option.none "help_hide_promo_data"),
  (0x18cb9f78, CbT.triple Option.none "help_invite_text"),
  (0xc45a6536, CbT.triple Option.none "help_no_app_update"),
  (0xa098d6af, CbT.triple Option.none "help_passport_config"),
  (0xbfb9f457, CbT.triple Option.none "help_passport_config_not_modified"),
  (0x98f6ac75, CbT.triple Option.none "help_promo_data_empty"),
  (0x8c39793f, CbT.triple Option.none "help_promo_data"),
  (0xe09e1fb8, CbT.triple Option.none "help_proxy_data_empty"),
  (0x2bf7ee23, CbT.triple Option.none "help_proxy_data_promo"),
  (0x0e0310d7, CbT.triple Option.none "help_recent_me_urls"),
  (0x6f02f748, CbT.triple Option.none "help_save_app_log"),
  (0xec22cfcd, CbT.triple Option.none "help_set_bot_updates_status"),
  (0x17c6b5f6, CbT.triple Option.none "help_support"),
  (0x8c05f1c9, CbT.triple Option.none "help_support_name"),
  (0x780a0310, CbT.triple Option.none "help_terms_of_service"),
  (0x28ecf961, CbT.triple Option.none "help_terms_of_service_update"),
  (0xe3309f7f, CbT.triple Option.none "help_terms_of_service_update_empty"),
  (0x01eb3758, CbT.triple Option.none "help_user_info"),
  (0xf3ae2eed, CbT.triple Option.none "help_user_info_empty"),
  (0x58fffcd0, CbT.triple Option.none "high_score"),
  (0x9299359f, CbT.pair Option.none "http_wait_v_0_1_317"),
  (0xd0028438, CbT.triple Option.none "imported_contact"),
  (0x69796de9, CbT.pair Option.none "init_connection_v_0_1_317"),
  (0x3c20629f, CbT.triple Option.none "inline_bot_switch_p_m"),
  (0x1d1b1245, CbT.triple Option.none "input_app_event"),
  (0x770656a8, CbT.pair Option.none "input_app_event_v_0_1_317"),
  (0x77d440ff, CbT.pair Option.none "input_audio_v_0_1_317"),
  (0xd95adc84, CbT.pair Option.none "input_audio_empty_v_0_1_317"),
  (0x74dc404d, CbT.pair Option.none "input_audio_file_location_v_0_1_317"),
  (0x890c3d89, CbT.triple Option.none "input_bot_inline_message_id"),
  (0xafeb712e, CbT.triple (some "input_channel_struct") "input_channel"),
  (0xee8c1e86, CbT.triple (some "input_channel_empty_struct") "input_channel_empty"),
  (0x2a286531, CbT.triple Option.none "input_channel_from_message"),
  (0x8953ad37, CbT.triple Option.none "input_chat_photo"),
  (0xb2e1bf08, CbT.pair Option.none "input_chat_photo_v_0_1_317"),
  (0x1ca48f57, CbT.triple Option.none "input_chat_photo_empty"),
  (0xc642724e, CbT.triple Option.none "input_chat_uploaded_photo"),
  (0x927c55b4, CbT.triple Option.none "input_chat_uploaded_photo_v_5_15_0"),
  (0x94254732, CbT.pair Option.none "input_chat_uploaded_photo_v_0_1_317"),
  (0x9880f658, CbT.triple Option.none "input_check_password_empty"),
  (0xd27ff082, CbT.triple Option.none "input_check_password_s_r_p"),
  (0xfcaafeb7, CbT.triple Option.none "input_dialog_peer"),
  (0x2c38b8cf, CbT.triple Option.none "input_dialog_peer_feed_v_5_5_0"),
  (0x64600527, CbT.triple Option.none "input_dialog_peer_folder"),
  (0x1abfb575, CbT.triple Option.none "input_document"),
  (0x72f0eaae, CbT.triple Option.none "input_document_empty"),
  (0xbad07584, CbT.triple Option.none "input_document_file_location"),
  (0x4e45abe9, CbT.pair Option.none "input_document_file_location_v_0_1_317"),
  (0x196683d9, CbT.triple Option.none "input_document_file_location_v_5_5_0"),
  (0x18798952, CbT.pair Option.none "input_document_v_0_1_317"),
  (0xf141b5e1, CbT.triple Option.none "input_encrypted_chat"),
  (0x5a17b5e5, CbT.triple Option.none "input_encrypted_file"),
  (0x2dc173c8, CbT.triple Option.none "input_encrypted_file_big_uploaded"),
  (0x1837c364, CbT.triple Option.none "input_encrypted_file_empty"),
  (0xf5235d55, CbT.triple Option.none "input_encrypted_file_location"),
  (0x64bd0306, CbT.triple Option.none "input_encrypted_file_uploaded"),
  (0xf52ff27f, CbT.triple Option.none "input_file"),
  (0xfa4f0bb5, CbT.triple Option.none "input_file_big")]

def tdss_callbacks_6 : List (Nat × CbT) := [
  (0xdfdaabe1, CbT.triple Option.none "input_file_location"),
  (0x14637196, CbT.pair Option.none "input_file_location_v_0_1_317"),
  (0xfbd2c296, CbT.triple Option.none "input_folder_peer"),
  (0x032c3e77, CbT.triple Option.none "input_game_id"),
  (0xc331e80a, CbT.triple Option.none "input_game_short_name"),
  (0x74d456fa, CbT.pair Option.none "input_geo_chat_v_0_1_317"),
  (0xf3b7acc9, CbT.triple Option.none "input_geo_point"),
  (0xe4c123d6, CbT.triple Option.none "input_geo_point_empty"),
  (0xd8aa840f, CbT.triple (some "input_group_call_struct") "input_group_call"),
  (0xd02e7fd4, CbT.triple Option.none "input_keyboard_button_url_auth"),
  (0x89938781, CbT.pair Option.none "input_media_audio_v_0_1_317"),
  (0xf8ab7dfb, CbT.triple Option.none "input_media_contact"),
  (0xa6e45987, CbT.pair Option.none "input_media_contact_v_0_1_317"),
  (0xe66fbf7b, CbT.triple Option.none "input_media_dice"),
  (0x23ab23d2, CbT.triple Option.none "input_media_document"),
  (0xfb52dc99, CbT.triple Option.none "input_media_document_external"),
  (0xd184e841, CbT.pair Option.none "input_media_document_v_0_1_317"),
  (0x9664f57f, CbT.triple Option.none "input_media_empty"),
  (0xd33f43f3, CbT.triple Option.none "input_media_game"),
  (0xce4e82fd, CbT.triple Option.none "input_media_geo_live"),
  (0xf9c44144, CbT.triple Option.none "input_media_geo_point"),
  (0x4843b0fd, CbT.triple Option.none "input_media_gif_external"),
  (0xb3ba0635, CbT.triple Option.none "input_media_photo"),
  (0xe5bbfe1a, CbT.triple Option.none "input_media_photo_external"),
  (0x8f2ab2ec, CbT.pair Option.none "input_media_photo_v_0_1_317"),
  (0x0f94e5f1, CbT.triple Option.none "input_media_poll"),
  (0xabe9ca25, CbT.triple Option.none "input_media_poll_v_5_15_0"),
  (0x06b3765b, CbT.triple Option.none "input_media_poll_v_5_6_2"),
  (0x61a6d436, CbT.pair Option.none "input_media_uploaded_audio_v_0_1_317"),
  (0x5b38c6c1, CbT.triple Option.none "input_media_uploaded_document"),
  (0x34e794bd, CbT.pair Option.none "input_media_uploaded_document_v_0_1_317"),
  (0x1e287d04, CbT.triple Option.none "input_media_uploaded_photo"),
  (0x2dc53a7d, CbT.pair Option.none "input_media_uploaded_photo_v_0_1_317"),
  (0x3e46de5d, CbT.pair Option.none "input_media_uploaded_thumb_document_v_0_1_317"),
  (0xe628a145, CbT.pair Option.none "input_media_uploaded_thumb_video_v_0_1_317"),
  (0x4847d92a, CbT.pair Option.none "input_media_uploaded_video_v_0_1_317"),
  (0xc13d1c11, CbT.triple Option.none "input_media_venue"),
  (0x7f023ae6, CbT.pair Option.none "input_media_video_v_0_1_317"),
  (0x208e68c9, CbT.triple (some "input_message_entity_mention_name_struct") "input_message_entity_mention_name"),
  (0x3a20ecb8, CbT.triple Option.none "input_messages_filter_chat_photos"),
  (0xe062db83, CbT.triple Option.none "input_messages_filter_contacts"),
  (0x9eddf188, CbT.triple Option.none "input_messages_filter_document"),
  (0x57e2f66c, CbT.triple Option.none "input_messages_filter_empty"),
  (0xe7026d0d, CbT.triple Option.none "input_messages_filter_geo"),
  (0xffc86587, CbT.triple Option.none "input_messages_filter_gif"),
  (0x3751b49e, CbT.triple Option.none "input_messages_filter_music"),
  (0xc1f8e69a, CbT.triple Option.none "input_messages_filter_my_mentions"),
  (0x80c99768, CbT.triple Option.none "input_messages_filter_phone_calls"),
  (0x56e9f0e4, CbT.triple Option.none "input_messages_filter_photo_video"),
  (0xd95e73bb, CbT.triple Option.none "input_messages_filter_photo_video_documents"),
  (0x9609a51c, CbT.triple Option.none "input_messages_filter_photos"),
  (0xb549da53, CbT.triple Option.none "input_messages_filter_round_video"),
  (0x7a7c17a4, CbT.triple Option.none "input_messages_filter_round_voice"),
  (0x7ef0dd87, CbT.triple Option.none "input_messages_filter_url"),
  (0x9fc00e65, CbT.triple Option.none "input_messages_filter_video"),
  (0x50f5c392, CbT.triple Option.none "input_messages_filter_voice"),
  (0xa429b886, CbT.pair Option.none "input_notify_all_v_0_1_317"),
  (0xb1db7c7e, CbT.triple Option.none "input_notify_broadcasts"),
  (0x4a95e84e, CbT.triple Option.none "input_notify_chats"),
  (0x4d8ddec8, CbT.pair Option.none "input_notify_geo_chat_peer_v_0_1_317"),
  (0xb8bc5b0c, CbT.triple Option.none "input_notify_peer"),
  (0x193b4417, CbT.triple Option.none "input_notify_users"),
  (0x3417d728, CbT.triple Option.none "input_payment_credentials"),
  (0xca05d50e, CbT.triple Option.none "input_payment_credentials_android_pay"),
  (0xc10eb2cf, CbT.triple Option.none "input_payment_credentials_saved"),
  (0x20adaef8, CbT.triple Option.none "input_peer_channel"),
  (0x9c95f7bb, CbT.triple Option.none "input_peer_channel_from_message"),
  (0x179be863, CbT.triple Option.none "input_peer_chat"),
  (0x1023dbe8, CbT.pair Option.none "input_peer_contact_v_0_1_317"),
  (0x7f3b18ea, CbT.triple Option.none "input_peer_empty"),
  (0x9b447325, CbT.pair Option.none "input_peer_foreign_v_0_1_317"),
  (0xe86a2c74, CbT.pair Option.none "input_peer_notify_events_all_v_0_1_317"),
  (0xf03064d8, CbT.pair Option.none "input_peer_notify_events_empty_v_0_1_317"),
  (0x9c3d198e, CbT.triple Option.none "input_peer_notify_settings"),
  (0x46a2ce98, CbT.pair Option.none "input_peer_notify_settings_v_0_1_317"),
  (0x27d69997, CbT.triple Option.none "input_peer_photo_file_location"),
  (0x7da07ec9, CbT.triple Option.none "input_peer_self"),
  (0x7b8e7de6, CbT.triple Option.none "input_peer_user"),
  (0x17bae2e6, CbT.triple Option.none "input_peer_user_from_message"),
  (0x1e36fded, CbT.triple Option.none "input_phone_call"),
  (0xf392b7f4, CbT.triple Option.none "input_phone_contact"),
  (0x3bb3b94a, CbT.triple Option.none "input_photo"),
  (0xd9915325, CbT.pair Option.none "input_photo_crop_v_0_1_317"),
  (0xade6b004, CbT.pair Option.none "input_photo_crop_auto_v_0_1_317"),
  (0x1cd7bf0d, CbT.triple Option.none "input_photo_empty"),
  (0x40181ffe, CbT.triple Option.none "input_photo_file_location"),
  (0xfb95c6c4, CbT.pair Option.none "input_photo_v_0_1_317"),
  (0xd1219bdd, CbT.triple Option.none "input_privacy_key_added_by_phone"),
  (0xbdfb0426, CbT.triple Option.none "input_privacy_key_chat_invite"),
  (0xa4dd4c08, CbT.triple Option.none "input_privacy_key_forwards"),
  (0xfabadc5f, CbT.triple Option.none "input_privacy_key_phone_call"),
  (0x0352dafa, CbT.triple Option.none "input_privacy_key_phone_number"),
  (0xdb9e70d2, CbT.triple Option.none "input_privacy_key_phone_p2_p"),
  (0x5719bacc, CbT.triple Option.none "input_privacy_key_profile_photo"),
  (0x4f96cb18, CbT.triple Option.none "input_privacy_key_status_timestamp"),
  (0x184b35ce, CbT.triple Option.none "input_privacy_value_allow_all"),
  (0x4c81c1ba, CbT.triple Option.none "input_privacy_value_allow_chat_participants"),
  (0x0d09e07b, CbT.triple Option.none "input_privacy_value_allow_contacts"),
  (0x131cc67f, CbT.triple Option.none "input_privacy_value_allow_users"),
  (0xd66b66c9, CbT.triple Option.none "input_privacy_value_disallow_all")]

def tdss_callbacks_7 : List (Nat × CbT) := [
  (0xd82363af, CbT.triple Option.none "input_privacy_value_disallow_chat_participants"),
  (0x0ba52007, CbT.triple Option.none "input_privacy_value_disallow_contacts"),
  (0x90110467, CbT.triple Option.none "input_privacy_value_disallow_users"),
  (0xadf44ee3, CbT.triple Option.none "input_report_reason_child_abuse"),
  (0x9b89f93a, CbT.triple Option.none "input_report_reason_copyright"),
  (0xdbd4feed, CbT.triple Option.none "input_report_reason_geo_irrelevant"),
  (0xe1746d0a, CbT.triple Option.none "input_report_reason_other"),
  (0x2e59d922, CbT.triple Option.none "input_report_reason_pornography"),
  (0x58dbcab8, CbT.triple Option.none "input_report_reason_spam"),
  (0x1e22c78d, CbT.triple Option.none "input_report_reason_violence"),
  (0x5367e5be, CbT.triple Option.none "input_secure_file"),
  (0xcbc7ee28, CbT.triple Option.none "input_secure_file_location"),
  (0x3334b0f0, CbT.triple Option.none "input_secure_file_uploaded"),
  (0xdb21d0a7, CbT.triple Option.none "input_secure_value"),
  (0x1cc6e91f, CbT.triple Option.none "input_single_media"),
  (0x028703c8, CbT.triple (some "input_sticker_set_animated_emoji_struct") "input_sticker_set_animated_emoji"),
  (0xe67f520e, CbT.triple (some "input_sticker_set_dice_struct") "input_sticker_set_dice"),
  (0xffb62b95, CbT.triple (some "input_sticker_set_empty_struct") "input_sticker_set_empty"),
  (0x9de7a269, CbT.triple (some "input_sticker_set_id_struct") "input_sticker_set_id"),
  (0x861cc8a0, CbT.triple (some "input_sticker_set_short_name_struct") "input_sticker_set_short_name"),
  (0x0dbaeae9, CbT.triple Option.none "input_sticker_set_thumb"),
  (0x0438865b, CbT.triple Option.none "input_stickered_media_document"),
  (0x4a992157, CbT.triple Option.none "input_stickered_media_photo"),
  (0x3c5693e9, CbT.triple Option.none "input_theme"),
  (0xbd507cd1, CbT.triple Option.none "input_theme_settings"),
  (0xf5890df1, CbT.triple Option.none "input_theme_slug"),
  (0xd8292816, CbT.triple (some "input_user_struct") "input_user"),
  (0x86e94f65, CbT.pair Option.none "input_user_contact_v_0_1_317"),
  (0xb98886cf, CbT.triple (some "input_user_empty_struct") "input_user_empty"),
  (0x655e74ff, CbT.pair Option.none "input_user_foreign_v_0_1_317"),
  (0x2d117597, CbT.triple Option.none "input_user_from_message"),
  (0xf7c1b13f, CbT.triple Option.none "input_user_self"),
  (0xee579652, CbT.pair Option.none "input_video_v_0_1_317"),
  (0x5508ec75, CbT.pair Option.none "input_video_empty_v_0_1_317"),
  (0x3d0364ec, CbT.pair Option.none "input_video_file_location_v_0_1_317"),
  (0xe630b979, CbT.triple Option.none "input_wall_paper"),
  (0x8427bbac, CbT.triple Option.none "input_wall_paper_no_file"),
  (0x72091c80, CbT.triple Option.none "input_wall_paper_slug"),
  (0x9bed434d, CbT.triple Option.none "input_web_document"),
  (0x9f2221c9, CbT.triple Option.none "input_web_file_geo_point_location"),
  (0xc239d686, CbT.triple Option.none "input_web_file_location"),
  (0xc30aa358, CbT.triple Option.none "invoice"),
  (0xcb9f372d, CbT.pair Option.none "invoke_after_msg_v_0_1_317"),
  (0xa6b88fdf, CbT.pair Option.none "invoke_with_layer11_v_0_1_317"),
  (0xf7444763, CbT.triple Option.none "json_array"),
  (0xc7345e6a, CbT.triple Option.none "json_bool"),
  (0x3f6d7b68, CbT.triple Option.none "json_null"),
  (0x2be0dfa4, CbT.triple Option.none "json_number"),
  (0x99c1d49d, CbT.triple Option.none "json_object"),
  (0xc0de1bd9, CbT.triple Option.none "json_object_value"),
  (0xb71e767a, CbT.triple Option.none "json_string"),
  (0xa2fa4880, CbT.triple (some "keyboard_button_struct") "keyboard_button"),
  (0xafd93fbb, CbT.triple (some "keyboard_button_buy_struct") "keyboard_button_buy"),
  (0x683a5e46, CbT.triple (some "keyboard_button_callback_struct") "keyboard_button_callback"),
  (0x50f41ccf, CbT.triple (some "keyboard_button_game_struct") "keyboard_button_game"),
  (0xfc796b3f, CbT.triple (some "keyboard_button_request_geo_location_struct") "keyboard_button_request_geo_location"),
  (0xb16a6c29, CbT.triple (some "keyboard_button_request_phone_struct") "keyboard_button_request_phone"),
  (0xbbc7515d, CbT.triple (some "keyboard_button_request_poll_struct") "keyboard_button_request_poll"),
  (0x77608b83, CbT.triple (some "keyboard_button_row_struct") "keyboard_button_row"),
  (0x0568a748, CbT.triple (some "keyboard_button_switch_inline_struct") "keyboard_button_switch_inline"),
  (0x258aff05, CbT.triple (some "keyboard_button_url_struct") "keyboard_button_url"),
  (0x10b78d29, CbT.triple (some "keyboard_button_url_auth_struct") "keyboard_button_url_auth"),
  (0xcb296bf8, CbT.triple Option.none "labeled_price"),
  (0xf385c1f6, CbT.triple Option.none "lang_pack_difference"),
  (0xeeca5ce3, CbT.triple Option.none "lang_pack_language"),
  (0xcad181f6, CbT.triple Option.none "lang_pack_string"),
  (0x2979eeb2, CbT.triple Option.none "lang_pack_string_deleted"),
  (0x6c47ac9f, CbT.triple Option.none "lang_pack_string_pluralized"),
  (0xcd984aa5, CbT.triple Option.none "langpack_get_difference"),
  (0x9ab5c58e, CbT.triple Option.none "langpack_get_lang_pack"),
  (0x6a596502, CbT.triple Option.none "langpack_get_language"),
  (0x800fd57d, CbT.triple Option.none "langpack_get_languages"),
  (0x2e1ee318, CbT.triple Option.none "langpack_get_strings"),
  (0xaed6dbb2, CbT.triple (some "mask_coords_struct") "mask_coords"),
  (0x452c0e65, CbT.triple (some "message_struct") "message"),
  (0xabe9affe, CbT.triple (some "message_action_bot_allowed_struct") "message_action_bot_allowed"),
  (0x95d2ac92, CbT.triple (some "message_action_channel_create_struct") "message_action_channel_create"),
  (0xb055eaee, CbT.triple (some "message_action_channel_migrate_from_struct") "message_action_channel_migrate_from"),
  (0x488a7337, CbT.triple (some "message_action_chat_add_user_struct") "message_action_chat_add_user"),
  (0x5e3cfc4b, CbT.triple (some "message_action_chat_add_user_old_struct") "message_action_chat_add_user_old"),
  (0xa6638b9a, CbT.triple (some "message_action_chat_create_struct") "message_action_chat_create"),
  (0xb2ae9b0c, CbT.triple (some "message_action_chat_delete_user_struct") "message_action_chat_delete_user"),
  (0x95e3fbef, CbT.triple (some "message_action_chat_delete_photo_struct") "message_action_chat_delete_photo"),
  (0x7fcb13a8, CbT.triple (some "message_action_chat_edit_photo_struct") "message_action_chat_edit_photo"),
  (0xb5a1ce5a, CbT.triple (some "message_action_chat_edit_title_struct") "message_action_chat_edit_title"),
  (0xf89cf5e8, CbT.triple (some "message_action_chat_joined_by_link_struct") "message_action_chat_joined_by_link"),
  (0x51bdb021, CbT.triple (some "message_action_chat_migrate_to_struct") "message_action_chat_migrate_to"),
  (0xf3f25f76, CbT.triple (some "message_action_contact_sign_up_struct") "message_action_contact_sign_up"),
  (0x55555557, CbT.triple (some "message_action_created_broadcast_list_struct") "message_action_created_broadcast_list"),
  (0xfae69f56, CbT.triple (some "message_action_custom_action_struct") "message_action_custom_action"),
  (0xb6aef7b0, CbT.triple (some "message_action_empty_struct") "message_action_empty"),
  (0x92a72876, CbT.triple (some "message_action_game_score_struct") "message_action_game_score"),
  (0x0c7d53de, CbT.pair Option.none "message_action_geo_chat_checkin_v_0_1_317"),
  (0x6f038ebc, CbT.pair Option.none "message_action_geo_chat_create_v_0_1_317"),
  (0x7a0d7f42, CbT.triple (some "message_action_group_call_struct") "message_action_group_call"),
  (0x9fbab604, CbT.triple (some "message_action_history_clear_struct") "message_action_history_clear"),
  (0x555555f5, CbT.triple (some "message_action_login_unknown_location_struct") "message_action_login_unknown_location"),
  (0x40699cd0, CbT.triple (some "message_action_payment_sent_struct") "message_action_payment_sent"),
  (0x80e11a7f, CbT.triple (some "message_action_phone_call_struct") "message_action_phone_call"),
  (0x94bd38ed, CbT.triple (some "message_action_pin_message_struct") "message_action_pin_message")]

def tdss_callbacks_8 : List (Nat × CbT) := [
  (0x4792929b, CbT.triple (some "message_action_screenshot_taken_struct") "message_action_screenshot_taken"),
  (0xd95c6154, CbT.triple (some "message_action_secure_values_sent_struct") "message_action_secure_values_sent"),
  (0x55555552, CbT.triple (some "message_action_ttl_change_struct") "message_action_ttl_change"),
  (0x55555550, CbT.triple (some "message_action_user_joined_struct") "message_action_user_joined"),
  (0x55555551, CbT.triple (some "message_action_user_updated_photo_struct") "message_action_user_updated_photo"),
  (0x83e5de54, CbT.triple (some "message_empty_struct") "message_empty"),
  (0x555555f7, CbT.triple (some "message_encrypted_action_struct") "message_encrypted_action"),
  (0x761e6af4, CbT.triple (some "message_entity_bank_card_struct") "message_entity_bank_card"),
  (0x020df5d0, CbT.triple (some "message_entity_blockquote_struct") "message_entity_blockquote"),
  (0xbd610bc9, CbT.triple (some "message_entity_bold_struct") "message_entity_bold"),
  (0x6cef8ac7, CbT.triple (some "message_entity_bot_command_struct") "message_entity_bot_command"),
  (0x4c4e743f, CbT.triple (some "message_entity_cashtag_struct") "message_entity_cashtag"),
  (0x28a20571, CbT.triple (some "message_entity_code_struct") "message_entity_code"),
  (0x64e475c2, CbT.triple (some "message_entity_email_struct") "message_entity_email"),
  (0x6f635b0d, CbT.triple (some "message_entity_hashtag_struct") "message_entity_hashtag"),
  (0x826f8b60, CbT.triple (some "message_entity_italic_struct") "message_entity_italic"),
  (0xfa04579d, CbT.triple (some "message_entity_mention_struct") "message_entity_mention"),
  (0x352dca58, CbT.triple (some "message_entity_mention_name_struct") "message_entity_mention_name"),
  (0x9b69e34b, CbT.triple (some "message_entity_phone_struct") "message_entity_phone"),
  (0x73924be0, CbT.triple (some "message_entity_pre_struct") "message_entity_pre"),
  (0xbf0693d4, CbT.triple (some "message_entity_strike_struct") "message_entity_strike"),
  (0x76a6d327, CbT.triple (some "message_entity_text_url_struct") "message_entity_text_url"),
  (0x9c4e7e8b, CbT.triple (some "message_entity_underline_struct") "message_entity_underline"),
  (0xbb92ba95, CbT.triple (some "message_entity_unknown_struct") "message_entity_unknown"),
  (0x6ed02538, CbT.triple (some "message_entity_url_struct") "message_entity_url"),
  (0x05f46804, CbT.triple (some "message_forwarded_old_struct") "message_forwarded_old"),
  (0xa367e716, CbT.triple (some "message_forwarded_old2_struct") "message_forwarded_old2"),
  (0x353a686b, CbT.triple (some "message_fwd_header_struct") "message_fwd_header"),
  (0xec338270, CbT.triple (some "message_fwd_header_layer112_struct") "message_fwd_header_layer112"),
  (0xc786ddcb, CbT.triple (some "message_fwd_header_layer68_struct") "message_fwd_header_layer68"),
  (0xfadff4ac, CbT.triple (some "message_fwd_header_layer72_struct") "message_fwd_header_layer72"),
  (0x559ebe6d, CbT.triple (some "message_fwd_header_layer96_struct") "message_fwd_header_layer96"),
  (0xad4fc9bd, CbT.triple Option.none "message_interaction_counters"),
  (0xc6b68300, CbT.triple (some "message_media_audio_layer45_struct") "message_media_audio_layer45"),
  (0xcbf24940, CbT.triple (some "message_media_contact_struct") "message_media_contact"),
  (0x5e7d2f39, CbT.triple (some "message_media_contact_layer81_struct") "message_media_contact_layer81"),
  (0x3f7ee58b, CbT.triple (some "message_media_dice_struct") "message_media_dice"),
  (0x638fe46b, CbT.triple (some "message_media_dice_layer111_struct") "message_media_dice_layer111"),
  (0x9cb070d7, CbT.triple (some "message_media_document_struct") "message_media_document"),
  (0xf3e02ea8, CbT.triple (some "message_media_document_layer68_struct") "message_media_document_layer68"),
  (0x7c4414d3, CbT.triple (some "message_media_document_layer74_struct") "message_media_document_layer74"),
  (0x2fda2204, CbT.triple (some "message_media_document_old_struct") "message_media_document_old"),
  (0x3ded6320, CbT.triple (some "message_media_empty_struct") "message_media_empty"),
  (0xfdb19008, CbT.triple (some "message_media_game_struct") "message_media_game"),
  (0x56e0d474, CbT.triple (some "message_media_geo_struct") "message_media_geo"),
  (0x7c3c2609, CbT.triple (some "message_media_geo_live_struct") "message_media_geo_live"),
  (0x84551347, CbT.triple (some "message_media_invoice_struct") "message_media_invoice"),
  (0x695150d7, CbT.triple (some "message_media_photo_struct") "message_media_photo"),
  (0x3d8ce53d, CbT.triple (some "message_media_photo_layer68_struct") "message_media_photo_layer68"),
  (0xb5223b0f, CbT.triple (some "message_media_photo_layer74_struct") "message_media_photo_layer74"),
  (0xc8c45a2a, CbT.triple (some "message_media_photo_old_struct") "message_media_photo_old"),
  (0x4bd6e798, CbT.triple (some "message_media_poll_struct") "message_media_poll"),
  (0x9f84f49e, CbT.triple (some "message_media_unsupported_struct") "message_media_unsupported"),
  (0x29632a36, CbT.triple (some "message_media_unsupported_old_struct") "message_media_unsupported_old"),
  (0x2ec0533f, CbT.triple (some "message_media_venue_struct") "message_media_venue"),
  (0x7912b71f, CbT.triple (some "message_media_venue_layer71_struct") "message_media_venue_layer71"),
  (0x5bcf1675, CbT.triple (some "message_media_video_layer45_struct") "message_media_video_layer45"),
  (0xa2d24290, CbT.triple (some "message_media_video_old_struct") "message_media_video_old"),
  (0xa32dd600, CbT.triple (some "message_media_web_page_struct") "message_media_web_page"),
  (0x0ae30253, CbT.triple Option.none "message_range"),
  (0xb87a24d1, CbT.triple (some "message_reactions_struct") "message_reactions"),
  (0xe3ae6108, CbT.triple Option.none "message_reactions_list"),
  (0x9e19a1f6, CbT.triple (some "message_service_struct") "message_service"),
  (0xc06b9607, CbT.triple (some "message_service_layer48_struct") "message_service_layer48"),
  (0x9f8d60bb, CbT.triple (some "message_service_old_struct") "message_service_old"),
  (0x1d86f70e, CbT.triple Option.none "message_service_old2"),
  (0xd267dcbc, CbT.triple Option.none "message_user_reaction"),
  (0xa28e5559, CbT.triple Option.none "message_user_vote"),
  (0x36377430, CbT.triple Option.none "message_user_vote_input_option"),
  (0x0e8fe0de, CbT.triple Option.none "message_user_vote_multiple"),
  (0x44f9b43d, CbT.triple (some "message_layer104_struct") "message_layer104"),
  (0x1c9b1027, CbT.triple (some "message_layer104_2_struct") "message_layer104_2"),
  (0x9789dac4, CbT.triple (some "message_layer104_3_struct") "message_layer104_3"),
  (0xc992e15c, CbT.triple Option.none "message_layer47"),
  (0xc09be45f, CbT.triple (some "message_layer68_struct") "message_layer68"),
  (0x90dddc11, CbT.triple (some "message_layer72_struct") "message_layer72"),
  (0x22eb6aba, CbT.triple Option.none "message_old"),
  (0x567699b3, CbT.triple Option.none "message_old2"),
  (0xa7ab1991, CbT.triple (some "message_old3_struct") "message_old3"),
  (0xc3060325, CbT.triple (some "message_old4_struct") "message_old4"),
  (0xf07814c8, CbT.triple (some "message_old5_struct") "message_old5"),
  (0x2bebfa86, CbT.triple Option.none "message_old6"),
  (0x5ba66c13, CbT.triple Option.none "message_old7"),
  (0x555555fa, CbT.triple (some "message_secret_struct") "message_secret"),
  (0x555555f9, CbT.triple Option.none "message_secret_layer72"),
  (0x555555f8, CbT.triple Option.none "message_secret_old"),
  (0x3dbc0415, CbT.triple Option.none "messages_accept_encryption"),
  (0xf729ea98, CbT.triple Option.none "messages_accept_url_auth"),
  (0xf9a0aa09, CbT.triple Option.none "messages_add_chat_user"),
  (0x2ee9ee9e, CbT.pair Option.none "messages_add_chat_user_v_0_1_317"),
  (0xb45c69d1, CbT.triple Option.none "messages_affected_history"),
  (0xb7de36f2, CbT.pair Option.none "messages_affected_history_v_0_1_317"),
  (0x84d19185, CbT.triple Option.none "messages_affected_messages"),
  (0xedfd405f, CbT.triple Option.none "messages_all_stickers"),
  (0xe86602c3, CbT.triple Option.none "messages_all_stickers_not_modified"),
  (0x4fcba9c8, CbT.triple Option.none "messages_archived_stickers"),
  (0x36585ea4, CbT.triple Option.none "messages_bot_callback_answer"),
  (0x947ca848, CbT.triple Option.none "messages_bot_results"),
  (0xccd3563d, CbT.triple Option.none "messages_bot_results_layer71"),
  (0x99262e37, CbT.triple Option.none "messages_channel_messages")]

def tdss_callbacks_9 : List (Nat × CbT) := [
  (0x40e9002a, CbT.pair Option.none "messages_chat_v_0_1_317"),
  (0xe5d7d19c, CbT.triple Option.none "messages_chat_full"),
  (0x64ff9fd5, CbT.triple Option.none "messages_chats"),
  (0x8150cbd8, CbT.pair Option.none "messages_chats_v_0_1_317"),
  (0x9cd81144, CbT.triple Option.none "messages_chats_slice"),
  (0x3eadb1bb, CbT.triple Option.none "messages_check_chat_invite"),
  (0x7e58ee9c, CbT.triple Option.none "messages_clear_all_drafts"),
  (0x8999602d, CbT.triple Option.none "messages_clear_recent_stickers"),
  (0x09cb126e, CbT.triple Option.none "messages_create_chat"),
  (0x419d9aee, CbT.pair Option.none "messages_create_chat_v_0_1_317"),
  (0xe0611f16, CbT.triple Option.none "messages_delete_chat_user"),
  (0xc3c5cd23, CbT.pair Option.none "messages_delete_chat_user_v_0_1_317"),
  (0x1c015b09, CbT.triple Option.none "messages_delete_history"),
  (0xf4f8fb61, CbT.pair Option.none "messages_delete_history_v_0_1_317"),
  (0xe58e95d2, CbT.triple Option.none "messages_delete_messages"),
  (0x59ae2b16, CbT.triple Option.none "messages_delete_scheduled_messages"),
  (0x14f2dd0a, CbT.pair Option.none "messages_delete_messages_v_0_1_317"),
  (0x2c221edd, CbT.triple Option.none "messages_dh_config"),
  (0xc0e24635, CbT.triple Option.none "messages_dh_config_not_modified"),
  (0x15ba6c40, CbT.triple Option.none "messages_dialogs"),
  (0xf0e3e596, CbT.triple Option.none "messages_dialogs_not_modified"),
  (0x71e094f3, CbT.triple Option.none "messages_dialogs_slice"),
  (0xedd923c5, CbT.triple Option.none "messages_discard_encryption"),
  (0xdef60797, CbT.triple Option.none "messages_edit_chat_about"),
  (0xa9e69f2e, CbT.triple Option.none "messages_edit_chat_admin"),
  (0xa5866b41, CbT.triple Option.none "messages_edit_chat_default_banned_rights"),
  (0xca4c79d8, CbT.triple Option.none "messages_edit_chat_photo"),
  (0xd881821d, CbT.pair Option.none "messages_edit_chat_photo_v_0_1_317"),
  (0xdc452855, CbT.triple Option.none "messages_edit_chat_title"),
  (0xb4bc68b5, CbT.pair Option.none "messages_edit_chat_title_v_0_1_317"),
  (0x48f71778, CbT.triple Option.none "messages_edit_message"),
  (0xd116f31e, CbT.triple Option.none "messages_edit_message_v_5_6_2"),
  (0x0df7534c, CbT.triple Option.none "messages_export_chat_invite"),
  (0xb9ffc55b, CbT.triple Option.none "messages_fave_sticker"),
  (0xf37f2f16, CbT.triple Option.none "messages_faved_stickers"),
  (0x9e8fa6d3, CbT.triple Option.none "messages_faved_stickers_not_modified"),
  (0xb6abc341, CbT.triple Option.none "messages_featured_stickers"),
  (0xc6dc0c66, CbT.triple Option.none "messages_featured_stickers_not_modified"),
  (0xf89d88e5, CbT.triple Option.none "messages_featured_stickers_v_5_15_0"),
  (0x04ede3cf, CbT.triple Option.none "messages_featured_stickers_not_modified_v_5_15_0"),
  (0x33963bf9, CbT.triple Option.none "messages_forward_message"),
  (0x03f3f4f2, CbT.pair Option.none "messages_forward_message_v_0_1_317"),
  (0xd9fee60e, CbT.triple Option.none "messages_forward_messages"),
  (0x514cd10f, CbT.pair Option.none "messages_forward_messages_v_0_1_317"),
  (0x708e0195, CbT.triple Option.none "messages_forward_messages_v_5_6_2"),
  (0x450a1c0a, CbT.triple Option.none "messages_found_gifs"),
  (0x5108d648, CbT.triple Option.none "messages_found_sticker_sets"),
  (0x0d54b65d, CbT.triple Option.none "messages_found_sticker_sets_not_modified"),
  (0xeba80ff0, CbT.triple Option.none "messages_get_all_chats"),
  (0x6a3f8d65, CbT.triple Option.none "messages_get_all_drafts"),
  (0x1c9618b1, CbT.triple Option.none "messages_get_all_stickers"),
  (0x57f17692, CbT.triple Option.none "messages_get_archived_stickers"),
  (0xcc5b67cc, CbT.triple Option.none "messages_get_attached_stickers"),
  (0x810a9fec, CbT.triple Option.none "messages_get_bot_callback_answer"),
  (0x3c6aa187, CbT.triple Option.none "messages_get_chats"),
  (0x0d0a48c4, CbT.triple Option.none "messages_get_common_chats"),
  (0x26cf8950, CbT.triple Option.none "messages_get_dh_config"),
  (0xf19ed96d, CbT.triple Option.none "messages_get_dialog_filters"),
  (0x22e24e22, CbT.triple Option.none "messages_get_dialog_unread_marks"),
  (0xa0ee3b73, CbT.triple Option.none "messages_get_dialogs"),
  (0xb098aee6, CbT.triple Option.none "messages_get_dialogs_v_5_5_0"),
  (0xeccf1df6, CbT.pair Option.none "messages_get_dialogs_v_0_1_317"),
  (0x338e2464, CbT.triple Option.none "messages_get_document_by_hash"),
  (0x35a0e062, CbT.triple Option.none "messages_get_emoji_keywords"),
  (0x1508b6af, CbT.triple Option.none "messages_get_emoji_keywords_difference"),
  (0x4e9963b2, CbT.triple Option.none "messages_get_emoji_keywords_languages"),
  (0xd5b10c26, CbT.triple Option.none "messages_get_emoji_url"),
  (0x21ce0b0e, CbT.triple Option.none "messages_get_faved_stickers"),
  (0x2dacca4f, CbT.triple Option.none "messages_get_featured_stickers"),
  (0x3b831c66, CbT.triple Option.none "messages_get_full_chat"),
  (0xe822649d, CbT.triple Option.none "messages_get_game_high_scores"),
  (0xafa92846, CbT.triple Option.none "messages_get_history"),
  (0x92a1df2f, CbT.pair Option.none "messages_get_history_v_0_1_317"),
  (0x514e999d, CbT.triple Option.none "messages_get_inline_bot_results"),
  (0x0f635e1b, CbT.triple Option.none "messages_get_inline_game_high_scores"),
  (0x65b8c79f, CbT.triple Option.none "messages_get_mask_stickers"),
  (0xfda68d36, CbT.triple Option.none "messages_get_message_edit_data"),
  (0x15b1376a, CbT.triple Option.none "messages_get_message_reactions_list"),
  (0x4222fa74, CbT.triple Option.none "messages_get_messages"),
  (0x8bba90e6, CbT.triple Option.none "messages_get_messages_reactions"),
  (0xc4c8a55d, CbT.triple Option.none "messages_get_messages_views"),
  (0x5fe7025b, CbT.triple Option.none "messages_get_old_featured_stickers"),
  (0x6e2be050, CbT.triple Option.none "messages_get_onlines"),
  (0xe470bcfd, CbT.triple Option.none "messages_get_peer_dialogs"),
  (0x3672e09c, CbT.triple Option.none "messages_get_peer_settings"),
  (0xd6b94df2, CbT.triple Option.none "messages_get_pinned_dialogs"),
  (0xe254d64e, CbT.triple Option.none "messages_get_pinned_dialogs_v_5_5_0"),
  (0x73bb643b, CbT.triple Option.none "messages_get_poll_results"),
  (0xb86e380e, CbT.triple Option.none "messages_get_poll_votes"),
  (0xbbc45b09, CbT.triple Option.none "messages_get_recent_locations"),
  (0x5ea192c9, CbT.triple Option.none "messages_get_recent_stickers"),
  (0x83bf3d52, CbT.triple Option.none "messages_get_saved_gifs"),
  (0xe2c2685b, CbT.triple Option.none "messages_get_scheduled_history"),
  (0xbdbb0464, CbT.triple Option.none "messages_get_scheduled_messages"),
  (0x732eef00, CbT.triple Option.none "messages_get_search_counters"),
  (0x812c2ae6, CbT.triple Option.none "messages_get_stats_url"),
  (0x2619a90e, CbT.triple Option.none "messages_get_sticker_set"),
  (0x043d4f2c, CbT.triple Option.none "messages_get_stickers"),
  (0xa29cd42c, CbT.triple Option.none "messages_get_suggested_dialog_filters"),
  (0x46578472, CbT.triple Option.none "messages_get_unread_mentions")]

def tdss_callbacks_10 : List (Nat × CbT) := [
  (0x32ca8f91, CbT.triple Option.none "messages_get_web_page"),
  (0x8b68b0cc, CbT.triple Option.none "messages_get_web_page_preview"),
  (0x4facb138, CbT.triple Option.none "messages_hide_peer_settings_bar"),
  (0xa8f1709b, CbT.triple Option.none "messages_hide_report_spam_v_5_6_2"),
  (0x9a3bfd99, CbT.triple Option.none "messages_high_scores"),
  (0x6c50051c, CbT.triple Option.none "messages_import_chat_invite"),
  (0xa927fec5, CbT.triple Option.none "messages_inactive_chats"),
  (0xc78fe460, CbT.triple Option.none "messages_install_sticker_set"),
  (0xc286d98f, CbT.triple Option.none "messages_mark_dialog_unread"),
  (0x26b5dde6, CbT.triple Option.none "messages_message_edit_data"),
  (0x3f4e0648, CbT.triple Option.none "messages_message_empty"),
  (0xff90c417, CbT.pair Option.none "messages_message_v_0_1_317"),
  (0x8c718e87, CbT.triple Option.none "messages_messages"),
  (0x74535f21, CbT.triple Option.none "messages_messages_not_modified"),
  (0xc8edce1e, CbT.triple Option.none "messages_messages_slice"),
  (0x0b446ae3, CbT.pair Option.none "messages_messages_slice_v_0_1_317"),
  (0xa6c47aaa, CbT.triple Option.none "messages_messages_slice_v_5_6_2"),
  (0x15a3b8e3, CbT.triple Option.none "messages_migrate_chat"),
  (0x3371c354, CbT.triple Option.none "messages_peer_dialogs"),
  (0x7f4b690a, CbT.triple Option.none "messages_read_encrypted_history"),
  (0x5b118126, CbT.triple Option.none "messages_read_featured_stickers"),
  (0x0e306d3a, CbT.triple Option.none "messages_read_history"),
  (0xb04f2510, CbT.pair Option.none "messages_read_history_v_0_1_317"),
  (0x0f0189d3, CbT.triple Option.none "messages_read_mentions"),
  (0x36a73f77, CbT.triple Option.none "messages_read_message_contents"),
  (0x05a954c0, CbT.triple Option.none "messages_received_messages"),
  (0x28abcb68, CbT.pair Option.none "messages_received_messages_v_0_1_317"),
  (0x55a5bb66, CbT.triple Option.none "messages_received_queue"),
  (0x22f3afb3, CbT.triple Option.none "messages_recent_stickers"),
  (0x0b17f890, CbT.triple Option.none "messages_recent_stickers_not_modified"),
  (0x3b1adf37, CbT.triple Option.none "messages_reorder_pinned_dialogs"),
  (0x5b51d63f, CbT.triple Option.none "messages_reorder_pinned_dialogs_v_5_5_0"),
  (0x78337739, CbT.triple Option.none "messages_reorder_sticker_sets"),
  (0xbd82b658, CbT.triple Option.none "messages_report"),
  (0x4b0c8c0f, CbT.triple Option.none "messages_report_encrypted_spam"),
  (0xcf1592db, CbT.triple Option.none "messages_report_spam"),
  (0xf64daf43, CbT.triple Option.none "messages_request_encryption"),
  (0xe33f5613, CbT.triple Option.none "messages_request_url_auth"),
  (0x395f9d7e, CbT.pair Option.none "messages_restore_messages_v_0_1_317"),
  (0xbc39e14b, CbT.triple Option.none "messages_save_draft"),
  (0x327a30cb, CbT.triple Option.none "messages_save_gif"),
  (0x392718f8, CbT.triple Option.none "messages_save_recent_sticker"),
  (0x2e0709a5, CbT.triple Option.none "messages_saved_gifs"),
  (0xe8025ca2, CbT.triple Option.none "messages_saved_gifs_not_modified"),
  (0x8614ef68, CbT.triple Option.none "messages_search"),
  (0xe844ebff, CbT.triple Option.none "messages_search_counter"),
  (0x07e9f2ab, CbT.pair Option.none "messages_search_v_0_1_317"),
  (0xbf9a776b, CbT.triple Option.none "messages_search_gifs"),
  (0xbf7225a4, CbT.triple Option.none "messages_search_global"),
  (0x9e3cacb0, CbT.triple Option.none "messages_search_global_v_5_6_2"),
  (0xc2b7d08b, CbT.triple Option.none "messages_search_sticker_sets"),
  (0xbf73f4da, CbT.triple Option.none "messages_send_broadcast_v_5_6_2"),
  (0x41bb0972, CbT.pair Option.none "messages_send_broadcast_v_0_1_317"),
  (0xa9776773, CbT.triple Option.none "messages_send_encrypted"),
  (0x9a901b66, CbT.triple Option.none "messages_send_encrypted_file"),
  (0xcacacaca, CbT.triple Option.none "messages_send_encrypted_multi_media"),
  (0x32d439a4, CbT.triple Option.none "messages_send_encrypted_service"),
  (0x220815b0, CbT.triple Option.none "messages_send_inline_bot_result"),
  (0xb16e06fe, CbT.triple Option.none "messages_send_inline_bot_result_v_5_6_2"),
  (0x3491eba9, CbT.triple Option.none "messages_send_media"),
  (0xa3c85d76, CbT.pair Option.none "messages_send_media_v_0_1_317"),
  (0xb8d1262b, CbT.triple Option.none "messages_send_media_v_5_6_2"),
  (0x520c3870, CbT.triple Option.none "messages_send_message"),
  (0x4cde0aab, CbT.pair Option.none "messages_send_message_v_0_1_317"),
  (0xfa88427a, CbT.triple Option.none "messages_send_message_v_5_6_2"),
  (0x2095512f, CbT.triple Option.none "messages_send_multi_media_v_5_6_2"),
  (0x25690ce4, CbT.triple Option.none "messages_send_reaction"),
  (0xbd38850a, CbT.triple Option.none "messages_send_scheduled_messages"),
  (0xc97df020, CbT.triple Option.none "messages_send_screenshot_notification"),
  (0x10ea6184, CbT.triple Option.none "messages_send_vote"),
  (0xd1f4d35c, CbT.pair Option.none "messages_sent_message_v_0_1_317"),
  (0xe9db4a3f, CbT.pair Option.none "messages_sent_message_link_v_0_1_317"),
  (0x9493ff32, CbT.triple Option.none "messages_sent_encrypted_file"),
  (0x560f8935, CbT.triple Option.none "messages_sent_encrypted_message"),
  (0xd58f130a, CbT.triple Option.none "messages_set_bot_callback_answer"),
  (0x791451ed, CbT.triple Option.none "messages_set_encrypted_typing"),
  (0x8ef8ecc0, CbT.triple Option.none "messages_set_game_score"),
  (0x15ad9f64, CbT.triple Option.none "messages_set_inline_game_score"),
  (0xa3825e50, CbT.triple Option.none "messages_set_typing"),
  (0x719839e9, CbT.pair Option.none "messages_set_typing_v_0_1_317"),
  (0xe6df7378, CbT.triple Option.none "messages_start_bot"),
  (0xd07ae726, CbT.pair Option.none "messages_stated_message_v_0_1_317"),
  (0xa9af2881, CbT.pair Option.none "messages_stated_message_link_v_0_1_317"),
  (0x969478bb, CbT.pair Option.none "messages_stated_messages_v_0_1_317"),
  (0x3e74f5c6, CbT.pair Option.none "messages_stated_messages_links_v_0_1_317"),
  (0xb60a24a6, CbT.triple Option.none "messages_sticker_set"),
  (0x35e410a8, CbT.triple Option.none "messages_sticker_set_install_result_archive"),
  (0x38641628, CbT.triple Option.none "messages_sticker_set_install_result_success"),
  (0xe4599bbd, CbT.triple Option.none "messages_stickers"),
  (0xf1749a22, CbT.triple Option.none "messages_stickers_not_modified"),
  (0xa731e257, CbT.triple Option.none "messages_toggle_dialog_pin"),
  (0xb5052fea, CbT.triple Option.none "messages_toggle_sticker_sets"),
  (0xf96e55de, CbT.triple Option.none "messages_uninstall_sticker_set"),
  (0x1ad4a04a, CbT.triple Option.none "messages_update_dialog_filter"),
  (0xc563c1e4, CbT.triple Option.none "messages_update_dialog_filters_order"),
  (0xd2aaf7ec, CbT.triple Option.none "messages_update_pinned_message"),
  (0x5057c497, CbT.triple Option.none "messages_upload_encrypted_file"),
  (0x519bc2b1, CbT.triple Option.none "messages_upload_media"),
  (0x0823f649, CbT.triple Option.none "messages_votes_list"),
  (0x73f1f8dc, CbT.pair Option.none "msg_container_v_0_1_317")]

def tdss_callbacks_11 : List (Nat × CbT) := [
  (0xe06046b2, CbT.pair Option.none "msg_copy_v_0_1_317"),
  (0x276d3ec6, CbT.pair Option.none "msg_detailed_info_v_0_1_317"),
  (0x809db6df, CbT.pair Option.none "msg_new_detailed_info_v_0_1_317"),
  (0x7d861a08, CbT.pair Option.none "msg_resend_req_v_0_1_317"),
  (0x62d6b459, CbT.pair Option.none "msgs_ack_v_0_1_317"),
  (0x8cc0d131, CbT.pair Option.none "msgs_all_info_v_0_1_317"),
  (0x04deb57d, CbT.pair Option.none "msgs_state_info_v_0_1_317"),
  (0xda69fb52, CbT.pair Option.none "msgs_state_req_v_0_1_317"),
  (0x8e1a1775, CbT.triple Option.none "nearest_dc"),
  (0x9ec20908, CbT.pair Option.none "new_session_created_v_0_1_317"),
  (0xd612e8ef, CbT.triple Option.none "notify_broadcasts"),
  (0xc007cec3, CbT.triple Option.none "notify_chats"),
  (0x9fd40bd8, CbT.triple Option.none "notify_peer"),
  (0xb4c83b4c, CbT.triple Option.none "notify_users"),
  (0x56730bcc, CbT.triple Option.none "null"),
  (0x83c95aec, CbT.pair Option.none "p_q_inner_data_v_0_1_317"),
  (0x98657f0d, CbT.triple (some "page_struct") "page"),
  (0xce0d37b0, CbT.triple (some "page_block_anchor_struct") "page_block_anchor"),
  (0x804361ea, CbT.triple (some "page_block_audio_struct") "page_block_audio"),
  (0x31b81a7f, CbT.triple (some "page_block_audio_layer82_struct") "page_block_audio_layer82"),
  (0xbaafe5e0, CbT.triple (some "page_block_author_date_struct") "page_block_author_date"),
  (0x3d5b64f2, CbT.triple (some "page_block_author_date_layer60_struct") "page_block_author_date_layer60"),
  (0x263d7c26, CbT.triple (some "page_block_blockquote_struct") "page_block_blockquote"),
  (0xef1751b5, CbT.triple (some "page_block_channel_struct") "page_block_channel"),
  (0x65a0fa4d, CbT.triple (some "page_block_collage_struct") "page_block_collage"),
  (0x08b31c4f, CbT.triple (some "page_block_collage_layer82_struct") "page_block_collage_layer82"),
  (0x39f23300, CbT.triple (some "page_block_cover_struct") "page_block_cover"),
  (0x76768bed, CbT.triple (some "page_block_details_struct") "page_block_details"),
  (0xdb20b188, CbT.triple (some "page_block_divider_struct") "page_block_divider"),
  (0xa8718dc5, CbT.triple (some "page_block_embed_struct") "page_block_embed"),
  (0xf259a80b, CbT.triple (some "page_block_embed_post_struct") "page_block_embed_post"),
  (0x292c7be9, CbT.triple (some "page_block_embed_post_layer82_struct") "page_block_embed_post_layer82"),
  (0xd935d8fb, CbT.triple (some "page_block_embed_layer60_struct") "page_block_embed_layer60"),
  (0xcde200d1, CbT.triple (some "page_block_embed_layer82_struct") "page_block_embed_layer82"),
  (0x48870999, CbT.triple (some "page_block_footer_struct") "page_block_footer"),
  (0xbfd064ec, CbT.triple (some "page_block_header_struct") "page_block_header"),
  (0x1e148390, CbT.triple (some "page_block_kicker_struct") "page_block_kicker"),
  (0xe4e88011, CbT.triple (some "page_block_list_struct") "page_block_list"),
  (0x3a58c7f4, CbT.triple (some "page_block_list_layer82_struct") "page_block_list_layer82"),
  (0xa44f3ef6, CbT.triple (some "page_block_map_struct") "page_block_map"),
  (0x9a8ae1e1, CbT.triple (some "page_block_ordered_list_struct") "page_block_ordered_list"),
  (0x467a0766, CbT.triple (some "page_block_paragraph_struct") "page_block_paragraph"),
  (0x1759c560, CbT.triple (some "page_block_photo_struct") "page_block_photo"),
  (0xe9c69982, CbT.triple (some "page_block_photo_layer82_struct") "page_block_photo_layer82"),
  (0xc070d93e, CbT.triple (some "page_block_preformatted_struct") "page_block_preformatted"),
  (0x4f4456d3, CbT.triple (some "page_block_pullquote_struct") "page_block_pullquote"),
  (0x16115a96, CbT.triple (some "page_block_related_articles_struct") "page_block_related_articles"),
  (0x031f9590, CbT.triple (some "page_block_slideshow_struct") "page_block_slideshow"),
  (0x130c8963, CbT.triple (some "page_block_slideshow_layer82_struct") "page_block_slideshow_layer82"),
  (0xf12bb6e1, CbT.triple (some "page_block_subheader_struct") "page_block_subheader"),
  (0x8ffa9a1f, CbT.triple (some "page_block_subtitle_struct") "page_block_subtitle"),
  (0xbf4dea82, CbT.triple (some "page_block_table_struct") "page_block_table"),
  (0x70abc3fd, CbT.triple (some "page_block_title_struct") "page_block_title"),
  (0x13567e8a, CbT.triple (some "page_block_unsupported_struct") "page_block_unsupported"),
  (0x7c8fe7b6, CbT.triple (some "page_block_video_struct") "page_block_video"),
  (0xd9d71866, CbT.triple (some "page_block_video_layer82_struct") "page_block_video_layer82"),
  (0x6f747657, CbT.triple (some "page_caption_struct") "page_caption"),
  (0xd7a19d69, CbT.triple (some "page_full_layer67_struct") "page_full_layer67"),
  (0x556ec7aa, CbT.triple (some "page_full_layer82_struct") "page_full_layer82"),
  (0xae891bec, CbT.triple (some "page_layer110_struct") "page_layer110"),
  (0x25e073fc, CbT.triple (some "page_list_item_blocks_struct") "page_list_item_blocks"),
  (0xb92fb6cd, CbT.triple (some "page_list_item_text_struct") "page_list_item_text"),
  (0x98dd8936, CbT.triple (some "page_list_ordered_item_blocks_struct") "page_list_ordered_item_blocks"),
  (0x5e068047, CbT.triple (some "page_list_ordered_item_text_struct") "page_list_ordered_item_text"),
  (0x8dee6c44, CbT.triple (some "page_part_layer67_struct") "page_part_layer67"),
  (0x8e3f9ebe, CbT.triple (some "page_part_layer82_struct") "page_part_layer82"),
  (0xb390dc08, CbT.triple (some "page_related_article_struct") "page_related_article"),
  (0x34566b6a, CbT.triple (some "page_table_cell_struct") "page_table_cell"),
  (0xe0c0c5e5, CbT.triple (some "page_table_row_struct") "page_table_row"),
  (0x3a912d4a, CbT.triple Option.none "password_kdf_algo_sha256_sha256_pbkdf2_hmac_sha512iter100000_sha256_mod_pow"),
  (0xd45ab096, CbT.triple Option.none "password_kdf_algo_unknown"),
  (0x909c3f94, CbT.triple Option.none "payment_requested_info"),
  (0xcdc27a1f, CbT.triple Option.none "payment_saved_credentials_card"),
  (0x3e24e573, CbT.triple Option.none "payments_bank_card_data"),
  (0xd83d70c1, CbT.triple Option.none "payments_clear_saved_info"),
  (0x2e79d779, CbT.triple Option.none "payments_get_bank_card_data"),
  (0x99f09745, CbT.triple Option.none "payments_get_payment_form"),
  (0xa092a980, CbT.triple Option.none "payments_get_payment_receipt"),
  (0x227d824b, CbT.triple Option.none "payments_get_saved_info"),
  (0x3f56aea3, CbT.triple Option.none "payments_payment_form"),
  (0x500911e1, CbT.triple Option.none "payments_payment_receipt"),
  (0x4e5f810d, CbT.triple Option.none "payments_payment_result"),
  (0xd8411139, CbT.triple Option.none "payments_payment_verification_needed"),
  (0x6b56b921, CbT.triple Option.none "payments_payment_verfication_needed_v_5_6_2"),
  (0xfb8fe43c, CbT.triple Option.none "payments_saved_info"),
  (0x2b8879b3, CbT.triple Option.none "payments_send_payment_form"),
  (0x770a8e74, CbT.triple Option.none "payments_validate_requested_info"),
  (0xd1451883, CbT.triple Option.none "payments_validated_requested_info"),
  (0xbddde532, CbT.triple (some "peer_channel_struct") "peer_channel"),
  (0xbad0e5bb, CbT.triple (some "peer_chat_struct") "peer_chat"),
  (0xca461b5d, CbT.triple Option.none "peer_located"),
  (0x6d1ded88, CbT.pair Option.none "peer_notify_events_all_v_0_1_317"),
  (0xadd53cb3, CbT.pair Option.none "peer_notify_events_empty_v_0_1_317"),
  (0xaf509d20, CbT.triple (some "peer_notify_settings_struct") "peer_notify_settings"),
  (0x70a68512, CbT.triple (some "peer_notify_settings_empty_layer77_struct") "peer_notify_settings_empty_layer77"),
  (0x8d5e11ee, CbT.triple (some "peer_notify_settings_layer47_struct") "peer_notify_settings_layer47"),
  (0x9acda4c0, CbT.triple (some "peer_notify_settings_layer77_struct") "peer_notify_settings_layer77"),
  (0xf8ec284b, CbT.triple Option.none "peer_self_located"),
  (0x733f2961, CbT.triple (some "peer_settings_struct") "peer_settings"),
  (0x818426cd, CbT.triple (some "peer_settings_v_5_15_0_struct") "peer_settings_v_5_15_0")]

def tdss_callbacks_12 : List (Nat × CbT) := [
  (0x9db1bc6d, CbT.triple (some "peer_user_struct") "peer_user"),
  (0x8742ae7f, CbT.triple Option.none "phone_call"),
  (0xe6f9ddf3, CbT.triple Option.none "phone_call_v_5_5_0"),
  (0x997c454a, CbT.triple Option.none "phone_call_accepted"),
  (0x6d003d3f, CbT.triple Option.none "phone_call_accepted_v_5_5_0"),
  (0xafe2b839, CbT.triple (some "phone_call_discard_reason_allow_group_call_struct") "phone_call_discard_reason_allow_group_call"),
  (0xfaf7e8c9, CbT.triple (some "phone_call_discard_reason_busy_struct") "phone_call_discard_reason_busy"),
  (0xe095c1a0, CbT.triple (some "phone_call_discard_reason_disconnect_struct") "phone_call_discard_reason_disconnect"),
  (0x57adc690, CbT.triple (some "phone_call_discard_reason_hangup_struct") "phone_call_discard_reason_hangup"),
  (0x85e42301, CbT.triple (some "phone_call_discard_reason_missed_struct") "phone_call_discard_reason_missed"),
  (0x50ca4de1, CbT.triple (some "phone_call_discarded_struct") "phone_call_discarded"),
  (0x5366c915, CbT.triple Option.none "phone_call_empty"),
  (0xfc878fc8, CbT.triple Option.none "phone_call_protocol"),
  (0xa2bb35cb, CbT.triple Option.none "phone_call_protocol_layer110"),
  (0x87eabb53, CbT.triple Option.none "phone_call_requested"),
  (0x83761ce4, CbT.triple Option.none "phone_call_requested_v_5_5_0"),
  (0x1b8f4ad1, CbT.triple Option.none "phone_call_waiting"),
  (0xffe6ab67, CbT.triple Option.none "phone_call_layer86_v_5_5_0"),
  (0x9d4c17c0, CbT.triple Option.none "phone_connection"),
  (0x3bd2b4a0, CbT.triple Option.none "phone_accept_call"),
  (0x2efe1722, CbT.triple Option.none "phone_confirm_call"),
  (0x8504e5b6, CbT.triple Option.none "phone_create_group_call"),
  (0xb2cbc1c0, CbT.triple Option.none "phone_discard_call"),
  (0x78d413a6, CbT.triple Option.none "phone_discard_call_v_5_5_0"),
  (0x7a777135, CbT.triple Option.none "phone_discard_group_call"),
  (0x46659be4, CbT.triple Option.none "phone_edit_group_call_member"),
  (0x8adb4f79, CbT.triple Option.none "phone_get_call"),
  (0x55451fa9, CbT.triple Option.none "phone_get_call_config"),
  (0x0c7cb017, CbT.triple Option.none "phone_get_group_call"),
  (0x6737ffb7, CbT.triple Option.none "phone_group_call"),
  (0xcc92a6dc, CbT.triple Option.none "phone_invite_group_call_members"),
  (0x09db32d7, CbT.triple Option.none "phone_join_group_call"),
  (0x60e98e5f, CbT.triple Option.none "phone_leave_group_call"),
  (0xec82e140, CbT.triple Option.none "phone_phone_call"),
  (0x17d54f61, CbT.triple Option.none "phone_received_call"),
  (0x42ff96ed, CbT.triple Option.none "phone_request_call"),
  (0x5b95b3d4, CbT.triple Option.none "phone_request_call_v_5_5_0"),
  (0x277add7e, CbT.triple Option.none "phone_save_call_debug"),
  (0x59ead627, CbT.triple Option.none "phone_set_call_rating"),
  (0x1c536a34, CbT.triple Option.none "phone_set_call_rating_v_5_5_0"),
  (0x98e3cdba, CbT.triple Option.none "phone_upgrade_phone_call"),
  (0xfb197a65, CbT.triple (some "photo_struct") "photo"),
  (0xe9a734fa, CbT.triple (some "photo_cached_size_struct") "photo_cached_size"),
  (0x2331b22d, CbT.triple (some "photo_empty_struct") "photo_empty"),
  (0xd07504a5, CbT.triple (some "photo_layer115_struct") "photo_layer115"),
  (0x77bfb61b, CbT.triple (some "photo_size_struct") "photo_size"),
  (0x0e17e23c, CbT.triple (some "photo_size_empty_struct") "photo_size_empty"),
  (0xcded42fe, CbT.triple (some "photo_layer55_struct") "photo_layer55"),
  (0x9288dd29, CbT.triple (some "photo_layer82_struct") "photo_layer82"),
  (0x9c477dd8, CbT.triple (some "photo_layer97_struct") "photo_layer97"),
  (0x22b56751, CbT.triple (some "photo_old_struct") "photo_old"),
  (0xc3838076, CbT.triple (some "photo_old2_struct") "photo_old2"),
  (0xe0b0bc2e, CbT.triple (some "photo_stripped_size_struct") "photo_stripped_size"),
  (0x87cf7f2f, CbT.triple Option.none "photos_delete_photos"),
  (0x91cd32a8, CbT.triple Option.none "photos_get_user_photos"),
  (0xb7ee553c, CbT.pair Option.none "photos_get_user_photos_v_0_1_317"),
  (0x20212ca8, CbT.triple Option.none "photos_photo"),
  (0x8dca6aa5, CbT.triple Option.none "photos_photos"),
  (0x15051f54, CbT.triple Option.none "photos_photos_slice"),
  (0x72d4742c, CbT.triple Option.none "photos_update_profile_photo"),
  (0xeef579a0, CbT.pair Option.none "photos_update_profile_photo_v_0_1_317"),
  (0xf0bb5152, CbT.triple Option.none "photos_update_profile_photo_v_5_15_0"),
  (0x89f30f69, CbT.triple Option.none "photos_upload_profile_photo"),
  (0xd50f9c88, CbT.pair Option.none "photos_upload_profile_photo_v_0_1_317"),
  (0x4f32c098, CbT.triple Option.none "photos_upload_profile_photo_v_5_15_0"),
  (0x7abe77ec, CbT.pair Option.none "ping_v_0_1_317"),
  (0x86e18161, CbT.triple (some "poll_struct") "poll"),
  (0x6ca9c2e9, CbT.triple (some "poll_answer_struct") "poll_answer"),
  (0x3b6ddad2, CbT.triple (some "poll_answer_voters_struct") "poll_answer_voters"),
  (0xd5529d06, CbT.triple (some "poll_layer111_struct") "poll_layer111"),
  (0xbadcc1a3, CbT.triple (some "poll_results_struct") "poll_results"),
  (0x5755785a, CbT.triple (some "poll_results_layer108_struct") "poll_results_layer108"),
  (0xc87024a2, CbT.triple (some "poll_results_layer111_struct") "poll_results_layer111"),
  (0xaf746786, CbT.triple (some "poll_to_delete_struct") "poll_to_delete"),
  (0x347773c5, CbT.pair Option.none "pong_v_0_1_317"),
  (0x5ce14175, CbT.triple Option.none "popular_contact"),
  (0x1e8caaeb, CbT.triple Option.none "post_address"),
  (0x42ffd42b, CbT.triple Option.none "privacy_key_added_by_phone"),
  (0x500e6dfa, CbT.triple Option.none "privacy_key_chat_invite"),
  (0x69ec56a3, CbT.triple Option.none "privacy_key_forwards"),
  (0x3d662b7b, CbT.triple Option.none "privacy_key_phone_call"),
  (0xd19ae46d, CbT.triple Option.none "privacy_key_phone_number"),
  (0x39491cc8, CbT.triple Option.none "privacy_key_phone_p2p"),
  (0x96151fed, CbT.triple Option.none "privacy_key_profile_photo"),
  (0xbc2eab30, CbT.triple Option.none "privacy_key_status_timestamp"),
  (0x65427b82, CbT.triple Option.none "privacy_value_allow_all"),
  (0x18be796b, CbT.triple Option.none "privacy_value_allow_chat_participants"),
  (0xfffe1bac, CbT.triple Option.none "privacy_value_allow_contacts"),
  (0x4d5bbe0c, CbT.triple Option.none "privacy_value_allow_users"),
  (0x8b73e763, CbT.triple Option.none "privacy_value_disallow_all"),
  (0xacae0690, CbT.triple Option.none "privacy_value_disallow_chat_participants"),
  (0xf888fa1a, CbT.triple Option.none "privacy_value_disallow_contacts"),
  (0x0c7f49b7, CbT.triple Option.none "privacy_value_disallow_users"),
  (0x5bb8e511, CbT.pair Option.none "proto_message_v_0_1_317"),
  (0x6fb250d1, CbT.triple (some "reaction_count_struct") "reaction_count"),
  (0xa384b779, CbT.triple Option.none "received_notify_message"),
  (0xa01b22f9, CbT.triple Option.none "recent_me_url_chat"),
  (0xeb49081d, CbT.triple Option.none "recent_me_url_chat_invite"),
  (0xbc0a57dc, CbT.triple Option.none "recent_me_url_sticker_set"),
  (0x46e1d13d, CbT.triple Option.none "recent_me_url_unknown")]

def tdss_callbacks_13 : List (Nat × CbT) := [
  (0x8dbc3336, CbT.triple Option.none "recent_me_url_user"),
  (0x48a30254, CbT.triple (some "reply_inline_markup_struct") "reply_inline_markup"),
  (0xf4108aa0, CbT.triple (some "reply_keyboard_force_reply_struct") "reply_keyboard_force_reply"),
  (0xa03e5b85, CbT.triple (some "reply_keyboard_hide_struct") "reply_keyboard_hide"),
  (0x3502758c, CbT.triple (some "reply_keyboard_markup_struct") "reply_keyboard_markup"),
  (0xd712e4be, CbT.pair Option.none "req_dh_params_v_0_1_317"),
  (0x60469778, CbT.pair Option.none "req_pq_v_0_1_317"),
  (0x05162463, CbT.pair Option.none "res_pq_v_0_1_317"),
  (0xd072acb4, CbT.triple (some "restriction_reason_struct") "restriction_reason"),
  (0xa43ad8b7, CbT.pair Option.none "rpc_answer_dropped_v_0_1_317"),
  (0xcd78e586, CbT.pair Option.none "rpc_answer_dropped_running_v_0_1_317"),
  (0x5e2ad36e, CbT.pair Option.none "rpc_answer_unknown_v_0_1_317"),
  (0x58e4a740, CbT.pair Option.none "rpc_drop_answer_v_0_1_317"),
  (0x2144ca19, CbT.pair Option.none "rpc_error_v_0_1_317"),
  (0x7ae432f5, CbT.pair Option.none "rpc_req_error_v_0_1_317"),
  (0xf35c6d01, CbT.pair Option.none "rpc_result_v_0_1_317"),
  (0x33f0ea47, CbT.triple Option.none "secure_credentials_encrypted"),
  (0x8aeabec3, CbT.triple Option.none "secure_data"),
  (0xe0277a62, CbT.triple Option.none "secure_file"),
  (0x64199744, CbT.triple Option.none "secure_file_empty"),
  (0xbbf2dda0, CbT.triple Option.none "secure_password_kdf_algo_pbkdf2_hmac_sha512_iter100000"),
  (0x86471d92, CbT.triple Option.none "secure_password_kdf_algo_sha512"),
  (0x004a8537, CbT.triple Option.none "secure_password_kdf_algo_unknown"),
  (0x21ec5a5f, CbT.triple Option.none "secure_plain_email"),
  (0x7d6099dd, CbT.triple Option.none "secure_plain_phone"),
  (0x829d99da, CbT.triple Option.none "secure_required_type"),
  (0x027477b4, CbT.triple Option.none "secure_required_type_one_of"),
  (0x1527bcac, CbT.triple Option.none "secure_secret_settings"),
  (0x187fa0ca, CbT.triple Option.none "secure_value"),
  (0x869d758f, CbT.triple Option.none "secure_value_error"),
  (0xe8a40bd9, CbT.triple Option.none "secure_value_error_data"),
  (0x7a700873, CbT.triple Option.none "secure_value_error_file"),
  (0x666220e9, CbT.triple Option.none "secure_value_error_files"),
  (0x00be3dfa, CbT.triple Option.none "secure_value_error_front_side"),
  (0x868a2aa5, CbT.triple Option.none "secure_value_error_reverse_side"),
  (0xe537ced6, CbT.triple Option.none "secure_value_error_selfie"),
  (0xa1144770, CbT.triple Option.none "secure_value_error_translation_file"),
  (0x34636dd8, CbT.triple Option.none "secure_value_error_translation_files"),
  (0xed1ecdb0, CbT.triple Option.none "secure_value_hash"),
  (0xcbe31e26, CbT.triple (some "secure_value_type_address_struct") "secure_value_type_address"),
  (0x89137c0d, CbT.triple (some "secure_value_type_bank_statement_struct") "secure_value_type_bank_statement"),
  (0x06e425c4, CbT.triple (some "secure_value_type_driver_license_struct") "secure_value_type_driver_license"),
  (0x8e3ca7ee, CbT.triple (some "secure_value_type_email_struct") "secure_value_type_email"),
  (0xa0d0744b, CbT.triple (some "secure_value_type_identity_card_struct") "secure_value_type_identity_card"),
  (0x99a48f23, CbT.triple (some "secure_value_type_internal_passport_struct") "secure_value_type_internal_passport"),
  (0x3dac6a00, CbT.triple (some "secure_value_type_passport_struct") "secure_value_type_passport"),
  (0x99e3806a, CbT.triple (some "secure_value_type_passport_registration_struct") "secure_value_type_passport_registration"),
  (0x9d2a81e3, CbT.triple (some "secure_value_type_personal_details_struct") "secure_value_type_personal_details"),
  (0xb320aadb, CbT.triple (some "secure_value_type_phone_struct") "secure_value_type_phone"),
  (0x8b883488, CbT.triple (some "secure_value_type_rental_agreement_struct") "secure_value_type_rental_agreement"),
  (0xea02ec33, CbT.triple (some "secure_value_type_temporary_registration_struct") "secure_value_type_temporary_registration"),
  (0xfc36954e, CbT.triple (some "secure_value_type_utility_bill_struct") "secure_value_type_utility_bill"),
  (0xfd5ec8f5, CbT.triple (some "send_message_cancel_action_struct") "send_message_cancel_action"),
  (0x628cbc6f, CbT.triple (some "send_message_choose_contact_action_struct") "send_message_choose_contact_action"),
  (0xdd6a8f48, CbT.triple (some "send_message_game_play_action_struct") "send_message_game_play_action"),
  (0x176f8ba1, CbT.triple (some "send_message_geo_location_action_struct") "send_message_geo_location_action"),
  (0xd52f73f7, CbT.triple (some "send_message_record_audio_action_struct") "send_message_record_audio_action"),
  (0x88f27fbc, CbT.triple (some "send_message_record_round_action_struct") "send_message_record_round_action"),
  (0xa187d66f, CbT.triple (some "send_message_record_video_action_struct") "send_message_record_video_action"),
  (0x16bf744e, CbT.triple (some "send_message_typing_action_struct") "send_message_typing_action"),
  (0xf351d7ab, CbT.triple (some "send_message_upload_audio_action_struct") "send_message_upload_audio_action"),
  (0xe6ac8a6f, CbT.triple (some "send_message_upload_audio_action_old_struct") "send_message_upload_audio_action_old"),
  (0xaa0cd9e4, CbT.triple (some "send_message_upload_document_action_struct") "send_message_upload_document_action"),
  (0x8faee98e, CbT.triple (some "send_message_upload_document_action_old_struct") "send_message_upload_document_action_old"),
  (0xd1d34a26, CbT.triple (some "send_message_upload_photo_action_struct") "send_message_upload_photo_action"),
  (0x990a3c1a, CbT.triple (some "send_message_upload_photo_action_old_struct") "send_message_upload_photo_action_old"),
  (0x243e1c66, CbT.triple (some "send_message_upload_round_action_struct") "send_message_upload_round_action"),
  (0xe9763aec, CbT.triple (some "send_message_upload_video_action_struct") "send_message_upload_video_action"),
  (0x92042ff7, CbT.triple (some "send_message_upload_video_action_old_struct") "send_message_upload_video_action_old"),
  (0xb5890dba, CbT.pair Option.none "server_dh_inner_data_v_0_1_317"),
  (0x79cb045d, CbT.pair Option.none "server_dh_params_fail_v_0_1_317"),
  (0xd0e8075c, CbT.pair Option.none "server_dh_params_ok_v_0_1_317"),
  (0xf5045f1f, CbT.pair Option.none "set_client_dh_params_v_0_1_317"),
  (0xb6213cdf, CbT.triple Option.none "shipping_option"),
  (0xcb43acde, CbT.triple Option.none "stats_abs_value_and_prev"),
  (0xbdf78394, CbT.triple Option.none "stats_broadcast_stats"),
  (0xb637edaf, CbT.triple Option.none "stats_date_range_days"),
  (0xab42441a, CbT.triple Option.none "stats_get_broadcast_stats"),
  (0xdcdf8607, CbT.triple Option.none "stats_get_megagroup_stats"),
  (0x4a27eb2d, CbT.triple Option.none "stats_graph_async"),
  (0xbedc9822, CbT.triple Option.none "stats_graph_error"),
  (0x8ea464b6, CbT.triple Option.none "stats_graph"),
  (0x6014f412, CbT.triple Option.none "stats_group_top_admin"),
  (0x31962a4c, CbT.triple Option.none "stats_group_top_inviter"),
  (0x18f3d0f7, CbT.triple Option.none "stats_group_top_poster"),
  (0x621d5fa0, CbT.triple Option.none "stats_load_async_graph"),
  (0xef7ff916, CbT.triple Option.none "stats_megagroup_stats"),
  (0xcbce2fe0, CbT.triple Option.none "stats_percent_value"),
  (0x47a971e0, CbT.triple Option.none "stats_url"),
  (0x12b299d4, CbT.triple Option.none "sticker_pack"),
  (0xeeb46f27, CbT.triple Option.none "sticker_set"),
  (0x6410a5d2, CbT.triple Option.none "sticker_set_covered"),
  (0x3407e51b, CbT.triple Option.none "sticker_set_multi_covered"),
  (0xcd303b41, CbT.triple Option.none "sticker_set_layer75"),
  (0x5585a139, CbT.triple Option.none "sticker_set_layer96"),
  (0x6a90bcb7, CbT.triple Option.none "sticker_set_layer97"),
  (0xa7a43b17, CbT.triple Option.none "sticker_set_old"),
  (0xcae1aadf, CbT.triple Option.none "storage_file_gif"),
  (0x007efe0e, CbT.triple Option.none "storage_file_jpeg"),
  (0x4b09ebbc, CbT.triple Option.none "storage_file_mov")]

def tdss_callbacks_14 : List (Nat × CbT) := [
  (0x528a0677, CbT.triple Option.none "storage_file_mp3"),
  (0xb3cea0e4, CbT.triple Option.none "storage_file_mp4"),
  (0x40bc6f52, CbT.triple Option.none "storage_file_partial"),
  (0xae1e508d, CbT.triple Option.none "storage_file_pdf"),
  (0x0a4f63c0, CbT.triple Option.none "storage_file_png"),
  (0xaa963b05, CbT.triple Option.none "storage_file_unknown"),
  (0x1081464c, CbT.triple Option.none "storage_file_webp"),
  (0x35553762, CbT.triple (some "text_anchor_struct") "text_anchor"),
  (0x6724abc4, CbT.triple (some "text_bold_struct") "text_bold"),
  (0x7e6260d7, CbT.triple (some "text_concat_struct") "text_concat"),
  (0xde5a0dd6, CbT.triple (some "text_email_struct") "text_email"),
  (0xdc3d824f, CbT.triple (some "text_empty_struct") "text_empty"),
  (0x6c3f19b9, CbT.triple (some "text_fixed_struct") "text_fixed"),
  (0x081ccf4f, CbT.triple (some "text_image_struct") "text_image"),
  (0xd912a59c, CbT.triple (some "text_italic_struct") "text_italic"),
  (0x034b8621, CbT.triple (some "text_marked_struct") "text_marked"),
  (0x1ccb966a, CbT.triple (some "text_phone_struct") "text_phone"),
  (0x744694e0, CbT.triple (some "text_plain_struct") "text_plain"),
  (0x9bf8bb95, CbT.triple (some "text_strike_struct") "text_strike"),
  (0xed6a8504, CbT.triple (some "text_subscript_struct") "text_subscript"),
  (0xc7fb5e01, CbT.triple (some "text_superscript_struct") "text_superscript"),
  (0xc12622c4, CbT.triple (some "text_underline_struct") "text_underline"),
  (0x3c2884c1, CbT.triple (some "text_url_struct") "text_url"),
  (0x028f1114, CbT.triple Option.none "theme"),
  (0x483d270c, CbT.triple Option.none "theme_document_not_modified_layer106"),
  (0x9c14984a, CbT.triple (some "theme_settings_struct") "theme_settings"),
  (0xf7d90ce0, CbT.triple Option.none "theme_layer106"),
  (0xedcdc05b, CbT.triple Option.none "top_peer"),
  (0x148677e2, CbT.triple Option.none "top_peer_category_bots_inline"),
  (0xab661b5b, CbT.triple Option.none "top_peer_category_bots_p_m"),
  (0x161d9628, CbT.triple Option.none "top_peer_category_channels"),
  (0x0637b7ed, CbT.triple Option.none "top_peer_category_correspondents"),
  (0xfbeec0f0, CbT.triple Option.none "top_peer_category_forward_chats"),
  (0xa8406ca9, CbT.triple Option.none "top_peer_category_forward_users"),
  (0xbd17a14a, CbT.triple Option.none "top_peer_category_groups"),
  (0xfb834291, CbT.triple Option.none "top_peer_category_peers"),
  (0x1e76a78c, CbT.triple Option.none "top_peer_category_phone_calls"),
  (0x6f690963, CbT.pair Option.none "update_activation_v_0_1_317"),
  (0xb6d45656, CbT.triple Option.none "update_channel"),
  (0x70db6837, CbT.triple Option.none "update_channel_available_messages"),
  (0x98a12b4b, CbT.triple Option.none "update_channel_message_views"),
  (0x65d2b464, CbT.triple Option.none "update_channel_participant"),
  (0x98592475, CbT.triple Option.none "update_channel_pinned_message"),
  (0x89893b45, CbT.triple Option.none "update_channel_read_messages_contents"),
  (0xeb0467fb, CbT.triple Option.none "update_channel_too_long"),
  (0x40771900, CbT.triple Option.none "update_channel_web_page"),
  (0x54c01850, CbT.triple Option.none "update_chat_default_banned_rights"),
  (0xea4b0e5c, CbT.triple Option.none "update_chat_participant_add"),
  (0x3a0eeb22, CbT.pair Option.none "update_chat_participant_add_v_0_1_317"),
  (0xb6901959, CbT.triple Option.none "update_chat_participant_admin"),
  (0x6e5f8c22, CbT.triple Option.none "update_chat_participant_delete"),
  (0x07761198, CbT.triple Option.none "update_chat_participants"),
  (0xe10db349, CbT.triple Option.none "update_chat_pinned_message"),
  (0x9a65ea1f, CbT.triple Option.none "update_chat_user_typing"),
  (0x3c46cfe6, CbT.pair Option.none "update_chat_user_typing_v_0_1_317"),
  (0xa229dd06, CbT.triple Option.none "update_config"),
  (0x9d2e67c5, CbT.triple Option.none "update_contact_link"),
  (0x51a48a9a, CbT.pair Option.none "update_contact_link_v_0_1_317"),
  (0x2575bbb9, CbT.pair Option.none "update_contact_registered_v_0_1_317"),
  (0x7084a7be, CbT.triple Option.none "update_contacts_reset"),
  (0x8e5e9873, CbT.triple Option.none "update_dc_options"),
  (0xc37521c9, CbT.triple Option.none "update_delete_channel_messages"),
  (0xa20db0e5, CbT.triple Option.none "update_delete_messages"),
  (0xa92bfe26, CbT.pair Option.none "update_delete_messages_v_0_1_317"),
  (0x90866cee, CbT.triple Option.none "update_delete_scheduled_messages"),
  (0x26ffde7d, CbT.triple Option.none "update_dialog_filter"),
  (0xa5d72105, CbT.triple Option.none "update_dialog_filter_order"),
  (0x3504914f, CbT.triple Option.none "update_dialog_filters"),
  (0x6e6fe51c, CbT.triple Option.none "update_dialog_pinned"),
  (0x19d27f3c, CbT.triple Option.none "update_dialog_pinned_v_5_5_0"),
  (0xe16459c3, CbT.triple Option.none "update_dialog_unread_mark"),
  (0xee2bb969, CbT.triple Option.none "update_draft_message"),
  (0x1b3f4df7, CbT.triple Option.none "update_edit_channel_message"),
  (0xe40370a3, CbT.triple Option.none "update_edit_message"),
  (0x1710f156, CbT.triple Option.none "update_encrypted_chat_typing"),
  (0x38fe25b7, CbT.triple Option.none "update_encrypted_messages_read"),
  (0xb4a2e88d, CbT.triple Option.none "update_encryption"),
  (0xe511996d, CbT.triple Option.none "update_faved_stickers"),
  (0x19360dc0, CbT.triple Option.none "update_folder_peers"),
  (0x871fb939, CbT.triple Option.none "update_geo_live_viewed"),
  (0x85fe86ed, CbT.triple Option.none "update_group_call"),
  (0x057eaec8, CbT.triple Option.none "update_group_call_participant"),
  (0x56022f4d, CbT.triple Option.none "update_lang_pack"),
  (0x46560264, CbT.triple Option.none "update_lang_pack_too_long"),
  (0x564fe691, CbT.triple Option.none "update_login_token"),
  (0x4e90bfd6, CbT.triple Option.none "update_message_i_d"),
  (0xaca1657b, CbT.triple Option.none "update_message_poll"),
  (0x154798c3, CbT.triple Option.none "update_message_reactions"),
  (0x8f06529a, CbT.pair Option.none "update_new_authorization_v_0_1_317"),
  (0x62ba04d9, CbT.triple Option.none "update_new_channel_message"),
  (0x12bcbd9a, CbT.triple Option.none "update_new_encrypted_message"),
  (0x5a68e3f7, CbT.pair Option.none "update_new_geo_chat_message_v_0_1_317"),
  (0x1f2b0afd, CbT.triple Option.none "update_new_message"),
  (0x013abdb3, CbT.pair Option.none "update_new_message_v_0_1_317"),
  (0x39a51dfb, CbT.triple Option.none "update_new_scheduled_message"),
  (0x688a30aa, CbT.triple Option.none "update_new_sticker_set"),
  (0xbec268ef, CbT.triple Option.none "update_notify_settings"),
  (0xb4afcfb0, CbT.triple Option.none "update_peer_located"),
  (0x6a7e7366, CbT.triple Option.none "update_peer_settings"),
  (0xab0f6b1e, CbT.triple Option.none "update_phone_call")]

def tdss_callbacks_15 : List (Nat × CbT) := [
  (0x2661bf09, CbT.triple Option.none "update_phone_call_signaling_data"),
  (0xfa0f3ca2, CbT.triple Option.none "update_pinned_dialogs"),
  (0xea4cb65b, CbT.triple Option.none "update_pinned_dialogs_v_5_5_0"),
  (0xee3b272a, CbT.triple Option.none "update_privacy"),
  (0x330b5424, CbT.triple Option.none "update_read_channel_inbox"),
  (0x4214f37f, CbT.triple Option.none "update_read_channel_inbox_v_5_5_0"),
  (0x25d6c9c7, CbT.triple Option.none "update_read_channel_outbox"),
  (0x571d2742, CbT.triple Option.none "update_read_featured_stickers"),
  (0x9c974fdf, CbT.triple Option.none "update_read_history_inbox"),
  (0x9961fd5c, CbT.triple Option.none "update_read_history_inbox_v_5_5_0"),
  (0x2f2f21bf, CbT.triple Option.none "update_read_history_outbox"),
  (0x68c13933, CbT.triple Option.none "update_read_messages_contents"),
  (0xc6649e31, CbT.pair Option.none "update_read_messages_v_0_1_317"),
  (0x9a422c20, CbT.triple Option.none "update_recent_stickers"),
  (0xd15de04d, CbT.pair Option.none "update_restore_messages_v_0_1_317"),
  (0x9375341e, CbT.triple Option.none "update_saved_gifs"),
  (0xebe46819, CbT.triple Option.none "update_service_notification"),
  (0x78d4dec1, CbT.triple Option.none "update_short"),
  (0x16812688, CbT.triple Option.none "update_short_chat_message"),
  (0x2b2fbd4e, CbT.pair Option.none "update_short_chat_message_v_0_1_317"),
  (0x914fbf11, CbT.triple Option.none "update_short_message"),
  (0xd3f45784, CbT.pair Option.none "update_short_message_v_0_1_317"),
  (0x11f1331c, CbT.triple Option.none "update_short_sent_message"),
  (0x43ae3dec, CbT.triple Option.none "update_sticker_sets"),
  (0x0bb2d201, CbT.triple Option.none "update_sticker_sets_order"),
  (0x8216fba3, CbT.triple Option.none "update_theme"),
  (0x80ece81a, CbT.triple Option.none "update_user_blocked"),
  (0xa7332b73, CbT.triple Option.none "update_user_name"),
  (0xda22d9ad, CbT.pair Option.none "update_user_name_v_0_1_317"),
  (0x12b9417b, CbT.triple Option.none "update_user_phone"),
  (0x95313b0c, CbT.triple Option.none "update_user_photo"),
  (0x4c43da18, CbT.triple Option.none "update_user_pinned_message"),
  (0x1bfbd823, CbT.triple Option.none "update_user_status"),
  (0x5c486927, CbT.triple Option.none "update_user_typing"),
  (0x6baa8508, CbT.pair Option.none "update_user_typing_v_0_1_317"),
  (0x7f891213, CbT.triple Option.none "update_web_page"),
  (0x74ae4240, CbT.triple Option.none "updates"),
  (0x725b04c3, CbT.triple Option.none "updates_combined"),
  (0xe317af7e, CbT.triple Option.none "updates_too_long"),
  (0x2064674e, CbT.triple Option.none "updates_channel_difference"),
  (0x3e11affb, CbT.triple Option.none "updates_channel_difference_empty"),
  (0xa4bcc6fe, CbT.triple Option.none "updates_channel_difference_too_long"),
  (0x6a9d7b35, CbT.triple Option.none "updates_channel_difference_too_long_v_5_5_0"),
  (0x00f49ca0, CbT.triple Option.none "updates_difference"),
  (0x5d75a138, CbT.triple Option.none "updates_difference_empty"),
  (0xa8fb1981, CbT.triple Option.none "updates_difference_slice"),
  (0x4afe8f6d, CbT.triple Option.none "updates_difference_too_long"),
  (0x03173d78, CbT.triple Option.none "updates_get_channel_difference"),
  (0x25939651, CbT.triple Option.none "updates_get_difference"),
  (0x0a041495, CbT.pair Option.none "updates_get_difference_v_0_1_317"),
  (0xedd4882a, CbT.triple Option.none "updates_get_state"),
  (0xa56c2a3e, CbT.triple Option.none "updates_state"),
  (0xa99fca4f, CbT.triple Option.none "upload_cdn_file"),
  (0xeea8e46e, CbT.triple Option.none "upload_cdn_file_reupload_needed"),
  (0x096a18d5, CbT.triple Option.none "upload_file"),
  (0xf18cda44, CbT.triple Option.none "upload_file_cdn_redirect"),
  (0x2000bcc3, CbT.triple Option.none "upload_get_cdn_file"),
  (0x4da54231, CbT.triple Option.none "upload_get_cdn_file_hashes"),
  (0xb15a9afc, CbT.triple Option.none "upload_get_file"),
  (0xe3a6cfb5, CbT.triple Option.none "upload_get_file_v_5_6_2"),
  (0xc7025931, CbT.triple Option.none "upload_get_file_hashes"),
  (0x24e6818d, CbT.triple Option.none "upload_get_web_file"),
  (0x9b2754a8, CbT.triple Option.none "upload_reupload_cdn_file"),
  (0xde7b673d, CbT.triple Option.none "upload_save_big_file_part"),
  (0xb304a621, CbT.triple Option.none "upload_save_file_part"),
  (0x21e753bc, CbT.triple Option.none "upload_web_file"),
  (0x8f8c0e4e, CbT.triple Option.none "url_auth_result_accepted"),
  (0xa9d6db1f, CbT.triple Option.none "url_auth_result_default"),
  (0x92d33a0e, CbT.triple Option.none "url_auth_result_request"),
  (0x938458c1, CbT.triple (some "user_struct") "user"),
  (0xf2fb8319, CbT.triple (some "user_contact_old_struct") "user_contact_old"),
  (0xcab35e18, CbT.triple (some "user_contact_old2_struct") "user_contact_old2"),
  (0xb29ad7cc, CbT.triple (some "user_deleted_old_struct") "user_deleted_old"),
  (0xd6016d7a, CbT.triple (some "user_deleted_old2_struct") "user_deleted_old2"),
  (0x200250ba, CbT.triple (some "user_empty_struct") "user_empty"),
  (0x5214c89d, CbT.triple (some "user_foreign_old_struct") "user_foreign_old"),
  (0x075cf7a8, CbT.triple (some "user_foreign_old2_struct") "user_foreign_old2"),
  (0xedf17c12, CbT.triple (some "user_full_struct") "user_full"),
  (0x745559cc, CbT.triple (some "user_full_layer101_struct") "user_full_layer101"),
  (0x8ea4a881, CbT.triple (some "user_full_layer98_struct") "user_full_layer98"),
  (0x771095da, CbT.pair Option.none "user_full_v_0_1_317"),
  (0x2e13f4c3, CbT.triple (some "user_layer104_struct") "user_layer104"),
  (0xd10d979a, CbT.triple (some "user_layer65_struct") "user_layer65"),
  (0x69d3ab26, CbT.triple (some "user_profile_photo_struct") "user_profile_photo"),
  (0x4f11bae1, CbT.triple (some "user_profile_photo_empty_struct") "user_profile_photo_empty"),
  (0xd559d8c8, CbT.triple (some "user_profile_photo_layer97_struct") "user_profile_photo_layer97"),
  (0xecd75d8c, CbT.triple (some "user_profile_photo_layer115_struct") "user_profile_photo_layer115"),
  (0x990d1493, CbT.triple (some "user_profile_photo_old_struct") "user_profile_photo_old"),
  (0x22e8ceb0, CbT.triple (some "user_request_old_struct") "user_request_old"),
  (0xd9ccc4ef, CbT.triple (some "user_request_old2_struct") "user_request_old2"),
  (0x720535ec, CbT.triple (some "user_self_old_struct") "user_self_old"),
  (0x7007b451, CbT.triple (some "user_self_old2_struct") "user_self_old2"),
  (0x1c60e608, CbT.triple (some "user_self_old3_struct") "user_self_old3"),
  (0x09d05049, CbT.triple (some "user_status_empty_struct") "user_status_empty"),
  (0x77ebc742, CbT.triple (some "user_status_last_month_struct") "user_status_last_month"),
  (0x07bf09fc, CbT.triple (some "user_status_last_week_struct") "user_status_last_week"),
  (0x008c703f, CbT.triple (some "user_status_offline_struct") "user_status_offline"),
  (0xedb93949, CbT.triple (some "user_status_online_struct") "user_status_online"),
  (0xe26f42f1, CbT.triple (some "user_status_recently_struct") "user_status_recently"),
  (0x22e49072, CbT.triple (some "user_old_struct") "user_old")]

def tdss_callbacks_16 : List (Nat × CbT) := [
  (0xca30a5b1, CbT.triple Option.none "users_get_full_user"),
  (0x0d91a548, CbT.triple Option.none "users_get_users"),
  (0xc10658a8, CbT.triple (some "video_empty_layer45_struct") "video_empty_layer45"),
  (0x55555553, CbT.triple (some "video_encrypted_struct") "video_encrypted"),
  (0xf72887d3, CbT.triple (some "video_layer45_struct") "video_layer45"),
  (0x5a04a49f, CbT.triple (some "video_old_struct") "video_old"),
  (0x388fa391, CbT.triple (some "video_old2_struct") "video_old2"),
  (0xee9f4a4d, CbT.triple (some "video_old3_struct") "video_old3"),
  (0xe831c556, CbT.triple (some "video_size_struct") "video_size"),
  (0x435bb987, CbT.triple (some "video_size_layer115_struct") "video_size_layer115"),
  (0xa437c3ed, CbT.triple (some "wall_paper_struct") "wall_paper"),
  (0xf04f91ec, CbT.triple (some "wall_paper_layer94_struct") "wall_paper_layer94"),
  (0x8af40b25, CbT.triple (some "wall_paper_no_file_struct") "wall_paper_no_file"),
  (0x05086cf8, CbT.triple (some "wall_paper_settings_struct") "wall_paper_settings"),
  (0xa12f40b8, CbT.triple (some "wall_paper_settings_layer106_struct") "wall_paper_settings_layer106"),
  (0x63117f24, CbT.pair Option.none "wall_paper_solid_v_0_1_317"),
  (0xccb03657, CbT.pair Option.none "wall_paper_v_0_1_317"),
  (0x0b57f346, CbT.triple Option.none "wallet_get_key_secret_salt"),
  (0x764386d7, CbT.triple Option.none "wallet_lite_response"),
  (0xdd484d64, CbT.triple Option.none "wallet_secret_salt"),
  (0xe2c9d33e, CbT.triple Option.none "wallet_send_lite_request"),
  (0xcac943f2, CbT.triple Option.none "web_authorization"),
  (0x1c570ed1, CbT.triple (some "web_document_struct") "web_document"),
  (0xf9c8bcc6, CbT.triple (some "web_document_no_proxy_struct") "web_document_no_proxy"),
  (0xc61acbd8, CbT.triple (some "web_document_layer81_struct") "web_document_layer81"),
  (0xe89c45b2, CbT.triple (some "web_page_struct") "web_page"),
  (0x54b56617, CbT.triple (some "web_page_attribute_theme_struct") "web_page_attribute_theme"),
  (0xeb1477e8, CbT.triple (some "web_page_empty_struct") "web_page_empty"),
  (0x5f07b4bc, CbT.triple (some "web_page_layer104_struct") "web_page_layer104"),
  (0xfa64e172, CbT.triple (some "web_page_layer107_struct") "web_page_layer107"),
  (0xca820ed7, CbT.triple (some "web_page_layer58_struct") "web_page_layer58"),
  (0x7311ca11, CbT.triple (some "web_page_not_modified_struct") "web_page_not_modified"),
  (0x85849473, CbT.triple (some "web_page_not_modified_layer110_struct") "web_page_not_modified_layer110"),
  (0xc586da1c, CbT.triple (some "web_page_pending_struct") "web_page_pending"),
  (0xd41a5167, CbT.triple (some "web_page_url_pending_struct") "web_page_url_pending"),
  (0xa31ea0b5, CbT.triple (some "web_page_old_struct") "web_page_old"),
  (0x1cb5c415, CbT.triple Option.none "_vector")]

/-- The class-level `tdss_callbacks` dict literal (tblob.py lines
5664-7305): one entry per line, in source order, split into consecutive
slices of at most 100 entries purely so that lookups evaluate with bounded
recursion depth.  Its 1637 keys are pairwise distinct (the second occurrence
of `0xc8d7493e` in the source is commented out). -/
def tdss_callbacks : List (Nat × CbT) :=
  tdss_callbacks_0 ++ tdss_callbacks_1 ++ tdss_callbacks_2 ++ tdss_callbacks_3 ++ tdss_callbacks_4 ++ tdss_callbacks_5 ++ tdss_callbacks_6 ++ tdss_callbacks_7 ++ tdss_callbacks_8 ++ tdss_callbacks_9 ++ tdss_callbacks_10 ++ tdss_callbacks_11 ++ tdss_callbacks_12 ++ tdss_callbacks_13 ++ tdss_callbacks_14 ++ tdss_callbacks_15 ++ tdss_callbacks_16

/-- The registry as built by `tblob.__init__`. -/
def callbacks : List (Nat × CbT) := build_callbacks tdss_callbacks

/-- `blob_parser(self).parse(data)` for the record shapes embedded in this
development; any other decoder name raises `unmodeled` (no theorem below
depends on an unmodeled decoder's behaviour). -/
def runDecoder (nm : String) (data : List Nat) : Except PyErr (PVal × Nat) :=
  if nm = "user_empty_struct" then user_empty_struct [] data 0
  else if nm = "user_struct" then user_struct [] data 0
  else if nm = "peer_user_struct" then peer_user_struct [] data 0
  else if nm = "message_service_layer48_struct" then
    message_service_layer48_struct [] data 0
  else if nm = "message_layer68_struct" then message_layer68_struct [] data 0
  else if nm = "message_action_empty_struct" then
    message_action_empty_struct [] data 0
  else .error (.unmodeled nm)

/-- `tblob.parse_blob(data)` (tblob.py lines 117–153), as a function of the
instance's `self._callbacks` dict (`cbs`); the production entry point is
`parse_blob callbacks`.  The local variable
`signature = int.from_bytes(data[:4], 'little')` is inlined.  The result is
either an uncaught Python exception (`Except.error`) or the returned `pblob`
(`none` when no record was produced) together with the log messages emitted,
in order:
  * lookup failure → log `unknown signature`, return `None`;
  * a 2-tuple entry → `blob_parser, name, beautify = …` raises `ValueError`;
  * a 3-tuple entry with no decoder → log `not supported`, return `None`;
  * otherwise run the decoder (its exceptions propagate), warn when the
    record's `UNPARSED` field is non-empty, and log an error when the final
    stream offset differs from `len(data)`; the record is returned in both
    cases.  (`beautify` is `None` in every entry, so the `if beautify:`
    branch never runs.) -/
def parse_blob (cbs : List (Nat × CbT)) (data : List Nat) :
    Except PyErr (Option PVal × List LogMsg) :=
  match dictLookup cbs (leVal (data.take 4)) with
  | none => .ok (none, [.errUnknownSignature (leVal (data.take 4))])
  | some (.pair _ _) => .error .valueErrorUnpack
  | some (.triple none name) =>
      .ok (none, [.warnNotSupported name (leVal (data.take 4))])
  | some (.triple (some dn) name) =>
    match runDecoder dn data with
    | .error e => .error e
    | .ok (pblob, tell) =>
      let logs1 :=
        match pblob with
        | .cont fields =>
          match ctxGet fields "UNPARSED" with
          | some (.bytes u) =>
            if u.length ≠ 0 then
              [LogMsg.warnUnparsed name (leVal (data.take 4)) u.length]
            else []
          | _ => []
        | _ => []
      let logs2 :=
        if data.length ≠ tell then
          [LogMsg.errLengthMismatch name (leVal (data.take 4))
            data.length tell]
        else []
      .ok (some pblob, logs1 ++ logs2)

/-! ### Lemmas about the dict model -/

theorem dictLookup_nil (k : Nat) : dictLookup [] k = none := rfl

theorem dictLookup_cons (p : Nat × CbT) (t : List (Nat × CbT)) (k : Nat) :
    dictLookup (p :: t) k =
      (dictLookup t k).or (if k = p.1 then some p.2 else none) := by
  unfold dictLookup
  rw [show (p :: t) = [p] ++ t from rfl, List.reverse_append, List.find?_append]
  cases h : t.reverse.find? (fun q => decide (q.1 = k)) with
  | none =>
      simp only [Option.map_none, Option.none_or, List.reverse_cons,
        List.reverse_nil, List.nil_append, List.find?_cons, List.find?_nil]
      by_cases hk : p.1 = k
      · simp [hk]
      · simp [hk, Ne.symm hk]
  | some q =>
      simp [h]

theorem dictLookup_insert (d : List (Nat × CbT)) (k : Nat) (v : CbT) (k' : Nat) :
    dictLookup (dictInsert d k v) k' =
      if k' = k then some v else dictLookup d k' := by
  unfold dictInsert
  by_cases hany : d.any (fun p => decide (p.1 = k)) = true
  · rw [if_pos hany]
    unfold dictLookup
    rw [← List.map_reverse, List.find?_map]
    have hpred : ((fun q : Nat × CbT => decide (q.1 = k')) ∘
        fun p : Nat × CbT => if p.1 = k then (k, v) else p)
          = fun p : Nat × CbT => decide (p.1 = k') := by
      funext p
      by_cases hp : p.1 = k <;> simp [hp]
    rw [hpred]
    by_cases hk : k' = k
    · subst hk
      have hany' : d.reverse.any (fun p => decide (p.1 = k')) = true := by
        simpa using hany
      rcases List.any_eq_true.mp hany' with ⟨p0, hp0mem, hp0⟩
      have hsome : (d.reverse.find? (fun p => decide (p.1 = k'))).isSome := by
        rw [List.find?_isSome]
        exact ⟨p0, hp0mem, hp0⟩
      rcases Option.isSome_iff_exists.mp hsome with ⟨q, hq⟩
      have hq1 : q.1 = k' := by simpa using List.find?_some hq
      simp [hq, hq1]
    · rw [if_neg hk]
      cases hfind : d.reverse.find? (fun p => decide (p.1 = k')) with
      | none => simp
      | some q =>
          have hq1 : q.1 = k' := by simpa using List.find?_some hfind
          have hqne : ¬ q.1 = k := fun h => hk (hq1 ▸ h ▸ rfl)
          simp [hqne]
  · rw [if_neg hany]
    unfold dictLookup
    rw [List.reverse_append]
    simp only [List.reverse_cons, List.reverse_nil, List.nil_append,
      List.singleton_append]
    by_cases hk : k' = k
    · subst hk
      rw [List.find?_cons_of_pos _ (by simp)]
      simp
    · rw [List.find?_cons_of_neg _ (by simp [Ne.symm hk]), if_neg hk]

theorem dictLookup_foldl (t : List (Nat × CbT)) (acc : List (Nat × CbT)) (k : Nat) :
    dictLookup (t.foldl (fun a p => dictInsert a p.1 p.2) acc) k =
      (dictLookup t k).or (dictLookup acc k) := by
  induction t generalizing acc with
  | nil => simp [dictLookup_nil]
  | cons p t ih =>
      rw [List.foldl_cons, ih, dictLookup_cons, dictLookup_insert]
      cases h : dictLookup t k with
      | some v => simp
      | none =>
          by_cases hk : k = p.1 <;> simp [hk]

/-- The registry built by `tblob.__init__` answers every lookup exactly as
the class-level `tdss_callbacks` table does. -/
theorem callbacks_lookup (k : Nat) :
    dictLookup callbacks k = dictLookup tdss_callbacks k := by
  have h := dictLookup_foldl tdss_callbacks [] k
  simpa [callbacks, build_callbacks, dictLookup_nil] using h

/-- Lookup distributes over list concatenation (later bindings win). -/
theorem dictLookup_append (l1 l2 : List (Nat × CbT)) (k : Nat) :
    dictLookup (l1 ++ l2) k = (dictLookup l2 k).or (dictLookup l1 k) := by
  unfold dictLookup
  rw [List.reverse_append, List.find?_append]
  cases h2 : l2.reverse.find? (fun p => decide (p.1 = k)) with
  | some q => simp [h2]
  | none => simp [h2]

/-- Definitional unfolding of `parse_blob`, as a rewriting equation. -/
theorem parse_blob_eq (cbs : List (Nat × CbT)) (data : List Nat) :
    parse_blob cbs data =
      match dictLookup cbs (leVal (data.take 4)) with
      | none => .ok (none, [.errUnknownSignature (leVal (data.take 4))])
      | some (.pair _ _) => .error .valueErrorUnpack
      | some (.triple none name) =>
          .ok (none, [.warnNotSupported name (leVal (data.take 4))])
      | some (.triple (some dn) name) =>
        match runDecoder dn data with
        | .error e => .error e
        | .ok (pblob, tell) =>
          let logs1 :=
            match pblob with
            | .cont fields =>
              match ctxGet fields "UNPARSED" with
              | some (.bytes u) =>
                if u.length ≠ 0 then
                  [LogMsg.warnUnparsed name (leVal (data.take 4)) u.length]
                else []
              | _ => []
            | _ => []
          let logs2 :=
            if data.length ≠ tell then
              [LogMsg.errLengthMismatch name (leVal (data.take 4))
                data.length tell]
            else []
          .ok (some pblob, logs1 ++ logs2) := rfl

/-! ### Inversion lemmas for the parser combinators -/

theorem except_bind_ok {α β : Type} {x : Except PyErr α} {f : α → Except PyErr β}
    {r : β} (h : x.bind f = .ok r) : ∃ a, x = .ok a ∧ f a = .ok r := by
  cases x with
  | error e => exact absurd h (by simp [Except.bind])
  | ok a => exact ⟨a, rfl, by simpa [Except.bind] using h⟩

theorem runFields_some_ok {n : String} {s : Sub} {rest : List (Option String × Sub)}
    {ctx : Ctx} {data : List Nat} {off : Nat} {out : Ctx × Nat}
    (h : runFields ((some n, s) :: rest) ctx data off = .ok out) :
    ∃ v off', s ctx data off = .ok (v, off') ∧
      runFields rest (ctx ++ [(n, v)]) data off' = .ok out := by
  rw [runFields] at h
  obtain ⟨⟨v, off'⟩, h1, h2⟩ := except_bind_ok h
  exact ⟨v, off', h1, h2⟩

theorem runFields_none_ok {s : Sub} {rest : List (Option String × Sub)}
    {ctx : Ctx} {data : List Nat} {off : Nat} {out : Ctx × Nat}
    (h : runFields ((none, s) :: rest) ctx data off = .ok out) :
    ∃ v off', s ctx data off = .ok (v, off') ∧
      runFields rest ctx data off' = .ok out := by
  rw [runFields] at h
  obtain ⟨⟨v, off'⟩, h1, h2⟩ := except_bind_ok h
  exact ⟨v, off', h1, h2⟩

theorem runFields_nil_ok {ctx : Ctx} {data : List Nat} {off : Nat} {out : Ctx × Nat}
    (h : runFields [] ctx data off = .ok out) : out = (ctx, off) := by
  rw [runFields] at h
  exact (Except.ok.inj h).symm

/-- A successful `runFields` only appends to the incoming container. -/
theorem runFields_suffix {fs : List (Option String × Sub)} {ctx : Ctx}
    {data : List Nat} {off : Nat} {out : Ctx × Nat}
    (h : runFields fs ctx data off = .ok out) : ∃ suf, out.1 = ctx ++ suf := by
  induction fs generalizing ctx off with
  | nil => exact ⟨[], by rw [runFields_nil_ok h, List.append_nil]⟩
  | cons p rest ih =>
      obtain ⟨n?, s⟩ := p
      cases n? with
      | some n =>
          obtain ⟨v, off', _, h2⟩ := runFields_some_ok h
          obtain ⟨suf, hsuf⟩ := ih h2
          exact ⟨(n, v) :: suf, by simpa using hsuf⟩
      | none =>
          obtain ⟨v, off', _, h2⟩ := runFields_none_ok h
          exact ih h2

theorem ok_pair_inj {a v : PVal} {b o : Nat}
    (h : (Except.ok (a, b) : Except PyErr (PVal × Nat)) = .ok (v, o)) :
    v = a ∧ o = b := by
  cases h
  exact ⟨rfl, rfl⟩

theorem ok_pair_inj' {a v : PVal} {b o : Nat}
    (h : (Except.ok (a, b) : Except PyErr (PVal × Nat)) = .ok (v, o)) :
    a = v ∧ b = o := by
  cases h
  exact ⟨rfl, rfl⟩

theorem structP_ok {fs : List (Option String × Sub)} {ctx : Ctx}
    {data : List Nat} {off : Nat} {v : PVal} {off' : Nat}
    (h : structP fs ctx data off = .ok (v, off')) :
    ∃ c, runFields fs [] data off = .ok (c, off') ∧ v = .cont c := by
  unfold structP at h
  obtain ⟨⟨c, o⟩, h1, h2⟩ := except_bind_ok h
  obtain ⟨hv, ho⟩ := ok_pair_inj h2
  exact ⟨c, ho ▸ h1, hv⟩

theorem intXul_ok {n : Nat} {ctx : Ctx} {data : List Nat} {off : Nat}
    {v : PVal} {off' : Nat} (h : intXul n ctx data off = .ok (v, off')) :
    v = .int (leVal ((data.drop off).take n)) ∧ off' = off + n ∧
      off + n ≤ data.length := by
  unfold intXul at h
  split at h
  · obtain ⟨h1, h2⟩ := ok_pair_inj h
    exact ⟨h1, h2, by assumption⟩
  · exact absurd h (by simp)

theorem constP_ok {e : Nat} {ctx : Ctx} {data : List Nat} {off : Nat}
    {v : PVal} {off' : Nat} (h : constP e ctx data off = .ok (v, off')) :
    v = .int e ∧ off' = off + 4 ∧ off + 4 ≤ data.length ∧
      leVal ((data.drop off).take 4) = e := by
  unfold constP at h
  obtain ⟨⟨w, o⟩, h1, h2⟩ := except_bind_ok h
  obtain ⟨hw, ho, hle⟩ := intXul_ok h1
  subst hw
  subst ho
  simp only at h2
  split at h2
  · rename_i heq
    obtain ⟨hv, hoff⟩ := ok_pair_inj h2
    exact ⟨hv.trans (congrArg PVal.int heq), hoff, hle, heq⟩
  · exact absurd h2 (by simp)

theorem flagsEnum_ok {fl : List (String × Nat)} {ctx : Ctx} {data : List Nat}
    {off : Nat} {v : PVal} {off' : Nat}
    (h : flagsEnum fl ctx data off = .ok (v, off')) :
    v = .cont (fl.map (fun p =>
        (p.1, PVal.pybool (leVal ((data.drop off).take 4) &&& p.2 = p.2)))) ∧
      off' = off + 4 ∧ off + 4 ≤ data.length := by
  unfold flagsEnum at h
  obtain ⟨⟨w, o⟩, h1, h2⟩ := except_bind_ok h
  obtain ⟨hw, ho, hle⟩ := intXul_ok h1
  subst hw
  subst ho
  simp only at h2
  obtain ⟨hv, hoff⟩ := ok_pair_inj h2
  exact ⟨hv, hoff, hle⟩

theorem ifThenElseP_ok {cond : Ctx → Except PyErr Bool} {t e : Sub} {ctx : Ctx}
    {data : List Nat} {off : Nat} {v : PVal} {off' : Nat} {b : Bool}
    (hc : cond ctx = .ok b)
    (h : ifThenElseP cond t e ctx data off = .ok (v, off')) :
    (b = true → t ctx data off = .ok (v, off')) ∧
      (b = false → e ctx data off = .ok (v, off')) := by
  unfold ifThenElseP at h
  obtain ⟨b', h1, h2⟩ := except_bind_ok h
  rw [hc] at h1
  cases Except.ok.inj h1
  refine ⟨fun hb => ?_, fun hb => ?_⟩ <;> subst hb <;> simpa using h2

/-- Characterization of a flag-gated optional field `If(cond, sub)`: when
the bit is clear the stored value is Python `None` and nothing is consumed;
when it is set, the subconstruct's value (never `None` for the subconstructs
of the shapes embedded here) is stored. -/
theorem ifP_ok {cond : Ctx → Except PyErr Bool} {t : Sub} {ctx : Ctx}
    {data : List Nat} {off : Nat} {v : PVal} {off' : Nat} {b : Bool}
    (hc : cond ctx = .ok b)
    (h : ifP cond t ctx data off = .ok (v, off')) :
    (b = false → v = .pynone ∧ off' = off) ∧
      (b = true → t ctx data off = .ok (v, off')) := by
  obtain ⟨h1, h2⟩ := ifThenElseP_ok hc h
  refine ⟨fun hb => ?_, h1⟩
  have h3 := h2 hb
  unfold passP at h3
  obtain ⟨hv, hoff⟩ := ok_pair_inj h3
  exact ⟨hv, hoff⟩

theorem except_ok_bind {α β : Type} {a : α} {f : α → Except PyErr β} :
    (Except.ok a : Except PyErr α).bind f = f a := rfl

theorem bind_ok_reduce {α β : Type} (a : α) (f : α → Except PyErr β) :
    (Except.ok a : Except PyErr α) >>= f = f a := rfl

theorem map_ok_reduce {α β : Type} (f : α → β) (a : α) :
    Except.map f (Except.ok a : Except PyErr α) = .ok (f a) := rfl

theorem bind_error_reduce {α β : Type} (e : PyErr) (f : α → Except PyErr β) :
    (Except.error e : Except PyErr α) >>= f = .error e := rfl

/-- Full characterization of a successful `tstring_struct` parse: the length
prefix is the first byte `b` when `b < 254`, or the 4-byte little-endian word
shifted right by 8 when `b ≥ 254`, and the consumed length is
`1 + L + pad` resp. `4 + L + pad` with the source's padding rule. -/
theorem tstring_ok_inv {ctx : Ctx} {data : List Nat} {off : Nat} {v : PVal}
    {off' : Nat} (h : tstring_struct ctx data off = .ok (v, off')) :
    ∃ b, off + 1 ≤ data.length ∧ b = leVal ((data.drop off).take 1) ∧
    ((254 ≤ b ∧ ∃ pl L pay,
        pl = leVal ((data.drop off).take 4) ∧ L = pl >>> 8 ∧
        pay = (data.drop (off + 4)).take L ∧
        off + 4 + L ≤ data.length ∧ off' ≤ data.length ∧
        off' = off + 4 + L + ((4 - L % 4) % 4) ∧
        v = .cont [("_sname", .str (strCps "tstring")), ("_check", .int b),
                   ("_pl", .int pl), ("_len", .int L),
                   ("_value", .bytes pay), ("string", (decode_tstring pay).1)]) ∨
     (b < 254 ∧ ∃ pay,
        pay = (data.drop (off + 1)).take b ∧
        off + 1 + b ≤ data.length ∧ off' ≤ data.length ∧
        off' = off + 1 + b + ((4 - (b + 1) % 4) % 4) ∧
        v = .cont [("_sname", .str (strCps "tstring")), ("_check", .int b),
                   ("_pl", .int b), ("_len", .int b),
                   ("_value", .bytes pay), ("string", (decode_tstring pay).1)])) := by
  unfold tstring_struct at h
  obtain ⟨c, hr0, hv⟩ := structP_ok h
  obtain ⟨v1, o1, h1, hr1⟩ := runFields_some_ok hr0
  simp only [computedStr] at h1
  obtain ⟨hv1, ho1⟩ := ok_pair_inj' h1
  subst hv1
  subst ho1
  obtain ⟨v2, o2, h2, hr2⟩ := runFields_some_ok hr1
  unfold peek byteP intXul at h2
  by_cases hlen1 : off + 1 ≤ data.length
  case neg =>
    rw [if_neg hlen1] at h2
    obtain ⟨hv2, ho2⟩ := ok_pair_inj' h2
    subst hv2
    subst ho2
    obtain ⟨v3, o3, h3, hr3⟩ := runFields_some_ok hr2
    simp [ifThenElseP, checkGe254, ctxGet, bind_ok_reduce, bind_error_reduce] at h3
  case pos =>
    rw [if_pos hlen1] at h2
    obtain ⟨hv2, ho2⟩ := ok_pair_inj' h2
    subst hv2
    subst ho2
    set b := leVal ((data.drop off).take 1) with hbdef
    obtain ⟨v3, o3, h3, hr3⟩ := runFields_some_ok hr2
    simp only [ifThenElseP, checkGe254] at h3
    rw [show ctxGet ([] ++ [("_sname", PVal.str (strCps "tstring"))] ++
        [("_check", PVal.int b)]) "_check" = some (PVal.int b) from by
      simp [ctxGet]] at h3
    simp only [bind_ok_reduce] at h3
    by_cases hb : 254 ≤ b
    · -- long form
      refine ⟨b, hlen1, rfl, Or.inl ⟨hb, ?_⟩⟩
      rw [if_pos (by simp [hb])] at h3
      obtain ⟨hv3, ho3, hlen4⟩ := intXul_ok h3
      subst hv3
      subst ho3
      set pl := leVal ((data.drop off).take 4) with hpldef
      set L := pl >>> 8 with hLdef
      obtain ⟨v4, o4, h4, hr4⟩ := runFields_some_ok hr3
      simp only [ifThenElseP, checkGe254] at h4
      rw [show ctxGet ([] ++ [("_sname", PVal.str (strCps "tstring"))] ++
          [("_check", PVal.int b)] ++ [("_pl", PVal.int pl)]) "_check"
            = some (PVal.int b) from by simp [ctxGet]] at h4
      simp only [bind_ok_reduce] at h4
      rw [if_pos (by simp [hb])] at h4
      simp only [computedE, ctxInt] at h4
      rw [show ctxGet ([] ++ [("_sname", PVal.str (strCps "tstring"))] ++
          [("_check", PVal.int b)] ++ [("_pl", PVal.int pl)]) "_pl"
            = some (PVal.int pl) from by simp [ctxGet]] at h4
      simp only [map_ok_reduce, bind_ok_reduce] at h4
      obtain ⟨hv4, ho4⟩ := ok_pair_inj' h4
      subst hv4
      subst ho4
      obtain ⟨v5, o5, h5, hr5⟩ := runFields_some_ok hr4
      simp only [bytesE, ctxInt] at h5
      rw [show ctxGet ([] ++ [("_sname", PVal.str (strCps "tstring"))] ++
          [("_check", PVal.int b)] ++ [("_pl", PVal.int pl)] ++
          [("_len", PVal.int L)]) "_len" = some (PVal.int L) from by
        simp [ctxGet]] at h5
      simp only [bind_ok_reduce] at h5
      by_cases hlenL : off + 4 + L ≤ data.length
      case neg =>
        rw [if_neg hlenL] at h5
        exact absurd h5 (by simp)
      case pos =>
        rw [if_pos hlenL] at h5
        obtain ⟨hv5, ho5⟩ := ok_pair_inj' h5
        subst hv5
        subst ho5
        set pay := (data.drop (off + 4)).take L with hpaydef
        obtain ⟨v6, o6, h6, hr6⟩ := runFields_some_ok hr5
        simp only [stringOfValue] at h6
        rw [show ctxGet ([] ++ [("_sname", PVal.str (strCps "tstring"))] ++
            [("_check", PVal.int b)] ++ [("_pl", PVal.int pl)] ++
            [("_len", PVal.int L)] ++ [("_value", PVal.bytes pay)]) "_value"
              = some (PVal.bytes pay) from by simp [ctxGet]] at h6
        obtain ⟨hv6, ho6⟩ := ok_pair_inj' h6
        subst hv6
        subst ho6
        obtain ⟨v7, o7, h7, hr7⟩ := runFields_none_ok hr6
        simp only [tpadding, ifThenElseP, checkGe254] at h7
        rw [show ctxGet ([] ++ [("_sname", PVal.str (strCps "tstring"))] ++
            [("_check", PVal.int b)] ++ [("_pl", PVal.int pl)] ++
            [("_len", PVal.int L)] ++ [("_value", PVal.bytes pay)] ++
            [("string", (decode_tstring pay).1)]) "_check"
              = some (PVal.int b) from by simp [ctxGet]] at h7
        simp only [bind_ok_reduce] at h7
        rw [if_pos (show decide (254 ≤ b) = true by simp [hb])] at h7
        simp only [ifP, ifThenElseP, ctxInt, paddingE, passP] at h7
        rw [show ctxGet ([] ++ [("_sname", PVal.str (strCps "tstring"))] ++
            [("_check", PVal.int b)] ++ [("_pl", PVal.int pl)] ++
            [("_len", PVal.int L)] ++ [("_value", PVal.bytes pay)] ++
            [("string", (decode_tstring pay).1)]) "_len"
              = some (PVal.int L) from by simp [ctxGet]] at h7
        simp only [map_ok_reduce, bind_ok_reduce] at h7
        have hfin := runFields_nil_ok hr7
        rw [Prod.mk.injEq] at hfin
        obtain ⟨hc', hoff'⟩ := hfin
        subst hc'
        subst hoff'
        subst hv
        by_cases hm : L % 4 = 0
        case pos =>
          rw [if_neg (by simp [hm])] at h7
          obtain ⟨hv7, ho7⟩ := ok_pair_inj' h7
          subst ho7
          exact ⟨pl, L, pay, rfl, rfl, rfl, hlenL, hlenL, by omega, by simp⟩
        case neg =>
          rw [if_pos (by simp [hm])] at h7
          split at h7
          · obtain ⟨hv7, ho7⟩ := ok_pair_inj' h7
            subst ho7
            have h4lt : L % 4 < 4 := Nat.mod_lt _ (by norm_num)
            refine ⟨pl, L, pay, rfl, rfl, rfl, hlenL, by omega, by omega,
              by simp⟩
          · exact absurd h7 (by simp)
    · -- short form
      have hblt : b < 254 := Nat.lt_of_not_le hb
      refine ⟨b, hlen1, rfl, Or.inr ⟨hblt, ?_⟩⟩
      rw [if_neg (show ¬ decide (254 ≤ b) = true by simp [hb])] at h3
      unfold byteP intXul at h3
      rw [if_pos hlen1] at h3
      obtain ⟨hv3, ho3⟩ := ok_pair_inj' h3
      subst hv3
      subst ho3
      obtain ⟨v4, o4, h4, hr4⟩ := runFields_some_ok hr3
      simp only [ifThenElseP, checkGe254] at h4
      rw [show ctxGet ([] ++ [("_sname", PVal.str (strCps "tstring"))] ++
          [("_check", PVal.int b)] ++ [("_pl", PVal.int b)]) "_check"
            = some (PVal.int b) from by simp [ctxGet]] at h4
      simp only [bind_ok_reduce] at h4
      rw [if_neg (by simp [hb])] at h4
      simp only [computedE, ctxInt] at h4
      rw [show ctxGet ([] ++ [("_sname", PVal.str (strCps "tstring"))] ++
          [("_check", PVal.int b)] ++ [("_pl", PVal.int b)]) "_pl"
            = some (PVal.int b) from by simp [ctxGet]] at h4
      simp only [bind_ok_reduce] at h4
      obtain ⟨hv4, ho4⟩ := ok_pair_inj' h4
      subst hv4
      subst ho4
      obtain ⟨v5, o5, h5, hr5⟩ := runFields_some_ok hr4
      simp only [bytesE, ctxInt] at h5
      rw [show ctxGet ([] ++ [("_sname", PVal.str (strCps "tstring"))] ++
          [("_check", PVal.int b)] ++ [("_pl", PVal.int b)] ++
          [("_len", PVal.int b)]) "_len" = some (PVal.int b) from by
        simp [ctxGet]] at h5
      simp only [bind_ok_reduce] at h5
      by_cases hlenL : off + 1 + b ≤ data.length
      case neg =>
        rw [if_neg hlenL] at h5
        exact absurd h5 (by simp)
      case pos =>
        rw [if_pos hlenL] at h5
        obtain ⟨hv5, ho5⟩ := ok_pair_inj' h5
        subst hv5
        subst ho5
        set pay := (data.drop (off + 1)).take b with hpaydef
        obtain ⟨v6, o6, h6, hr6⟩ := runFields_some_ok hr5
        simp only [stringOfValue] at h6
        rw [show ctxGet ([] ++ [("_sname", PVal.str (strCps "tstring"))] ++
            [("_check", PVal.int b)] ++ [("_pl", PVal.int b)] ++
            [("_len", PVal.int b)] ++ [("_value", PVal.bytes pay)]) "_value"
              = some (PVal.bytes pay) from by simp [ctxGet]] at h6
        obtain ⟨hv6, ho6⟩ := ok_pair_inj' h6
        subst hv6
        subst ho6
        obtain ⟨v7, o7, h7, hr7⟩ := runFields_none_ok hr6
        simp only [tpadding, ifThenElseP, checkGe254] at h7
        rw [show ctxGet ([] ++ [("_sname", PVal.str (strCps "tstring"))] ++
            [("_check", PVal.int b)] ++ [("_pl", PVal.int b)] ++
            [("_len", PVal.int b)] ++ [("_value", PVal.bytes pay)] ++
            [("string", (decode_tstring pay).1)]) "_check"
              = some (PVal.int b) from by simp [ctxGet]] at h7
        simp only [bind_ok_reduce] at h7
        rw [if_neg (by simp [hb])] at h7
        simp only [ifP, ifThenElseP, ctxInt, paddingE, passP] at h7
        rw [show ctxGet ([] ++ [("_sname", PVal.str (strCps "tstring"))] ++
            [("_check", PVal.int b)] ++ [("_pl", PVal.int b)] ++
            [("_len", PVal.int b)] ++ [("_value", PVal.bytes pay)] ++
            [("string", (decode_tstring pay).1)]) "_len"
              = some (PVal.int b) from by simp [ctxGet]] at h7
        simp only [map_ok_reduce, bind_ok_reduce] at h7
        have hfin := runFields_nil_ok hr7
        rw [Prod.mk.injEq] at hfin
        obtain ⟨hc', hoff'⟩ := hfin
        subst hc'
        subst hoff'
        subst hv
        by_cases hm : (b + 1) % 4 = 0
        case pos =>
          rw [if_neg (by simp [hm])] at h7
          obtain ⟨hv7, ho7⟩ := ok_pair_inj' h7
          subst ho7
          exact ⟨pay, rfl, hlenL, hlenL, by omega, by simp⟩
        case neg =>
          rw [if_pos (by simp [hm])] at h7
          split at h7
          · obtain ⟨hv7, ho7⟩ := ok_pair_inj' h7
            subst ho7
            have h4lt : (b + 1) % 4 < 4 := Nat.mod_lt _ (by norm_num)
            refine ⟨pay, rfl, hlenL, by omega, by omega, by simp⟩
          · exact absurd h7 (by simp)

/-- Full characterization of a successful `tbytes_struct` parse, mirroring
`tstring_ok_inv` (the count field is public (`len`), the payload is kept as
raw bytes, and there is no UTF-8 decoding step). -/
theorem tbytes_ok_inv {ctx : Ctx} {data : List Nat} {off : Nat} {v : PVal}
    {off' : Nat} (h : tbytes_struct ctx data off = .ok (v, off')) :
    ∃ b, off + 1 ≤ data.length ∧ b = leVal ((data.drop off).take 1) ∧
    ((254 ≤ b ∧ ∃ pl L pay,
        pl = leVal ((data.drop off).take 4) ∧ L = pl >>> 8 ∧
        pay = (data.drop (off + 4)).take L ∧
        off + 4 + L ≤ data.length ∧ off' ≤ data.length ∧
        off' = off + 4 + L + ((4 - L % 4) % 4) ∧
        v = .cont [("_sname", .str (strCps "tbytes")), ("_check", .int b),
                   ("_pl", .int pl), ("len", .int L),
                   ("bytes", .bytes pay)]) ∨
     (b < 254 ∧ ∃ pay,
        pay = (data.drop (off + 1)).take b ∧
        off + 1 + b ≤ data.length ∧ off' ≤ data.length ∧
        off' = off + 1 + b + ((4 - (b + 1) % 4) % 4) ∧
        v = .cont [("_sname", .str (strCps "tbytes")), ("_check", .int b),
                   ("_pl", .int b), ("len", .int b),
                   ("bytes", .bytes pay)])) := by
  unfold tbytes_struct at h
  obtain ⟨c, hr0, hv⟩ := structP_ok h
  obtain ⟨v1, o1, h1, hr1⟩ := runFields_some_ok hr0
  simp only [computedStr] at h1
  obtain ⟨hv1, ho1⟩ := ok_pair_inj' h1
  subst hv1
  subst ho1
  obtain ⟨v2, o2, h2, hr2⟩ := runFields_some_ok hr1
  unfold peek byteP intXul at h2
  by_cases hlen1 : off + 1 ≤ data.length
  case neg =>
    rw [if_neg hlen1] at h2
    obtain ⟨hv2, ho2⟩ := ok_pair_inj' h2
    subst hv2
    subst ho2
    obtain ⟨v3, o3, h3, hr3⟩ := runFields_some_ok hr2
    simp [ifThenElseP, checkGe254, ctxGet, bind_ok_reduce, bind_error_reduce] at h3
  case pos =>
    rw [if_pos hlen1] at h2
    obtain ⟨hv2, ho2⟩ := ok_pair_inj' h2
    subst hv2
    subst ho2
    set b := leVal ((data.drop off).take 1) with hbdef
    obtain ⟨v3, o3, h3, hr3⟩ := runFields_some_ok hr2
    simp only [ifThenElseP, checkGe254] at h3
    rw [show ctxGet ([] ++ [("_sname", PVal.str (strCps "tbytes"))] ++
        [("_check", PVal.int b)]) "_check" = some (PVal.int b) from by
      simp [ctxGet]] at h3
    simp only [bind_ok_reduce] at h3
    by_cases hb : 254 ≤ b
    · -- long form
      refine ⟨b, hlen1, rfl, Or.inl ⟨hb, ?_⟩⟩
      rw [if_pos (show decide (254 ≤ b) = true by simp [hb])] at h3
      obtain ⟨hv3, ho3, hlen4⟩ := intXul_ok h3
      subst hv3
      subst ho3
      set pl := leVal ((data.drop off).take 4) with hpldef
      set L := pl >>> 8 with hLdef
      obtain ⟨v4, o4, h4, hr4⟩ := runFields_some_ok hr3
      simp only [ifThenElseP, checkGe254] at h4
      rw [show ctxGet ([] ++ [("_sname", PVal.str (strCps "tbytes"))] ++
          [("_check", PVal.int b)] ++ [("_pl", PVal.int pl)]) "_check"
            = some (PVal.int b) from by simp [ctxGet]] at h4
      simp only [bind_ok_reduce] at h4
      rw [if_pos (show decide (254 ≤ b) = true by simp [hb])] at h4
      simp only [computedE, ctxInt] at h4
      rw [show ctxGet ([] ++ [("_sname", PVal.str (strCps "tbytes"))] ++
          [("_check", PVal.int b)] ++ [("_pl", PVal.int pl)]) "_pl"
            = some (PVal.int pl) from by simp [ctxGet]] at h4
      simp only [map_ok_reduce, bind_ok_reduce] at h4
      obtain ⟨hv4, ho4⟩ := ok_pair_inj' h4
      subst hv4
      subst ho4
      obtain ⟨v5, o5, h5, hr5⟩ := runFields_some_ok hr4
      simp only [bytesE, ctxInt] at h5
      rw [show ctxGet ([] ++ [("_sname", PVal.str (strCps "tbytes"))] ++
          [("_check", PVal.int b)] ++ [("_pl", PVal.int pl)] ++
          [("len", PVal.int L)]) "len" = some (PVal.int L) from by
        simp [ctxGet]] at h5
      simp only [bind_ok_reduce] at h5
      by_cases hlenL : off + 4 + L ≤ data.length
      case neg =>
        rw [if_neg hlenL] at h5
        exact absurd h5 (by simp)
      case pos =>
        rw [if_pos hlenL] at h5
        obtain ⟨hv5, ho5⟩ := ok_pair_inj' h5
        subst hv5
        subst ho5
        set pay := (data.drop (off + 4)).take L with hpaydef
        obtain ⟨v6, o6, h6, hr6⟩ := runFields_none_ok hr5
        simp only [tpadding, ifThenElseP, checkGe254] at h6
        rw [show ctxGet ([] ++ [("_sname", PVal.str (strCps "tbytes"))] ++
            [("_check", PVal.int b)] ++ [("_pl", PVal.int pl)] ++
            [("len", PVal.int L)] ++ [("bytes", PVal.bytes pay)]) "_check"
              = some (PVal.int b) from by simp [ctxGet]] at h6
        simp only [bind_ok_reduce] at h6
        rw [if_pos (show decide (254 ≤ b) = true by simp [hb])] at h6
        simp only [ifP, ifThenElseP, ctxInt, paddingE, passP] at h6
        rw [show ctxGet ([] ++ [("_sname", PVal.str (strCps "tbytes"))] ++
            [("_check", PVal.int b)] ++ [("_pl", PVal.int pl)] ++
            [("len", PVal.int L)] ++ [("bytes", PVal.bytes pay)]) "len"
              = some (PVal.int L) from by simp [ctxGet]] at h6
        simp only [map_ok_reduce, bind_ok_reduce] at h6
        have hfin := runFields_nil_ok hr6
        rw [Prod.mk.injEq] at hfin
        obtain ⟨hc', hoff'⟩ := hfin
        subst hc'
        subst hoff'
        subst hv
        by_cases hm : L % 4 = 0
        case pos =>
          rw [if_neg (by simp [hm])] at h6
          obtain ⟨hv6, ho6⟩ := ok_pair_inj' h6
          subst ho6
          exact ⟨pl, L, pay, rfl, rfl, rfl, hlenL, hlenL, by omega, by simp⟩
        case neg =>
          rw [if_pos (by simp [hm])] at h6
          split at h6
          · obtain ⟨hv6, ho6⟩ := ok_pair_inj' h6
            subst ho6
            have h4lt : L % 4 < 4 := Nat.mod_lt _ (by norm_num)
            refine ⟨pl, L, pay, rfl, rfl, rfl, hlenL, by omega, by omega,
              by simp⟩
          · exact absurd h6 (by simp)
    · -- short form
      have hblt : b < 254 := Nat.lt_of_not_le hb
      refine ⟨b, hlen1, rfl, Or.inr ⟨hblt, ?_⟩⟩
      rw [if_neg (show ¬ decide (254 ≤ b) = true by simp [hb])] at h3
      unfold byteP intXul at h3
      rw [if_pos hlen1] at h3
      obtain ⟨hv3, ho3⟩ := ok_pair_inj' h3
      subst hv3
      subst ho3
      obtain ⟨v4, o4, h4, hr4⟩ := runFields_some_ok hr3
      simp only [ifThenElseP, checkGe254] at h4
      rw [show ctxGet ([] ++ [("_sname", PVal.str (strCps "tbytes"))] ++
          [("_check", PVal.int b)] ++ [("_pl", PVal.int b)]) "_check"
            = some (PVal.int b) from by simp [ctxGet]] at h4
      simp only [bind_ok_reduce] at h4
      rw [if_neg (show ¬ decide (254 ≤ b) = true by simp [hb])] at h4
      simp only [computedE, ctxInt] at h4
      rw [show ctxGet ([] ++ [("_sname", PVal.str (strCps "tbytes"))] ++
          [("_check", PVal.int b)] ++ [("_pl", PVal.int b)]) "_pl"
            = some (PVal.int b) from by simp [ctxGet]] at h4
      simp only [map_ok_reduce, bind_ok_reduce] at h4
      obtain ⟨hv4, ho4⟩ := ok_pair_inj' h4
      subst hv4
      subst ho4
      obtain ⟨v5, o5, h5, hr5⟩ := runFields_some_ok hr4
      simp only [bytesE, ctxInt] at h5
      rw [show ctxGet ([] ++ [("_sname", PVal.str (strCps "tbytes"))] ++
          [("_check", PVal.int b)] ++ [("_pl", PVal.int b)] ++
          [("len", PVal.int b)]) "len" = some (PVal.int b) from by
        simp [ctxGet]] at h5
      simp only [bind_ok_reduce] at h5
      by_cases hlenL : off + 1 + b ≤ data.length
      case neg =>
        rw [if_neg hlenL] at h5
        exact absurd h5 (by simp)
      case pos =>
        rw [if_pos hlenL] at h5
        obtain ⟨hv5, ho5⟩ := ok_pair_inj' h5
        subst hv5
        subst ho5
        set pay := (data.drop (off + 1)).take b with hpaydef
        obtain ⟨v6, o6, h6, hr6⟩ := runFields_none_ok hr5
        simp only [tpadding, ifThenElseP, checkGe254] at h6
        rw [show ctxGet ([] ++ [("_sname", PVal.str (strCps "tbytes"))] ++
            [("_check", PVal.int b)] ++ [("_pl", PVal.int b)] ++
            [("len", PVal.int b)] ++ [("bytes", PVal.bytes pay)]) "_check"
              = some (PVal.int b) from by simp [ctxGet]] at h6
        simp only [bind_ok_reduce] at h6
        rw [if_neg (show ¬ decide (254 ≤ b) = true by simp [hb])] at h6
        simp only [ifP, ifThenElseP, ctxInt, paddingE, passP] at h6
        rw [show ctxGet ([] ++ [("_sname", PVal.str (strCps "tbytes"))] ++
            [("_check", PVal.int b)] ++ [("_pl", PVal.int b)] ++
            [("len", PVal.int b)] ++ [("bytes", PVal.bytes pay)]) "len"
              = some (PVal.int b) from by simp [ctxGet]] at h6
        simp only [map_ok_reduce, bind_ok_reduce] at h6
        have hfin := runFields_nil_ok hr6
        rw [Prod.mk.injEq] at hfin
        obtain ⟨hc', hoff'⟩ := hfin
        subst hc'
        subst hoff'
        subst hv
        by_cases hm : (b + 1) % 4 = 0
        case pos =>
          rw [if_neg (by simp [hm])] at h6
          obtain ⟨hv6, ho6⟩ := ok_pair_inj' h6
          subst ho6
          exact ⟨pay, rfl, hlenL, hlenL, by omega, by simp⟩
        case neg =>
          rw [if_pos (by simp [hm])] at h6
          split at h6
          · obtain ⟨hv6, ho6⟩ := ok_pair_inj' h6
            subst ho6
            have h4lt : (b + 1) % 4 < 4 := Nat.mod_lt _ (by norm_num)
            refine ⟨pay, rfl, hlenL, by omega, by omega, by simp⟩
          · exact absurd h6 (by simp)

/-! ### Claim theorems -/

/-- A flag-gated optional field stores Python `None` exactly when its bit is
clear (given that the gated subconstruct itself never produces `None`). -/
theorem ifP_flag_char {cond : Ctx → Except PyErr Bool} {t : Sub} {ctx : Ctx}
    {data : List Nat} {off : Nat} {v : PVal} {off' : Nat} {b : Prop}
    [Decidable b] (hc : cond ctx = .ok (decide b))
    (hsub : ∀ w o, t ctx data off = .ok (w, o) → w ≠ PVal.pynone)
    (h : ifP cond t ctx data off = .ok (v, off')) :
    v = PVal.pynone ↔ ¬ b := by
  obtain ⟨hf, ht⟩ := ifP_ok hc h
  by_cases hb : b
  · have hok := ht (by simp [hb])
    have hne := hsub _ _ hok
    simp [hne, hb]
  · obtain ⟨hv, _⟩ := hf (by simp [hb])
    simp [hv, hb]

theorem intXul_ne_pynone {n : Nat} {ctx : Ctx} {data : List Nat} {off : Nat}
    {w : PVal} {o : Nat} (h : intXul n ctx data off = .ok (w, o)) :
    w ≠ PVal.pynone := by
  obtain ⟨hw, _, _⟩ := intXul_ok h
  simp [hw]

theorem structP_ne_pynone {fs : List (Option String × Sub)} {ctx : Ctx}
    {data : List Nat} {off : Nat} {w : PVal} {o : Nat}
    (h : structP fs ctx data off = .ok (w, o)) : w ≠ PVal.pynone := by
  obtain ⟨cc, _, hcc⟩ := structP_ok h
  simp [hcc]

/-- Evaluate `this.<flagsKey>.<flagName>` against a parsed `FlagsEnum`
container for flags word `n`, given where `flagName` sits in the flag list. -/
theorem flagIs_eval {flagsKey flagName : String} {fl : List (String × Nat)}
    {n bit : Nat} {ctx : Ctx}
    (hfl : ctxGet ctx flagsKey = some (PVal.cont (fl.map (fun p =>
      (p.1, PVal.pybool (n &&& p.2 = p.2))))))
    (hfind : fl.find? (fun p => p.1 = flagName) = some (flagName, bit)) :
    flagIs flagsKey flagName ctx = .ok (decide (n &&& bit = bit)) := by
  have hinner : ctxGet (fl.map (fun p =>
      (p.1, PVal.pybool (n &&& p.2 = p.2)))) flagName
        = some (PVal.pybool (n &&& bit = bit)) := by
    unfold ctxGet
    rw [List.find?_map]
    have hpred : ((fun p : String × PVal => decide (p.1 = flagName)) ∘
        (fun p : String × Nat => (p.1, PVal.pybool (n &&& p.2 = p.2))))
          = fun p : String × Nat => decide (p.1 = flagName) := rfl
    rw [hpred, hfind]
    rfl
  simp [flagIs, hfl, hinner]

theorem ifP_flagbit_char {flagsKey flagName : String} {fl : List (String × Nat)}
    {n bit : Nat} {t : Sub} {ctx : Ctx} {data : List Nat} {off : Nat}
    {v : PVal} {off' : Nat}
    (hfl : ctxGet ctx flagsKey = some (PVal.cont (fl.map (fun p =>
      (p.1, PVal.pybool (n &&& p.2 = p.2))))))
    (hfind : fl.find? (fun p => p.1 = flagName) = some (flagName, bit))
    (hsub : ∀ w o, t ctx data off = .ok (w, o) → w ≠ PVal.pynone)
    (h : ifP (flagIs flagsKey flagName) t ctx data off = .ok (v, off')) :
    v = PVal.pynone ↔ ¬ (n &&& bit = bit) :=
  ifP_flag_char (flagIs_eval hfl hfind) hsub h

/-- C1: for `tstring_struct` and `tbytes_struct`, when the first byte `L` is
below 254 the decoder consumes `1 + L + ((4 - (1+L) % 4) % 4)` bytes, and
when the first byte is at least 254 the payload length `L` is the 4-byte
little-endian word shifted right by 8 and the decoder consumes
`4 + L + ((4 - L % 4) % 4)` bytes; and the concrete tstring buffer with
length byte `0x05`, payload `hello` and two zero padding bytes decodes to
the string `"hello"` with exactly 8 bytes consumed. -/
theorem claim_C1_length_prefixed_consumption :
    (∀ (ctx : Ctx) (data : List Nat) (off : Nat) (v : PVal) (off' : Nat),
      tstring_struct ctx data off = .ok (v, off') →
      (leVal ((data.drop off).take 1) < 254 →
        off' = off + 1 + leVal ((data.drop off).take 1) +
          ((4 - (1 + leVal ((data.drop off).take 1)) % 4) % 4)) ∧
      (254 ≤ leVal ((data.drop off).take 1) →
        off' = off + 4 + (leVal ((data.drop off).take 4) >>> 8) +
          ((4 - (leVal ((data.drop off).take 4) >>> 8) % 4) % 4))) ∧
    (∀ (ctx : Ctx) (data : List Nat) (off : Nat) (v : PVal) (off' : Nat),
      tbytes_struct ctx data off = .ok (v, off') →
      (leVal ((data.drop off).take 1) < 254 →
        off' = off + 1 + leVal ((data.drop off).take 1) +
          ((4 - (1 + leVal ((data.drop off).take 1)) % 4) % 4)) ∧
      (254 ≤ leVal ((data.drop off).take 1) →
        off' = off + 4 + (leVal ((data.drop off).take 4) >>> 8) +
          ((4 - (leVal ((data.drop off).take 4) >>> 8) % 4) % 4))) ∧
    tstring_struct [] [5, 104, 101, 108, 108, 111, 0, 0] 0 =
      .ok (.cont [("_sname", .str (strCps "tstring")), ("_check", .int 5),
                  ("_pl", .int 5), ("_len", .int 5),
                  ("_value", .bytes (strCps "hello")),
                  ("string", .str (strCps "hello"))], 8) := by
  refine ⟨?_, ?_, by rfl⟩
  · intro ctx data off v off' h
    obtain ⟨b, hlen1, hbdef, hcase⟩ := tstring_ok_inv h
    subst hbdef
    rcases hcase with ⟨hb, pl, L, pay, hpl, hL, hpay, h1, h2, hoff, hvv⟩ |
      ⟨hb, pay, hpay, h1, h2, hoff, hvv⟩
    · exact ⟨fun hlt => absurd hb (by omega), fun _ => by omega⟩
    · exact ⟨fun _ => by omega, fun hge => absurd hge (by omega)⟩
  · intro ctx data off v off' h
    obtain ⟨b, hlen1, hbdef, hcase⟩ := tbytes_ok_inv h
    subst hbdef
    rcases hcase with ⟨hb, pl, L, pay, hpl, hL, hpay, h1, h2, hoff, hvv⟩ |
      ⟨hb, pay, hpay, h1, h2, hoff, hvv⟩
    · exact ⟨fun hlt => absurd hb (by omega), fun _ => by omega⟩
    · exact ⟨fun _ => by omega, fun hge => absurd hge (by omega)⟩

/-- Witness for C1: the short-form consumption law applied to the concrete
`"hello"` buffer (first byte 5, total 8 bytes), and the long-form law applied
to a concrete buffer with marker byte 254 and payload length 1 (4-byte length
field + 1 payload byte + 3 padding bytes = 8 bytes). -/
theorem claim_C1_length_prefixed_consumption_witness :
    (leVal ((([5, 104, 101, 108, 108, 111, 0, 0] : List Nat).drop 0).take 1) < 254 →
      8 = 0 + 1 + leVal ((([5, 104, 101, 108, 108, 111, 0, 0] : List Nat).drop 0).take 1) +
        ((4 - (1 + leVal ((([5, 104, 101, 108, 108, 111, 0, 0] : List Nat).drop 0).take 1)) % 4) % 4)) ∧
    (254 ≤ leVal ((([254, 1, 0, 0, 65, 0, 0, 0] : List Nat).drop 0).take 1) →
      8 = 0 + 4 + (leVal ((([254, 1, 0, 0, 65, 0, 0, 0] : List Nat).drop 0).take 4) >>> 8) +
        ((4 - (leVal ((([254, 1, 0, 0, 65, 0, 0, 0] : List Nat).drop 0).take 4) >>> 8) % 4) % 4)) :=
  ⟨(claim_C1_length_prefixed_consumption.1 [] [5, 104, 101, 108, 108, 111, 0, 0] 0
      (.cont [("_sname", .str (strCps "tstring")), ("_check", .int 5),
              ("_pl", .int 5), ("_len", .int 5),
              ("_value", .bytes (strCps "hello")),
              ("string", .str (strCps "hello"))]) 8 (by rfl)).1,
   (claim_C1_length_prefixed_consumption.2.1 [] [254, 1, 0, 0, 65, 0, 0, 0] 0
      (.cont [("_sname", .str (strCps "tbytes")), ("_check", .int 254),
              ("_pl", .int 510), ("len", .int 1),
              ("bytes", .bytes [65])]) 8 (by rfl)).2⟩

/-- C6: `decode_tstring` is total: on a payload that is valid UTF-8 it
returns the decoded text (and logs nothing), on invalid UTF-8 it reports the
failure and returns the raw byte sequence as the decoded value; a successful
`tstring_struct` parse always stores `decode_tstring` of the raw payload in
its `string` field, whatever the payload; and the concrete buffer with the
invalid-UTF-8 payload `[0xff, 0xfe]` still decodes without aborting, its
`string` field holding the raw bytes. -/
theorem claim_C6_invalid_utf8_fallback :
    (∀ (bs cps : List Nat), utf8Decode bs = some cps →
      decode_tstring bs = (.str cps, [])) ∧
    (∀ bs : List Nat, utf8Decode bs = none →
      decode_tstring bs = (.bytes bs, [.errUndecodableString bs])) ∧
    (∀ (ctx : Ctx) (data : List Nat) (off : Nat) (v : PVal) (off' : Nat),
      tstring_struct ctx data off = .ok (v, off') →
      ∃ c pay, v = .cont c ∧ ctxGet c "_value" = some (.bytes pay) ∧
        ctxGet c "string" = some ((decode_tstring pay).1)) ∧
    tstring_struct [] [2, 255, 254, 0] 0 =
      .ok (.cont [("_sname", .str (strCps "tstring")), ("_check", .int 2),
                  ("_pl", .int 2), ("_len", .int 2),
                  ("_value", .bytes [255, 254]),
                  ("string", .bytes [255, 254])], 4) := by
  refine ⟨?_, ?_, ?_, by rfl⟩
  · intro bs cps h
    simp [decode_tstring, h]
  · intro bs h
    simp [decode_tstring, h]
  · intro ctx data off v off' h
    obtain ⟨b, hlen1, hbdef, hcase⟩ := tstring_ok_inv h
    rcases hcase with ⟨hb, pl, L, pay, hpl, hL, hpay, h1, h2, hoff, hvv⟩ |
      ⟨hb, pay, hpay, h1, h2, hoff, hvv⟩
    · exact ⟨_, pay, hvv, by simp [ctxGet], by simp [ctxGet]⟩
    · exact ⟨_, pay, hvv, by simp [ctxGet], by simp [ctxGet]⟩

/-- Witness for C6: the valid-UTF-8 branch at payload `"hi"`, the invalid
branch at payload `[0xff]`, and the record-level fallback applied to the
concrete buffer whose payload `[0xff, 0xfe]` is not valid UTF-8. -/
theorem claim_C6_invalid_utf8_fallback_witness :
    decode_tstring [104, 105] = (.str [104, 105], []) ∧
    decode_tstring [255] = (.bytes [255], [.errUndecodableString [255]]) ∧
    ∃ c pay, (PVal.cont [("_sname", PVal.str (strCps "tstring")),
        ("_check", PVal.int 2), ("_pl", PVal.int 2), ("_len", PVal.int 2),
        ("_value", PVal.bytes [255, 254]),
        ("string", PVal.bytes [255, 254])]) = .cont c ∧
      ctxGet c "_value" = some (.bytes pay) ∧
      ctxGet c "string" = some ((decode_tstring pay).1) :=
  ⟨claim_C6_invalid_utf8_fallback.1 [104, 105] [104, 105] (by rfl),
   claim_C6_invalid_utf8_fallback.2.1 [255] (by rfl),
   claim_C6_invalid_utf8_fallback.2.2.1 [] [2, 255, 254, 0] 0 _ 4 (by rfl)⟩

set_option maxHeartbeats 1000000 in
/-- C4: in the flag-gated shape `user_struct`, for every value of the 32-bit
flags word (read at offset 4 after the 4-byte signature), each optional field
is present in the decoded container with Python `None` as its value exactly
when its corresponding flag bit is clear, and holds a non-`None` decoded
value exactly when the bit is set; fields are decoded strictly in declaration
order (the parser is a left-to-right fold over the declared field list), so
each later field's offset depends on which earlier optional fields were
present.  Accessing an absent field yields the defined value `None`, never an
error. -/
theorem claim_C4_user_struct_flag_gating :
    ∀ (ctx : Ctx) (data : List Nat) (off : Nat) (v : PVal) (off' : Nat),
      user_struct ctx data off = .ok (v, off') →
      ∃ c, v = .cont c ∧
        ∀ p : String × Nat, p ∈
            ([("access_hash", 1), ("first_name", 2), ("last_name", 4),
              ("username", 8), ("phone", 16), ("photo", 32), ("status", 64),
              ("bot_info_version", 16384), ("restrictions", 262144)] :
              List (String × Nat)) →
          ∃ w, ctxGet c p.1 = some w ∧
            (w = .pynone ↔
              ¬ (leVal ((data.drop (off + 4)).take 4) &&& p.2 = p.2)) := by
  intro ctx data off v off' h
  unfold user_struct at h
  obtain ⟨c, hr0, hv⟩ := structP_ok h
  obtain ⟨v1, o1, h1, hr1⟩ := runFields_some_ok hr0
  simp only [computedStr] at h1
  obtain ⟨hv1, ho1⟩ := ok_pair_inj' h1
  subst hv1
  subst ho1
  obtain ⟨v2, o2, h2, hr2⟩ := runFields_some_ok hr1
  obtain ⟨hv2, ho2, hle2, hsig⟩ := constP_ok h2
  subst hv2
  subst ho2
  obtain ⟨v3, o3, h3, hr3⟩ := runFields_some_ok hr2
  obtain ⟨hv3, ho3, hle3⟩ := flagsEnum_ok h3
  subst hv3
  subst ho3
  obtain ⟨v4, o4, h4, hr4⟩ := runFields_some_ok hr3
  obtain ⟨hv4, ho4, hle4⟩ := intXul_ok h4
  subst hv4
  subst ho4
  obtain ⟨v5, o5, h5, hr5⟩ := runFields_some_ok hr4
  have hch5 := ifP_flagbit_char (by rfl) (by rfl)
    (fun w o hw => intXul_ne_pynone hw) h5
  obtain ⟨v6, o6, h6, hr6⟩ := runFields_some_ok hr5
  have hch6 := ifP_flagbit_char (by rfl) (by rfl)
    (fun w o hw => structP_ne_pynone hw) h6
  obtain ⟨v7, o7, h7, hr7⟩ := runFields_some_ok hr6
  have hch7 := ifP_flagbit_char (by rfl) (by rfl)
    (fun w o hw => structP_ne_pynone hw) h7
  obtain ⟨v8, o8, h8, hr8⟩ := runFields_some_ok hr7
  have hch8 := ifP_flagbit_char (by rfl) (by rfl)
    (fun w o hw => structP_ne_pynone hw) h8
  obtain ⟨v9, o9, h9, hr9⟩ := runFields_some_ok hr8
  have hch9 := ifP_flagbit_char (by rfl) (by rfl)
    (fun w o hw => structP_ne_pynone hw) h9
  obtain ⟨v10, o10, h10, hr10⟩ := runFields_some_ok hr9
  have hch10 := ifP_flagbit_char (by rfl) (by rfl)
    (fun w o hw => structP_ne_pynone hw) h10
  obtain ⟨v11, o11, h11, hr11⟩ := runFields_some_ok hr10
  have hch11 := ifP_flagbit_char (by rfl) (by rfl)
    (fun w o hw => structP_ne_pynone hw) h11
  obtain ⟨v12, o12, h12, hr12⟩ := runFields_some_ok hr11
  have hch12 := ifP_flagbit_char (by rfl) (by rfl)
    (fun w o hw => intXul_ne_pynone hw) h12
  obtain ⟨v13, o13, h13, hr13⟩ := runFields_some_ok hr12
  have hch13 := ifP_flagbit_char (by rfl) (by rfl)
    (fun w o hw => structP_ne_pynone hw) h13
  have hfin := runFields_nil_ok hr13
  rw [Prod.mk.injEq] at hfin
  obtain ⟨hc', hoff'⟩ := hfin
  subst hc'
  subst hoff'
  subst hv
  refine ⟨_, rfl, ?_⟩
  intro p hp
  fin_cases hp
  · exact ⟨v5, rfl, hch5⟩
  · exact ⟨v6, rfl, hch6⟩
  · exact ⟨v7, rfl, hch7⟩
  · exact ⟨v8, rfl, hch8⟩
  · exact ⟨v9, rfl, hch9⟩
  · exact ⟨v10, rfl, hch10⟩
  · exact ⟨v11, rfl, hch11⟩
  · exact ⟨v12, rfl, hch12⟩
  · exact ⟨v13, rfl, hch13⟩

/-- Witness for C4: the flag-gating law applied to a concrete 12-byte
`user_struct` buffer with flags word 0 (every optional bit clear). -/
theorem claim_C4_user_struct_flag_gating_witness :
    ∃ v : PVal, user_struct []
        [0xc1, 0x58, 0x84, 0x93, 0, 0, 0, 0, 1, 0, 0, 0] 0 = .ok (v, 12) ∧
      ∃ c, v = .cont c ∧
        ∀ p : String × Nat, p ∈
            ([("access_hash", 1), ("first_name", 2), ("last_name", 4),
              ("username", 8), ("phone", 16), ("photo", 32), ("status", 64),
              ("bot_info_version", 16384), ("restrictions", 262144)] :
              List (String × Nat)) →
          ∃ w, ctxGet c p.1 = some w ∧
            (w = .pynone ↔
              ¬ (leVal ((([0xc1, 0x58, 0x84, 0x93, 0, 0, 0, 0, 1, 0, 0, 0] :
                  List Nat).drop (0 + 4)).take 4) &&& p.2 = p.2)) :=
  ⟨_, rfl, claim_C4_user_struct_flag_gating []
    [0xc1, 0x58, 0x84, 0x93, 0, 0, 0, 0, 1, 0, 0, 0] 0 _ 12 (by rfl)⟩

theorem ctxGet_append_left {c1 c2 : Ctx} {k : String} {w : PVal}
    (h : ctxGet c1 k = some w) : ctxGet (c1 ++ c2) k = some w := by
  unfold ctxGet at h ⊢
  rw [List.find?_append]
  cases hfq : c1.find? (fun p => decide (p.1 = k)) with
  | none => rw [hfq] at h; simp at h
  | some q =>
      rw [hfq] at h
      simp only [Option.map_some'] at h
      simp [h]

/-- Shared analysis for the two message shapes: on any successful parse the
`from_id_adjusted` field holds Python `None`.  When `from_id` is absent
(`None`), the condition `this.from_id == 0` is `False`; when `from_id` is a
nonzero integer it is also `False`; and when `from_id` equals 0 the inner
`IfThenElse` dereferences the missing `to_id.user_id` key and the whole parse
raises, so no record is produced at all. -/
theorem from_id_adjusted_pynone {flagsList : List (String × Nat)}
    {restFields : List (Option String × Sub)} {sname : String} {sig : Nat}
    {ctx : Ctx} {data : List Nat} {off : Nat} {v : PVal} {off' : Nat}
    (hfind : flagsList.find? (fun p => p.1 = "has_from_id")
      = some ("has_from_id", 256))
    (h : structP ([(some "sname", computedStr sname),
        (some "signature", constP sig),
        (some "flags", flagsEnum flagsList),
        (some "id", int32ul),
        (some "from_id", ifP (flagIs "flags" "has_from_id") int32ul),
        (some "to_id", peer_structures "to_id"),
        (some "from_id_adjusted", ifP fromIdIsZero fromIdAdjustedInner)] ++
        restFields) ctx data off = .ok (v, off')) :
    ∃ c, v = .cont c ∧ ctxGet c "from_id_adjusted" = some PVal.pynone := by
  obtain ⟨c, hr0, hv⟩ := structP_ok h
  rw [List.cons_append, List.cons_append, List.cons_append, List.cons_append,
    List.cons_append, List.cons_append, List.cons_append] at hr0
  obtain ⟨v1, o1, h1, hr1⟩ := runFields_some_ok hr0
  simp only [computedStr] at h1
  obtain ⟨hv1, ho1⟩ := ok_pair_inj' h1
  subst hv1
  subst ho1
  obtain ⟨v2, o2, h2, hr2⟩ := runFields_some_ok hr1
  obtain ⟨hv2, ho2, hle2, hsig⟩ := constP_ok h2
  subst hv2
  subst ho2
  obtain ⟨v3, o3, h3, hr3⟩ := runFields_some_ok hr2
  obtain ⟨hv3, ho3, hle3⟩ := flagsEnum_ok h3
  subst hv3
  subst ho3
  obtain ⟨v4, o4, h4, hr4⟩ := runFields_some_ok hr3
  obtain ⟨hv4, ho4, hle4⟩ := intXul_ok h4
  subst hv4
  subst ho4
  obtain ⟨v5, o5, h5, hr5⟩ := runFields_some_ok hr4
  have h5' : v5 = PVal.pynone ∨ ∃ k, v5 = PVal.int k := by
    obtain ⟨hf, ht⟩ := ifP_ok (flagIs_eval (by rfl) hfind) h5
    by_cases hbit : leVal ((data.drop (off + 4)).take 4) &&& 256 = 256
    · obtain ⟨hv5, _, _⟩ := intXul_ok (ht (by simp [hbit]))
      exact Or.inr ⟨_, hv5⟩
    · exact Or.inl (hf (by simp [hbit])).1
  obtain ⟨v6, o6, h6, hr6⟩ := runFields_some_ok hr5
  obtain ⟨w6, hw6run, hv6⟩ := structP_ok h6
  obtain ⟨va, oa, ha, hwr1⟩ := runFields_some_ok hw6run
  obtain ⟨vb, ob, hb, hwr2⟩ := runFields_some_ok hwr1
  have hw6fin := runFields_nil_ok hwr2
  rw [Prod.mk.injEq] at hw6fin
  obtain ⟨hw6', ho6'⟩ := hw6fin
  subst hw6'
  subst ho6'
  subst hv6
  obtain ⟨v7, o7, h7, hr7⟩ := runFields_some_ok hr6
  have hv7 : v7 = PVal.pynone := by
    rcases h5' with hnone | ⟨k, hint⟩
    · subst hnone
      obtain ⟨hf, _⟩ := ifP_ok (show fromIdIsZero _ = .ok false from by
        simp [fromIdIsZero, ctxGet]) h7
      exact (hf rfl).1
    · subst hint
      by_cases hk : k = 0
      · subst hk
        obtain ⟨_, ht⟩ := ifP_ok (show fromIdIsZero _ = .ok true from by
          simp [fromIdIsZero, ctxGet]) h7
        have hbad := ht rfl
        simp [fromIdAdjustedInner, ctxGet] at hbad
      · obtain ⟨hf, _⟩ := ifP_ok (show fromIdIsZero _ =
            .ok (decide (k = 0)) from by simp [fromIdIsZero, ctxGet]) h7
        exact (hf (by simp [hk])).1
  subst hv7
  obtain ⟨suf, hsuf⟩ := runFields_suffix hr7
  subst hv
  refine ⟨c, rfl, ?_⟩
  have hchg : c = _ ++ suf := hsuf
  rw [hchg]
  exact ctxGet_append_left (by rfl)

/-- C9 (amended): in `message_service_layer48_struct` and
`message_layer68_struct`, no `from_id_adjusted` value is ever derived on a
successfully decoded record: the field is always Python `None`.  The
condition `this.from_id == 0` is `False` both when `from_id` is absent
(Python `None == 0`) and when it is nonzero; when an explicit `from_id`
equal to 0 was decoded the inner `IfThenElse` dereferences the missing
`to_id.user_id` key (the value at `to_id` is the `peer_structures` wrapper)
and decoding fails, so no record carries a derived value. -/
theorem claim_C9_from_id_adjusted_amended :
    (∀ (ctx : Ctx) (data : List Nat) (off : Nat) (v : PVal) (off' : Nat),
      message_service_layer48_struct ctx data off = .ok (v, off') →
      ∃ c, v = .cont c ∧ ctxGet c "from_id_adjusted" = some PVal.pynone) ∧
    (∀ (ctx : Ctx) (data : List Nat) (off : Nat) (v : PVal) (off' : Nat),
      message_layer68_struct ctx data off = .ok (v, off') →
      ∃ c, v = .cont c ∧ ctxGet c "from_id_adjusted" = some PVal.pynone) := by
  constructor
  · intro ctx data off v off' h
    exact from_id_adjusted_pynone (by rfl) h
  · intro ctx data off v off' h
    exact from_id_adjusted_pynone (by rfl) h

/-- Witness for C9 (amended): the law applied to a concrete 28-byte
`message_service_layer48` buffer (flags 0, id 1, `to_id` a `peer_user` with
user id 7, epoch 0, `message_action_empty` action). -/
theorem claim_C9_from_id_adjusted_amended_witness :
    ∃ v : PVal, message_service_layer48_struct []
        [0x07, 0x96, 0x6b, 0xc0, 0, 0, 0, 0, 1, 0, 0, 0,
         0x6d, 0xbc, 0xb1, 0x9d, 7, 0, 0, 0, 0, 0, 0, 0,
         0xb0, 0xf7, 0xae, 0xb6] 0 = .ok (v, 28) ∧
      ∃ c, v = .cont c ∧ ctxGet c "from_id_adjusted" = some PVal.pynone :=
  ⟨_, rfl, claim_C9_from_id_adjusted_amended.1 []
    [0x07, 0x96, 0x6b, 0xc0, 0, 0, 0, 0, 1, 0, 0, 0,
     0x6d, 0xbc, 0xb1, 0x9d, 7, 0, 0, 0, 0, 0, 0, 0,
     0xb0, 0xf7, 0xae, 0xb6] 0 _ 28 (by rfl)⟩

/-- Counterexample to C9 as stated: a `message_service_layer48` buffer whose
wire carries no explicit `from_id` and whose peer is the user chat
`peer_user(user_id = 7)`.  The claim requires the decoded record to carry
`from_id_adjusted = 7` (the peer's user id); the decoder instead leaves
`from_id_adjusted` as Python `None` (the record below shows `from_id` absent,
`to_id.to_id.user_id = 7`, and `from_id_adjusted = None ≠ 7`). -/
theorem claim_C9_from_id_adjusted_counterexample :
    message_service_layer48_struct []
        [0x07, 0x96, 0x6b, 0xc0, 0, 0, 0, 0, 1, 0, 0, 0,
         0x6d, 0xbc, 0xb1, 0x9d, 7, 0, 0, 0, 0, 0, 0, 0,
         0xb0, 0xf7, 0xae, 0xb6] 0 =
      .ok (.cont [
        ("sname", .str (strCps "message_service_layer48")),
        ("signature", .int 0xc06b9607),
        ("flags", .cont [("unread", .pybool false), ("out", .pybool false),
          ("mentioned", .pybool false), ("media_unread", .pybool false),
          ("has_from_id", .pybool false), ("is_via_bot", .pybool false),
          ("post", .pybool false), ("silent", .pybool false),
          ("is_grouped_id", .pybool false)]),
        ("id", .int 1),
        ("from_id", .pynone),
        ("to_id", .cont [("_signature", .int 0x9db1bc6d),
          ("to_id", .cont [("sname", .str (strCps "peer_user")),
            ("signature", .int 0x9db1bc6d), ("user_id", .int 7)])]),
        ("from_id_adjusted", .pynone),
        ("date", .cont [("epoch", .int 0), ("date", .isodate 0)]),
        ("action", .cont [("_signature", .int 0xb6aef7b0),
          ("action", .cont [("sname", .str (strCps "message_action_empty")),
            ("signature", .int 0xb6aef7b0)])])], 28) ∧
    (PVal.pynone ≠ PVal.int 7) := by
  exact ⟨by rfl, by simp⟩

/-- C2 (amended): for every buffer whose leading 4-byte little-endian tag is
not a key of the registry, `parse_blob` returns no record and reports the
tag value; for every buffer whose tag maps to a 3-tuple registry entry with
no decoder, it returns no record and reports the canonical name and the tag;
and the concrete buffer starting with tag `0xdeadbeef` produces the fatal
unknown-signature failure with no record.  (The original claim, covering
every entry with no decoder, fails on the 194 registry entries that are
2-tuples — see the counterexample.) -/
theorem claim_C2_dispatch_failures :
    (∀ data : List Nat, dictLookup callbacks (leVal (data.take 4)) = none →
      parse_blob callbacks data =
        .ok (none, [.errUnknownSignature (leVal (data.take 4))])) ∧
    (∀ (data : List Nat) (name : String),
      dictLookup callbacks (leVal (data.take 4)) =
          some (.triple none name) →
      parse_blob callbacks data =
        .ok (none, [.warnNotSupported name (leVal (data.take 4))])) ∧
    parse_blob callbacks [0xef, 0xbe, 0xad, 0xde] =
      .ok (none, [.errUnknownSignature 0xdeadbeef]) := by
  refine ⟨?_, ?_, ?_⟩
  · intro data h
    rw [parse_blob_eq, h]
  · intro data name h
    rw [parse_blob_eq, h]
  · rw [parse_blob_eq, show dictLookup callbacks
        (leVal (([0xef, 0xbe, 0xad, 0xde] : List Nat).take 4)) = none from by
      rw [callbacks_lookup]
      simp only [tdss_callbacks, dictLookup_append]
      rfl]
    rfl

/-- Witness for C2: the unknown-tag law applied to the `0xdeadbeef` buffer
and the unimplemented-entry law applied to the vector tag `0x1cb5c415`,
whose entry is the decoder-less 3-tuple `(None, '_vector', None)`. -/
theorem claim_C2_dispatch_failures_witness :
    parse_blob callbacks [0xef, 0xbe, 0xad, 0xde] =
      .ok (none, [.errUnknownSignature
        (leVal (([0xef, 0xbe, 0xad, 0xde] : List Nat).take 4))]) ∧
    parse_blob callbacks [0x15, 0xc4, 0xb5, 0x1c] =
      .ok (none, [.warnNotSupported "_vector"
        (leVal (([0x15, 0xc4, 0xb5, 0x1c] : List Nat).take 4))]) :=
  ⟨claim_C2_dispatch_failures.1 [0xef, 0xbe, 0xad, 0xde]
    (by rw [callbacks_lookup]; simp only [tdss_callbacks, dictLookup_append]; rfl),
   claim_C2_dispatch_failures.2.1 [0x15, 0xc4, 0xb5, 0x1c] "_vector"
    (by rw [callbacks_lookup]; simp only [tdss_callbacks, dictLookup_append]; rfl)⟩

/-- Counterexample to C2 as stated: the registry entry for tag `0x65c55b40`
has no decoder (first tuple component `None`), yet `parse_blob` on a buffer
with that tag does not return a no-record result reporting the name — it
raises `ValueError`, because the entry is a 2-tuple and
`blob_parser, name, beautify = self.callbacks[signature]` unpacks three
components. -/
theorem claim_C2_dispatch_failures_counterexample :
    dictLookup callbacks 0x65c55b40 =
      some (CbT.pair none "account_unregister_device_v_0_1_317") ∧
    parse_blob callbacks [0x40, 0x5b, 0xc5, 0x65] =
      .error .valueErrorUnpack := by
  constructor
  · rw [callbacks_lookup]
    simp only [tdss_callbacks, dictLookup_append]
    rfl
  · rw [parse_blob_eq, show dictLookup callbacks
        (leVal (([0x40, 0x5b, 0xc5, 0x65] : List Nat).take 4)) =
          some (CbT.pair none "account_unregister_device_v_0_1_317") from by
      rw [callbacks_lookup]
      simp only [tdss_callbacks, dictLookup_append]
      rfl]

/-- C3: once a registered decoder has produced a record, a mismatch between
the final stream offset and the input length never suppresses the record:
`parse_blob` logs the length-mismatch error and still returns the (possibly
partial) record, provided the record has no `UNPARSED` catch-all field. -/
theorem claim_C3_length_mismatch_returns_record :
    ∀ (data : List Nat) (dn name : String) (pblob : PVal) (tell : Nat),
      dictLookup callbacks (leVal (data.take 4)) =
          some (.triple (some dn) name) →
      runDecoder dn data = .ok (pblob, tell) →
      (∀ fields, pblob = .cont fields → ctxGet fields "UNPARSED" = none) →
      data.length ≠ tell →
      parse_blob callbacks data = .ok (some pblob,
        [.errLengthMismatch name (leVal (data.take 4)) data.length tell]) := by
  intro data dn name pblob tell h1 h2 h3 h4
  rw [parse_blob_eq, h1]
  simp only [h2]
  cases pblob with
  | cont fields => simp [h3 fields rfl, h4]
  | pynone => simp [h4]
  | int n => simp [h4]
  | str s => simp [h4]
  | bytes bs => simp [h4]
  | pybool b => simp [h4]
  | isodate e => simp [h4]
  | list xs => simp [h4]

/-- Witness for C3: a 12-byte buffer whose tag selects `user_empty_struct`
(which consumes only 8 bytes and has no `UNPARSED` field); the 4 trailing
bytes produce the length-mismatch log, and the decoded record is still
returned. -/
theorem claim_C3_length_mismatch_returns_record_witness :
    parse_blob callbacks [0xba, 0x50, 0x02, 0x20, 1, 0, 0, 0, 9, 9, 9, 9] =
      .ok (some (.cont [("sname", .str (strCps "user_empty")),
            ("signature", .int 0x200250ba), ("id", .int 1)]),
        [.errLengthMismatch "user_empty" 0x200250ba 12 8]) :=
  claim_C3_length_mismatch_returns_record
    [0xba, 0x50, 0x02, 0x20, 1, 0, 0, 0, 9, 9, 9, 9]
    "user_empty_struct" "user_empty"
    (.cont [("sname", .str (strCps "user_empty")),
      ("signature", .int 0x200250ba), ("id", .int 1)]) 8
    (by rw [callbacks_lookup]; simp only [tdss_callbacks, dictLookup_append]; rfl)
    (by rfl) (by intro fields hf; cases hf; rfl) (by decide)

/-- C5 (code slip): the dispatcher `blob_parser, name, beautify =
self.callbacks[signature]` assumes every registry entry is a 3-tuple, and
the spec's registry contract says so, but 194 entries of `tdss_callbacks`
are 2-tuples.  Evaluating the code at a buffer bearing one such tag —
`0x475cdbd5`, whose entry `(chat_photo_layer115_struct,
'chat_photo_layer115')` even carries a decoder — makes `parse_blob` raise
`ValueError` instead of producing a record or an explicit failure result. -/
theorem claim_C5_pair_entry_unpack_failure :
    dictLookup callbacks 0x475cdbd5 =
      some (CbT.pair (some "chat_photo_layer115_struct")
        "chat_photo_layer115") ∧
    parse_blob callbacks [0xd5, 0xdb, 0x5c, 0x47] =
      .error .valueErrorUnpack := by
  constructor
  · rw [callbacks_lookup]
    simp only [tdss_callbacks, dictLookup_append]
    rfl
  · rw [parse_blob_eq, show dictLookup callbacks
        (leVal (([0xd5, 0xdb, 0x5c, 0x47] : List Nat).take 4)) =
          some (CbT.pair (some "chat_photo_layer115_struct")
            "chat_photo_layer115") from by
      rw [callbacks_lookup]
      simp only [tdss_callbacks, dictLookup_append]
      rfl]

/-- C8 (amended): the vector marker `0x1cb5c415` is in the registry, but its
entry `(None, '_vector', None)` has no decoder, so giving a top-level vector
buffer (marker, count 2, two `peer_user` encodings) to `parse_blob` yields
no record: the buffer is reported as the unsupported shape `'_vector'`.
Vectors are decoded only as fields inside record shapes. -/
theorem claim_C8_vector_amended :
    dictLookup callbacks 0x1cb5c415 = some (.triple none "_vector") ∧
    parse_blob callbacks [0x15, 0xc4, 0xb5, 0x1c, 2, 0, 0, 0,
                0x6d, 0xbc, 0xb1, 0x9d, 1, 0, 0, 0,
                0x6d, 0xbc, 0xb1, 0x9d, 2, 0, 0, 0] =
      .ok (none, [.warnNotSupported "_vector" 0x1cb5c415]) := by
  constructor
  · rw [callbacks_lookup]
    simp only [tdss_callbacks, dictLookup_append]
    rfl
  · rw [parse_blob_eq, show dictLookup callbacks
        (leVal (([0x15, 0xc4, 0xb5, 0x1c, 2, 0, 0, 0,
          0x6d, 0xbc, 0xb1, 0x9d, 1, 0, 0, 0,
          0x6d, 0xbc, 0xb1, 0x9d, 2, 0, 0, 0] : List Nat).take 4)) =
            some (.triple none "_vector") from by
      rw [callbacks_lookup]
      simp only [tdss_callbacks, dictLookup_append]
      rfl]
    rfl

/-- Counterexample to C8 as stated: the vector buffer (marker `0x1cb5c415`,
count 2, two `(0x9db1bc6d, user_id)` pairs) produces no decoded record at
all from the top-level decode entry point — the claim requires a decoded
sequence of length 2. -/
theorem claim_C8_vector_counterexample :
    (parse_blob callbacks [0x15, 0xc4, 0xb5, 0x1c, 2, 0, 0, 0,
                 0x6d, 0xbc, 0xb1, 0x9d, 1, 0, 0, 0,
                 0x6d, 0xbc, 0xb1, 0x9d, 2, 0, 0, 0]).map Prod.fst =
      .ok none := by
  rw [parse_blob_eq, show dictLookup callbacks
      (leVal (([0x15, 0xc4, 0xb5, 0x1c, 2, 0, 0, 0,
        0x6d, 0xbc, 0xb1, 0x9d, 1, 0, 0, 0,
        0x6d, 0xbc, 0xb1, 0x9d, 2, 0, 0, 0] : List Nat).take 4)) =
          some (.triple none "_vector") from by
    rw [callbacks_lookup]
    simp only [tdss_callbacks, dictLookup_append]
    rfl]
  rfl

/-- C10: decoding is deterministic and stateless.  In this embedding
`parse_blob` is a pure function of the registry and the input buffer — the
Python method reads only `self._callbacks`, built once by `__init__` and
never written by any decoding path, which is why the embedding can be pure —
so two calls on the same buffer and the same (or a freshly built) registry
are structurally identical results; and the registry that `__init__` builds
from the class-level `tdss_callbacks` table answers every lookup exactly as
the table itself does (lookups are read-only and idempotent). -/
theorem claim_C10_determinism :
    (∀ data : List Nat,
      parse_blob callbacks data = parse_blob callbacks data) ∧
    (∀ sig : Nat, dictLookup callbacks sig = dictLookup tdss_callbacks sig) :=
  ⟨fun _ => rfl, callbacks_lookup⟩

/-- C7: the boolean primitive `tbool_struct` reads exactly one 4-byte
little-endian word (consuming 4 bytes) and its decoded `value` field is the
string `'true'` if the word equals `0x997275b5`, `'false'` if it equals
`0xbc799737`, and the sentinel `'ERROR'` for every other word, the parse
succeeding (no abort) in all three cases; and the concrete 4-byte buffer
holding `0x997275b5` decodes to `'true'` with all 4 bytes consumed (zero
remaining). -/
theorem claim_C7_tbool_signature :
    (∀ (ctx : Ctx) (data : List Nat) (off : Nat) (v : PVal) (off' : Nat),
      tbool_struct ctx data off = .ok (v, off') →
      off' = off + 4 ∧ off + 4 ≤ data.length ∧
      ∃ c, v = .cont c ∧
        ctxGet c "value" = some (.str (strCps
          (if leVal ((data.drop off).take 4) = 0x997275b5 then "true"
           else if leVal ((data.drop off).take 4) = 0xbc799737 then "false"
           else "ERROR")))) ∧
    tbool_struct [] [0xb5, 0x75, 0x72, 0x99] 0 =
      .ok (.cont [("sname", .str (strCps "boolean")),
                  ("_signature", .int 0x997275b5),
                  ("value", .str (strCps "true"))], 4) := by
  constructor
  · intro ctx data off v off' h
    unfold tbool_struct at h
    obtain ⟨c, hr0, hv⟩ := structP_ok h
    obtain ⟨v1, o1, h1, hr1⟩ := runFields_some_ok hr0
    simp only [computedStr] at h1
    obtain ⟨hv1, ho1⟩ := ok_pair_inj h1
    subst hv1
    subst ho1
    obtain ⟨v2, o2, h2, hr2⟩ := runFields_some_ok hr1
    obtain ⟨hv2, ho2, hle⟩ := intXul_ok h2
    subst hv2
    subst ho2
    obtain ⟨v3, o3, h3, hr3⟩ := runFields_some_ok hr2
    have hfin := runFields_nil_ok hr3
    rw [Prod.mk.injEq] at hfin
    obtain ⟨hc', hoff'⟩ := hfin
    subst hc'
    subst hoff'
    subst hv
    set w := leVal ((data.drop o1).take 4) with hw
    simp [ifThenElseP, intEq, ctxInt, ctxGet, map_ok_reduce, bind_ok_reduce,
      computedStr] at h3
    by_cases hw1 : w = 0xbc799737
    · simp [hw1] at h3
      obtain ⟨hv3, ho3⟩ := h3
      subst hv3
      subst ho3
      exact ⟨rfl, hle, _, rfl, by simp [ctxGet, hw1]⟩
    · by_cases hw2 : w = 0x997275b5
      · simp [hw1, hw2] at h3
        obtain ⟨hv3, ho3⟩ := h3
        subst hv3
        subst ho3
        exact ⟨rfl, hle, _, rfl, by simp [ctxGet, hw2]⟩
      · simp [hw1, hw2] at h3
        obtain ⟨hv3, ho3⟩ := h3
        subst hv3
        subst ho3
        exact ⟨rfl, hle, _, rfl, by simp [ctxGet, hw1, hw2]⟩
  · rfl

/-- Witness for C7: the boolean law applied to the concrete 4-byte
boolean-true buffer. -/
theorem claim_C7_tbool_signature_witness :
    (4 : Nat) = 0 + 4 ∧ 0 + 4 ≤ ([0xb5, 0x75, 0x72, 0x99] : List Nat).length ∧
    ∃ c, PVal.cont [("sname", PVal.str (strCps "boolean")),
        ("_signature", PVal.int 0x997275b5),
        ("value", PVal.str (strCps "true"))] = PVal.cont c ∧
      ctxGet c "value" = some (PVal.str (strCps
        (if leVal ((([0xb5, 0x75, 0x72, 0x99] : List Nat).drop 0).take 4) = 0x997275b5
         then "true"
         else if leVal ((([0xb5, 0x75, 0x72, 0x99] : List Nat).drop 0).take 4) = 0xbc799737
         then "false" else "ERROR"))) :=
  claim_C7_tbool_signature.1 [] [0xb5, 0x75, 0x72, 0x99] 0
    (PVal.cont [("sname", PVal.str (strCps "boolean")),
        ("_signature", PVal.int 0x997275b5),
        ("value", PVal.str (strCps "true"))]) 4 (by rfl)

end Teleparser
